import Mathlib

/-!
osgCompute / osgCuda: buffers resident in host and device memory.

A shallow embedding of `src/osgCompute/Buffer.cpp` and `src/osgCuda/Array.cpp`.

* `unsigned int` values are natural numbers; every operation that can wrap is written
  with an explicit `% 2 ^ 32`.
* Pointers are natural numbers, `0` being `NULL`.
* The enumerations `osgCompute::Mapping` and the allocation hints are declared in headers
  that are not among the sources; their values are the fields of `Constants`, a parameter
  of every function that reads one.
* The base class `osgCompute::Resource` is not among the sources either; it is modelled
  from the spec as a clear flag with a list of registered contexts.
* Calls that leave the repository (allocation primitives of the context, copies of the
  CUDA runtime, the subload callback) are answered by a `Runtime` and recorded in a log.
* `clearLocal` is a non-virtual member of each class: `Array::clear` calls its own and then
  `Buffer::clear`, which calls `Buffer::clearLocal`.
-/

namespace osgCompute

/-- Number of values of an `unsigned int`. -/
def UINT_SIZE : Nat := 2 ^ 32

/-- Largest `unsigned int`. -/
def UINT_MAX : Nat := 2 ^ 32 - 1

/-- Number of values of a `size_t`. -/
def SIZE_T_SIZE : Nat := 2 ^ 64

/-- Values of the enumerators the sources read from headers that are not among them:
`osgCompute::Mapping` (UNMAPPED, MAP_HOST, ...) and the allocation hints. -/
structure Constants where
  UNMAPPED : Nat
  MAP_HOST : Nat
  MAP_HOST_SOURCE : Nat
  MAP_HOST_TARGET : Nat
  MAP_DEVICE : Nat
  MAP_DEVICE_SOURCE : Nat
  MAP_DEVICE_TARGET : Nat
  NO_ALLOC_HINT : Nat
  ALLOC_DYNAMIC : Nat
  deriving DecidableEq

/-- The C++ truth value of `a & b`. -/
def bitTest (a b : Nat) : Bool := (a &&& b) != 0

/-- A `cudaChannelFormatDesc`: four `int` bit widths and the format kind. -/
structure ChannelFormatDesc where
  x : Int
  y : Int
  z : Int
  w : Int
  f : Int
  deriving DecidableEq

/-- Calls that leave the repository, with the arguments the sources pass, and the
construction of a stream. Copies carry destination and source pointers first. -/
inductive Call where
  | newStream (ctx : Nat)
  | mallocHostMemory (bytes : Nat)
  | mallocDeviceHostMemory (bytes : Nat)
  | mallocDeviceArray (width : Nat) (desc : ChannelFormatDesc)
  | mallocDevice2DArray (width height : Nat) (desc : ChannelFormatDesc)
  | mallocDevice3DArray (width height depth : Nat) (desc : ChannelFormatDesc)
  | freeMemory (ptr : Nat)
  | cudaMemcpy (dst src count : Nat)
  | cudaMemcpyToArray (dst src count : Nat)
  | cudaMemcpyFromArray (dst src count : Nat)
  | cudaMemcpy2DToArray (dst src spitch width height : Nat)
  | cudaMemcpy2DFromArray (dst dpitch src width height : Nat)
  | cudaMemcpy3DToArray (dst src pitch xsize ysize width height depth : Nat)
  | cudaMemcpy3DFromArray (dst pitch xsize ysize src width height depth : Nat)
  | load (ptr mapping ctx : Nat)
  | subload (ptr mapping ctx : Nat)
  deriving DecidableEq

end osgCompute

namespace osgCuda

/-- The per-context state `osgCuda::ArrayStream`, with the members it inherits from
`osgCompute::BufferStream` (`_mapping`, `_allocHint`, `_context`). `ArrayStream` declares a
member `_allocHint` of its own (its constructor initialises it), which hides the inherited
one: the inherited member is `BufferStream_allocHint` here, the one `Array.cpp` reads is
`_allocHint`. `_context` holds the id of the context. -/
structure ArrayStream where
  _mapping : Nat
  BufferStream_allocHint : Nat
  _context : Option Nat
  _devArray : Nat
  _hostPtr : Nat
  _syncDevice : Bool
  _syncHost : Bool
  _allocHint : Nat
  _devArrayAllocated : Bool
  _hostPtrAllocated : Bool
  _modifyCount : Nat
  deriving DecidableEq

end osgCuda

namespace osgCompute

/-- A subload callback: whether the dynamic cast to `BufferSubloadCallback` succeeds.
What `load` and `subload` do is left to the `Runtime`. -/
structure SubloadCallback where
  isBufferSubloadCallback : Bool
  deriving DecidableEq

/-- Modelled from the spec: the base class `osgCompute::Resource`, whose source file is not
among the sources. The spec calls it "a trivial init/clear lifecycle object each buffer
wraps" with "ownership/registration bookkeeping": a clear flag and the ids of the
registered contexts. -/
structure Resource where
  _clear : Bool
  _contexts : List Nat
  deriving DecidableEq

/-- Modelled from the spec: `Resource::isClear`. -/
def Resource.isClear (r : Resource) : Bool := r._clear

/-- Modelled from the spec: `Resource::init()` leaves the clear state and succeeds. -/
def Resource.init (r : Resource) : Bool × Resource :=
  (true, { r with _clear := false })

/-- Modelled from the spec: `Resource::clear()` returns to the clear state and forgets the
registered contexts. -/
def Resource.clear (_r : Resource) : Resource :=
  { _clear := true, _contexts := [] }

/-- Modelled from the spec: `Resource::init(context)` registers the context. -/
def Resource.initContext (r : Resource) (ctx : Nat) : Bool × Resource :=
  (true, { r with _contexts := if ctx ∈ r._contexts then r._contexts else ctx :: r._contexts })

/-- Modelled from the spec: `Resource::clear(context)` unregisters the context. -/
def Resource.clearContext (r : Resource) (ctx : Nat) : Resource :=
  { r with _contexts := r._contexts.filter (fun c => c != ctx) }

/-- The data members of `osgCompute::Buffer` on top of its `Resource` base. -/
structure Buffer extends Resource where
  _dimensions : List Nat
  _numElements : Nat
  _elementSize : Nat
  _allocHint : Nat
  _subloadCallback : Option SubloadCallback
  _streams : List (Option osgCuda.ArrayStream)
  deriving DecidableEq

/-- `std::vector::resize(n, v)`. -/
def resize {α : Type} (l : List α) (n : Nat) (v : α) : List α :=
  l.take n ++ List.replicate (n - l.length) v

namespace Buffer

/-- `Buffer::clearLocal`. -/
def clearLocal (K : Constants) (b : Buffer) : Buffer :=
  { b with
    _streams := []
    _dimensions := []
    _numElements := 0
    _elementSize := 0
    _allocHint := K.NO_ALLOC_HINT
    _subloadCallback := none }

/-- `Buffer::clear()`: `Resource::clear()` then `clearLocal()`. -/
def clear (K : Constants) (b : Buffer) : Buffer :=
  clearLocal K { b with toResource := b.toResource.clear }

/-- The constructor `Buffer::Buffer()`: a `Resource` in the clear state, then `clearLocal()`. -/
def new (K : Constants) : Buffer :=
  clearLocal K
    { _clear := true, _contexts := [], _dimensions := [], _numElements := 0,
      _elementSize := 0, _allocHint := 0, _subloadCallback := none, _streams := [] }

/-- The loop of `Buffer::init`: `_numElements = 1; for d: _numElements *= _dimensions[d]`. -/
def computeNumElements (dims : List Nat) : Nat :=
  dims.foldl (fun n d => (n * d) % UINT_SIZE) 1

/-- `Buffer::init()`. -/
def init (b : Buffer) : Bool × Buffer :=
  if !b.isClear then (true, b)
  else if b._dimensions.isEmpty then (false, b)
  else if b._elementSize == 0 then (false, b)
  else
    let b1 := { b with _numElements := computeNumElements b._dimensions }
    let r := b1.toResource.init
    (r.1, { b1 with toResource := r.2 })

/-- `Buffer::setElementSize`. -/
def setElementSize (b : Buffer) (elementSize : Nat) : Buffer :=
  if !b.isClear then b else { b with _elementSize := elementSize }

/-- `Buffer::getElementSize`. -/
def getElementSize (b : Buffer) : Nat := b._elementSize

/-- `Buffer::getNumElements`. -/
def getNumElements (b : Buffer) : Nat := b._numElements

/-- `Buffer::getByteSize`. -/
def getByteSize (b : Buffer) : Nat := (b.getElementSize * b.getNumElements) % UINT_SIZE

/-- `Buffer::setDimension`. The new size `dimIdx+1` is computed in `unsigned int`; a store
at an index outside the vector changes nothing here. -/
def setDimension (b : Buffer) (dimIdx dimSize : Nat) : Buffer :=
  if !b.isClear then b
  else
    let dims :=
      if b._dimensions.length ≤ dimIdx then resize b._dimensions ((dimIdx + 1) % UINT_SIZE) 0
      else b._dimensions
    { b with _dimensions := dims.set dimIdx dimSize }

/-- `Buffer::getDimension`. The bound `_dimensions.size()-1` is computed in `size_t`, so it
wraps to the largest `size_t` for an empty vector; `none` is a read outside the vector. -/
def getDimension (b : Buffer) (dimIdx : Nat) : Option Nat :=
  if dimIdx > (b._dimensions.length + SIZE_T_SIZE - 1) % SIZE_T_SIZE then some 0
  else b._dimensions[dimIdx]?

/-- `Buffer::getNumDimensions`. -/
def getNumDimensions (b : Buffer) : Nat := b._dimensions.length % UINT_SIZE

/-- `Buffer::setAllocHint`. -/
def setAllocHint (b : Buffer) (allocHint : Nat) : Buffer :=
  if !b.isClear then b else { b with _allocHint := b._allocHint ||| allocHint }

/-- `Buffer::getAllocHint`. -/
def getAllocHint (b : Buffer) : Nat := b._allocHint

end Buffer

/-- The facts the sources read from a context: its id and the thread it is assigned to. -/
structure Context where
  getId : Nat
  getAssignedThread : Nat
  deriving DecidableEq

/-- A device array as the copies observe it: texel size in bytes, width in texels, height
in rows, and its bytes in row-major order without padding. -/
structure DevArray where
  texel : Nat
  width : Nat
  height : Nat
  bytes : List Nat
  deriving DecidableEq

/-- Contents of memory: the bytes of the host region that starts at a pointer and the
device array behind a handle. -/
structure Mem where
  host : Nat → List Nat
  dev : Nat → DevArray

/-- What is outside the repository during one call: the calling thread, the pointer an
allocation primitive of the context returns (`0` when it fails), the effect of a copy of
the CUDA runtime (`none` when it does not return `cudaSuccess`), and the effect of the
subload callback through the pointer it is given. -/
structure Runtime where
  currentThread : Nat
  malloc : Call → Nat
  memcpy : Call → Mem → Option Mem
  callback : Call → Mem → Mem

/-- Memory together with the log of the calls made so far, oldest first. -/
structure World where
  mem : Mem
  log : List Call

/-- Record a call that does not touch memory. -/
def World.record (w : World) (c : Call) : World :=
  { w with log := w.log ++ [c] }

/-- `Buffer::init(const Context&)`, with the virtual factory `newStream` as a parameter.
Returns the result, the buffer and the world. -/
def Buffer.initContext (newStream : Context → Option osgCuda.ArrayStream) (b : Buffer)
    (context : Context) (w : World) : Bool × Buffer × World :=
  let streams :=
    if b._streams.length ≤ context.getId then
      resize b._streams ((context.getId + 1) % UINT_SIZE) none
    else b._streams
  match streams.getD context.getId none with
  | some _ =>
    let r := b.toResource.initContext context.getId
    (r.1, { b with toResource := r.2, _streams := streams }, w)
  | none =>
    match newStream context with
    | none => (false, { b with _streams := streams }, w)
    | some s =>
      let s1 := { s with _context := some context.getId, BufferStream_allocHint := b.getAllocHint }
      let r := b.toResource.initContext context.getId
      (r.1, { b with toResource := r.2, _streams := streams.set context.getId (some s1) },
        w.record (Call.newStream context.getId))

/-- `Buffer::lookupStream`: the buffer after the lookup, the world, and the stream in the
slot of the context (`none` for `NULL`). -/
def Buffer.lookupStream (newStream : Context → Option osgCuda.ArrayStream) (b : Buffer)
    (context : Context) (w : World) : Buffer × World × Option osgCuda.ArrayStream :=
  let r :=
    if b._streams.length ≤ context.getId || (b._streams.getD context.getId none).isNone then
      let i := b.initContext newStream context w
      (i.2.1, i.2.2)
    else (b, w)
  (r.1, r.2, r.1._streams.getD context.getId none)

/-- `Buffer::newStream`: the base class has no stream to offer. -/
def Buffer.newStream (_context : Context) : Option osgCuda.ArrayStream := none

/-- `Buffer::getMapping`. -/
def Buffer.getMapping (K : Constants) (newStream : Context → Option osgCuda.ArrayStream)
    (b : Buffer) (context : Context) (w : World) : Nat × Buffer × World :=
  if b.isClear then (K.UNMAPPED, b, w)
  else
    let r := b.lookupStream newStream context w
    match r.2.2 with
    | none => (K.UNMAPPED, r.1, r.2.1)
    | some stream => (stream._mapping, r.1, r.2.1)

end osgCompute

namespace osg

/-- The facts the sources read from an `osg::Image`. -/
structure Image where
  getNumMipmapLevels : Nat
  getTotalSizeInBytes : Nat
  getModifiedCount : Nat
  data : Nat
  deriving DecidableEq

/-- The facts the sources read from an `osg::Array`. -/
structure Array where
  getTotalDataSize : Nat
  getModifiedCount : Nat
  getDataPointer : Nat
  deriving DecidableEq

end osg

namespace osgCuda

open osgCompute

/-- Largest `int`. -/
def INT_MAX : Int := 2 ^ 31 - 1

/-- The `int` whose four bytes all hold `(unsigned char) c`: what `memset(p, c, n)` leaves
in an `int` it covers. -/
def memsetInt (c : Int) : Int :=
  let u : Int := (c % 256) * (256 ^ 3 + 256 ^ 2 + 256 + 1)
  if u < 2 ^ 31 then u else u - 2 ^ 32

/-- The data members of `osgCuda::Array` on top of its `Buffer` base. -/
structure Array extends Buffer where
  _image : Option osg.Image
  _array : Option osg.Array
  _channelFormatDesc : ChannelFormatDesc
  deriving DecidableEq

/-- The constructor `ArrayStream::ArrayStream()` after `BufferStream::BufferStream()`. -/
def ArrayStream.new (K : Constants) : ArrayStream :=
  { _mapping := K.UNMAPPED
    BufferStream_allocHint := 0
    _context := none
    _devArray := 0
    _hostPtr := 0
    _syncDevice := false
    _syncHost := false
    _allocHint := 0
    _devArrayAllocated := false
    _hostPtrAllocated := false
    _modifyCount := UINT_MAX }

namespace Array

/-- `Array::clearLocal`. -/
def clearLocal (a : Array) : Array :=
  { a with
    _image := none
    _array := none
    _channelFormatDesc :=
      { x := memsetInt INT_MAX, y := memsetInt INT_MAX, z := memsetInt INT_MAX,
        w := memsetInt INT_MAX, f := memsetInt INT_MAX } }

/-- `Array::clear()`: `clearLocal()` then `Buffer::clear()`. -/
def clear (K : Constants) (a : Array) : Array :=
  let a1 := a.clearLocal
  { a1 with toBuffer := a1.toBuffer.clear K }

/-- The constructor `Array::Array()`: `Buffer()` then `clearLocal()`. -/
def new (K : Constants) : Array :=
  clearLocal
    { toBuffer := Buffer.new K, _image := none, _array := none,
      _channelFormatDesc := { x := 0, y := 0, z := 0, w := 0, f := 0 } }

/-- `Buffer::getDimension` as the array code uses its result. The array code reads a
dimension only below the rank it has just tested; a read outside the vector gives 0 here. -/
def getDimension (a : Array) (dimIdx : Nat) : Nat := (a.toBuffer.getDimension dimIdx).getD 0

/-- The accessor `getChannelFormatDesc` of the header. -/
def getChannelFormatDesc (a : Array) : ChannelFormatDesc := a._channelFormatDesc

/-- The local `numElements` of `Array::init`. -/
def initNumElements (a : Array) : Nat :=
  (List.range a.getNumDimensions).foldl (fun n d => (n * a.getDimension d) % UINT_SIZE) 1

/-- The local `byteSize` of `Array::init`. -/
def initByteSize (a : Array) : Nat := (a.initNumElements * a.getElementSize) % UINT_SIZE

/-- `Array::init()`. -/
def init (K : Constants) (a : Array) : Bool × Array :=
  if a.getNumDimensions > 3 then (false, a.clear K)
  else
    let byteSize := a.initByteSize
    let imageMipmaps :=
      match a._image with
      | some image => decide (image.getNumMipmapLevels > 1)
      | none => false
    let imageSize :=
      match a._image with
      | some image => image.getTotalSizeInBytes != byteSize
      | none => false
    let arraySize :=
      match a._array with
      | some array => array.getTotalDataSize != byteSize
      | none => false
    if imageMipmaps then (false, a.clear K)
    else if imageSize then (false, a.clear K)
    else if arraySize then (false, a.clear K)
    else
      let r := a.toBuffer.init
      (r.1, { a with toBuffer := r.2 })

/-- `Array::newStream`. -/
def newStream (K : Constants) (_context : Context) : Option ArrayStream :=
  some (ArrayStream.new K)

/-- `Array::unmapStream`. -/
def unmapStream (K : Constants) (stream : ArrayStream) : ArrayStream :=
  let s1 :=
    if bitTest stream._mapping K.MAP_HOST_TARGET then { stream with _syncDevice := true }
    else if bitTest stream._mapping K.MAP_DEVICE_TARGET then { stream with _syncHost := true }
    else stream
  { s1 with _mapping := K.UNMAPPED }

/-- The flag `needsSetup` of `mapStream` and `mapArrayStream`. -/
def needsSetup (a : Array) (stream : ArrayStream) : Bool :=
  (match a._image with
    | some image => image.getModifiedCount != stream._modifyCount
    | none => false) ||
  (match a._array with
    | some array => array.getModifiedCount != stream._modifyCount
    | none => false)

/-- The callback block of `mapStream` and `mapArrayStream`: when a callback is set and
casts to `BufferSubloadCallback`, `load` (first load) or `subload` runs on the pointer. -/
def invokeCallback (rt : Runtime) (a : Array) (stream : ArrayStream) (ptr mapping : Nat)
    (firstLoad : Bool) (w : World) : World :=
  match a._subloadCallback with
  | none => w
  | some callback =>
    if ptr == 0 then w
    else if callback.isBufferSubloadCallback then
      let c :=
        if firstLoad then Call.load ptr mapping (stream._context.getD 0)
        else Call.subload ptr mapping (stream._context.getD 0)
      { mem := rt.callback c w.mem, log := w.log ++ [c] }
    else w

/-- The allocation call of the host branch of `allocStream`. -/
def hostAllocCall (K : Constants) (a : Array) (stream : ArrayStream) : Call :=
  if (stream._allocHint &&& K.ALLOC_DYNAMIC) == K.ALLOC_DYNAMIC then
    Call.mallocDeviceHostMemory a.getByteSize
  else Call.mallocHostMemory a.getByteSize

/-- The allocation call of the device branch of `allocStream`. -/
def deviceAllocCall (a : Array) : Call :=
  if a.getNumDimensions == 3 then
    Call.mallocDevice3DArray (a.getDimension 0)
      (if a.getDimension 1 ≤ 1 then 0 else a.getDimension 1)
      (if a.getDimension 2 ≤ 1 then 0 else a.getDimension 2)
      a.getChannelFormatDesc
  else if a.getNumDimensions == 2 then
    Call.mallocDevice2DArray (a.getDimension 0)
      (if a.getDimension 1 ≤ 1 then 0 else a.getDimension 1)
      a.getChannelFormatDesc
  else Call.mallocDeviceArray (a.getDimension 0) a.getChannelFormatDesc

/-- `Array::allocStream`. -/
def allocStream (K : Constants) (rt : Runtime) (a : Array) (mapping : Nat)
    (stream : ArrayStream) (w : World) : Bool × ArrayStream × World :=
  if bitTest mapping K.MAP_HOST then
    if stream._hostPtr != 0 then (true, stream, w)
    else
      let c := hostAllocCall K a stream
      let s1 := { stream with _hostPtr := rt.malloc c }
      if s1._hostPtr == 0 then (false, s1, w.record c)
      else
        let s2 := { s1 with _hostPtrAllocated := true }
        let s3 := if s2._devArray != 0 then { s2 with _syncHost := true } else s2
        (true, s3, w.record c)
  else if bitTest mapping K.MAP_DEVICE then
    if stream._devArray != 0 then (true, stream, w)
    else
      let desc := a.getChannelFormatDesc
      if desc.x == INT_MAX && desc.y == INT_MAX && desc.z == INT_MAX then (false, stream, w)
      else
        let c := deviceAllocCall a
        let s1 := { stream with _devArray := rt.malloc c }
        if s1._devArray == 0 then (false, s1, w.record c)
        else
          let s2 := { s1 with _devArrayAllocated := true }
          let s3 := if s2._hostPtr != 0 then { s2 with _syncDevice := true } else s2
          (true, s3, w.record c)
  else (false, stream, w)

/-- The pointer `data` of `setupStream`: the image's data, overridden by the array's. -/
def sourceData (a : Array) : Nat :=
  let data := match a._image with
    | some image => image.data
    | none => 0
  match a._array with
  | some array => array.getDataPointer
  | none => data

/-- The counter `setupStream` stores in `_modifyCount`: the image's when an image is set,
else the array's. With neither set the sources dereference a null pointer; `setupStream`
returns before that, because `data` is then null. -/
def sourceModifiedCount (a : Array) (stream : ArrayStream) : Nat :=
  match a._image with
  | some image => image.getModifiedCount
  | none =>
    match a._array with
    | some array => array.getModifiedCount
    | none => stream._modifyCount

/-- The row pitch `getDimension(0) * getElementSize()` of the strided copies. -/
def rowPitch (a : Array) : Nat := (a.getDimension 0 * a.getElementSize) % UINT_SIZE

/-- The copy `setupStream` issues for a device-side mapping. -/
def setupDeviceCall (a : Array) (stream : ArrayStream) : Call :=
  if a.getNumDimensions < 3 then
    Call.cudaMemcpyToArray stream._devArray a.sourceData a.getByteSize
  else
    Call.cudaMemcpy3DToArray stream._devArray a.sourceData a.rowPitch (a.getDimension 0)
      (a.getDimension 1) (a.getDimension 0) (a.getDimension 1) (a.getDimension 2)

/-- The copy `setupStream` issues for a host-side mapping. -/
def setupHostCall (a : Array) (stream : ArrayStream) : Call :=
  Call.cudaMemcpy stream._hostPtr a.sourceData a.getByteSize

/-- `Array::setupStream`. -/
def setupStream (K : Constants) (rt : Runtime) (a : Array) (mapping : Nat)
    (stream : ArrayStream) (w : World) : Bool × ArrayStream × World :=
  if bitTest mapping K.MAP_DEVICE then
    if a.sourceData == 0 then (false, stream, w)
    else
      let c := setupDeviceCall a stream
      match rt.memcpy c w.mem with
      | none => (false, stream, w.record c)
      | some m =>
        (true, { stream with _syncHost := true, _modifyCount := a.sourceModifiedCount stream },
          { mem := m, log := w.log ++ [c] })
  else if bitTest mapping K.MAP_HOST then
    if a.sourceData == 0 then (false, stream, w)
    else
      let c := setupHostCall a stream
      match rt.memcpy c w.mem with
      | none => (false, stream, w.record c)
      | some m =>
        (true, { stream with _syncDevice := true, _modifyCount := a.sourceModifiedCount stream },
          { mem := m, log := w.log ++ [c] })
  else (false, stream, w)

/-- The copy `syncStream` issues for a device-side mapping (host to device). -/
def syncDeviceCall (a : Array) (stream : ArrayStream) : Call :=
  if a.getNumDimensions == 1 then
    Call.cudaMemcpyToArray stream._devArray stream._hostPtr a.getByteSize
  else if a.getNumDimensions == 2 then
    Call.cudaMemcpy2DToArray stream._devArray stream._hostPtr a.rowPitch (a.getDimension 0)
      (a.getDimension 1)
  else
    Call.cudaMemcpy3DToArray stream._devArray stream._hostPtr a.rowPitch (a.getDimension 0)
      (a.getDimension 1) (a.getDimension 0) (a.getDimension 1) (a.getDimension 2)

/-- The copy `syncStream` issues for a host-side mapping (device to host). -/
def syncHostCall (a : Array) (stream : ArrayStream) : Call :=
  if a.getNumDimensions == 1 then
    Call.cudaMemcpyFromArray stream._hostPtr stream._devArray a.getByteSize
  else if a.getNumDimensions == 2 then
    Call.cudaMemcpy2DFromArray stream._hostPtr a.rowPitch stream._devArray (a.getDimension 0)
      (a.getDimension 1)
  else
    Call.cudaMemcpy3DFromArray stream._hostPtr a.rowPitch (a.getDimension 0) (a.getDimension 1)
      stream._devArray (a.getDimension 0) (a.getDimension 1) (a.getDimension 2)

/-- `Array::syncStream`. -/
def syncStream (K : Constants) (rt : Runtime) (a : Array) (mapping : Nat)
    (stream : ArrayStream) (w : World) : Bool × ArrayStream × World :=
  if bitTest mapping K.MAP_DEVICE then
    let c := syncDeviceCall a stream
    match rt.memcpy c w.mem with
    | none => (false, stream, w.record c)
    | some m => (true, { stream with _syncDevice := false }, { mem := m, log := w.log ++ [c] })
  else if bitTest mapping K.MAP_HOST then
    let c := syncHostCall a stream
    match rt.memcpy c w.mem with
    | none => (false, stream, w.record c)
    | some m => (true, { stream with _syncHost := false }, { mem := m, log := w.log ++ [c] })
  else (false, stream, w)

/-- The statement `else if( stream._mapping != UNMAPPED ) unmapStream( stream )` of
`mapStream` and `mapArrayStream`. -/
def unmapIfMapped (K : Constants) (stream : ArrayStream) : ArrayStream :=
  if stream._mapping != K.UNMAPPED then unmapStream K stream else stream

/-- Block "ALLOCATE HOST-MEMORY" of `mapStream`: `allocStream` runs when `_hostPtr` is null. -/
def allocHostIfNull (K : Constants) (rt : Runtime) (a : Array) (mapping : Nat)
    (stream : ArrayStream) (w : World) : Bool × ArrayStream × World :=
  if stream._hostPtr == 0 then allocStream K rt a mapping stream w else (true, stream, w)

/-- Block "ALLOCATE DEVICE-MEMORY" of `mapArrayStream`: `allocStream` runs when `_devArray`
is null. -/
def allocDeviceIfNull (K : Constants) (rt : Runtime) (a : Array) (mapping : Nat)
    (stream : ArrayStream) (w : World) : Bool × ArrayStream × World :=
  if stream._devArray == 0 then allocStream K rt a mapping stream w else (true, stream, w)

/-- Block "SETUP STREAM": `setupStream` runs when `needsSetup` is set. -/
def setupIfNeeded (K : Constants) (rt : Runtime) (a : Array) (mapping : Nat)
    (needsSetup : Bool) (stream : ArrayStream) (w : World) : Bool × ArrayStream × World :=
  if needsSetup then setupStream K rt a mapping stream w else (true, stream, w)

/-- Block "SYNC STREAM" of `mapStream`: `syncStream` runs when `_syncHost` is set and a
device array exists. -/
def syncHostIfPending (K : Constants) (rt : Runtime) (a : Array) (mapping : Nat)
    (stream : ArrayStream) (w : World) : Bool × ArrayStream × World :=
  if stream._syncHost && stream._devArray != 0 then syncStream K rt a mapping stream w
  else (true, stream, w)

/-- Block "SYNC STREAM" of `mapArrayStream`: `syncStream` runs when `_syncDevice` is set and
a host pointer exists. -/
def syncDeviceIfPending (K : Constants) (rt : Runtime) (a : Array) (mapping : Nat)
    (stream : ArrayStream) (w : World) : Bool × ArrayStream × World :=
  if stream._syncDevice && stream._hostPtr != 0 then syncStream K rt a mapping stream w
  else (true, stream, w)

/-- `Array::mapStream`: the pointer returned, the stream and the world afterwards. -/
def mapStream (K : Constants) (rt : Runtime) (a : Array) (stream : ArrayStream)
    (mapping : Nat) (w : World) : Nat × ArrayStream × World :=
  let needsSetup := a.needsSetup stream
  if (bitTest stream._mapping K.MAP_HOST && bitTest mapping K.MAP_HOST) && !needsSetup then
    (stream._hostPtr, { stream with _mapping := mapping },
      invokeCallback rt a stream stream._hostPtr mapping false w)
  else
    let s1 := { unmapIfMapped K stream with _mapping := mapping }
    if bitTest s1._mapping K.MAP_HOST then
      let firstLoad := s1._hostPtr == 0
      let r1 := allocHostIfNull K rt a mapping s1 w
      if !r1.1 then (0, r1.2.1, r1.2.2)
      else
        let r2 := setupIfNeeded K rt a mapping needsSetup r1.2.1 r1.2.2
        if !r2.1 then (0, r2.2.1, r2.2.2)
        else
          let r3 := syncHostIfPending K rt a mapping r2.2.1 r2.2.2
          if !r3.1 then (0, r3.2.1, r3.2.2)
          else
            (r3.2.1._hostPtr, r3.2.1,
              invokeCallback rt a r3.2.1 r3.2.1._hostPtr mapping firstLoad r3.2.2)
    else (0, s1, w)

/-- `Array::mapArrayStream`: the handle returned, the stream and the world afterwards. -/
def mapArrayStream (K : Constants) (rt : Runtime) (a : Array) (stream : ArrayStream)
    (mapping : Nat) (w : World) : Nat × ArrayStream × World :=
  let needsSetup := a.needsSetup stream
  if (bitTest stream._mapping K.MAP_DEVICE && bitTest mapping K.MAP_DEVICE) && !needsSetup then
    (stream._devArray, { stream with _mapping := mapping },
      invokeCallback rt a stream stream._devArray mapping false w)
  else
    let s1 := { unmapIfMapped K stream with _mapping := mapping }
    if bitTest s1._mapping K.MAP_DEVICE then
      let firstLoad := s1._devArray == 0
      let r1 := allocDeviceIfNull K rt a mapping s1 w
      if !r1.1 then (0, r1.2.1, r1.2.2)
      else
        let r2 := setupIfNeeded K rt a mapping needsSetup r1.2.1 r1.2.2
        if !r2.1 then (0, r2.2.1, r2.2.2)
        else
          let r3 := syncDeviceIfPending K rt a mapping r2.2.1 r2.2.2
          if !r3.1 then (0, r3.2.1, r3.2.2)
          else
            (r3.2.1._devArray, r3.2.1,
              invokeCallback rt a r3.2.1 r3.2.1._devArray mapping firstLoad r3.2.2)
    else (0, s1, w)

/-- Store a stream back into the slot of a context: the sources work on the stream
through the pointer `lookupStream` returned. -/
def setStream (a : Array) (context : Context) (stream : ArrayStream) : Array :=
  { a with _streams := a._streams.set context.getId (some stream) }

/-- `Array::map`. -/
def map (K : Constants) (rt : Runtime) (a : Array) (context : Context) (mapping : Nat)
    (w : World) : Nat × Array × World :=
  if a.isClear then (0, a, w)
  else if context.getAssignedThread != rt.currentThread then (0, a, w)
  else
    let r := a.toBuffer.lookupStream (newStream K) context w
    let a1 : Array := { a with toBuffer := r.1 }
    match r.2.2 with
    | none => (0, a1, r.2.1)
    | some stream =>
      if bitTest mapping K.MAP_DEVICE then
        let m := mapArrayStream K rt a1 stream mapping r.2.1
        (m.1, a1.setStream context m.2.1, m.2.2)
      else if bitTest mapping K.MAP_HOST then
        let m := mapStream K rt a1 stream mapping r.2.1
        (m.1, a1.setStream context m.2.1, m.2.2)
      else (0, a1.setStream context (unmapStream K stream), r.2.1)

/-- `Array::mapArray`. -/
def mapArray (K : Constants) (rt : Runtime) (a : Array) (context : Context) (mapping : Nat)
    (w : World) : Nat × Array × World :=
  if a.isClear then (0, a, w)
  else if context.getAssignedThread != rt.currentThread then (0, a, w)
  else if bitTest mapping K.MAP_HOST then (0, a, w)
  else
    let r := a.toBuffer.lookupStream (newStream K) context w
    let a1 : Array := { a with toBuffer := r.1 }
    match r.2.2 with
    | none => (0, a1, r.2.1)
    | some stream =>
      if mapping != K.UNMAPPED then
        let m := mapArrayStream K rt a1 stream mapping r.2.1
        (m.1, a1.setStream context m.2.1, m.2.2)
      else (0, a1.setStream context (unmapStream K stream), r.2.1)

/-- `Array::unmap`. -/
def unmap (K : Constants) (rt : Runtime) (a : Array) (context : Context) (w : World) :
    Array × World :=
  if a.isClear then (a, w)
  else if context.getAssignedThread != rt.currentThread then (a, w)
  else
    let r := a.toBuffer.lookupStream (newStream K) context w
    let a1 : Array := { a with toBuffer := r.1 }
    match r.2.2 with
    | none => (a1, r.2.1)
    | some stream => (a1.setStream context (unmapStream K stream), r.2.1)

/-- `Buffer::getMapping` on an array: the virtual factory is `Array::newStream`. -/
def getMapping (K : Constants) (a : Array) (context : Context) (w : World) :
    Nat × Array × World :=
  let r := a.toBuffer.getMapping K (newStream K) context w
  (r.1, { a with toBuffer := r.2.1 }, r.2.2)

/-- `Array::setImage` (`none` is a null pointer). -/
def setImage (a : Array) (image : Option osg.Image) : Array :=
  match image with
  | some i =>
    if !a.isClear && decide (i.getNumMipmapLevels > 1) then a
    else if !a.isClear && i.getTotalSizeInBytes != a.getByteSize then a
    else { a with _image := image, _array := none }
  | none => { a with _image := none, _array := none }

/-- `Array::setArray` (`none` is a null pointer). -/
def setArray (a : Array) (array : Option osg.Array) : Array :=
  match array with
  | some r =>
    if !a.isClear && r.getTotalDataSize != a.getByteSize then a
    else { a with _array := array, _image := none }
  | none => { a with _array := none, _image := none }

end Array

end osgCuda

namespace cuda

open osgCompute

/-- Overwrite the bytes of `dst` whose index `pick` maps to an index of `src`. -/
def gather (dst src : List Nat) (pick : Nat → Option Nat) : List Nat :=
  (List.range dst.length).map fun i =>
    match pick i with
    | some j => src.getD j 0
    | none => dst.getD i 0

/-- Bytes in one row of a device array. -/
def rowBytes (d : DevArray) : Nat := d.width * d.texel

/-- Memory with the host region at `p` replaced. -/
def setHost (m : Mem) (p : Nat) (bytes : List Nat) : Mem :=
  { m with host := fun q => if q = p then bytes else m.host q }

/-- Memory with the bytes of the device array at `p` replaced. -/
def setDev (m : Mem) (p : Nat) (bytes : List Nat) : Mem :=
  { m with dev := fun q => if q = p then { m.dev p with bytes := bytes } else m.dev q }

/-- The copies of the CUDA runtime as its reference manual documents them, all succeeding.
`cudaMemcpy`, `cudaMemcpyToArray` and `cudaMemcpyFromArray` copy `count` bytes. The 2D
copies move `height` rows of `width` bytes each, `spitch`/`dpitch` bytes apart in host
memory. The 3D copies take their extent in texels of the array. Offsets into the array are
0 in every call the sources make. -/
def memcpy (c : Call) (m : Mem) : Option Mem :=
  match c with
  | Call.cudaMemcpy dst src count =>
    some (setHost m dst (gather (m.host dst) (m.host src)
      (fun i => if i < count then some i else none)))
  | Call.cudaMemcpyToArray dst src count =>
    some (setDev m dst (gather (m.dev dst).bytes (m.host src)
      (fun i => if i < count then some i else none)))
  | Call.cudaMemcpyFromArray dst src count =>
    some (setHost m dst (gather (m.host dst) (m.dev src).bytes
      (fun i => if i < count then some i else none)))
  | Call.cudaMemcpy2DToArray dst src spitch width height =>
    let rb := rowBytes (m.dev dst)
    some (setDev m dst (gather (m.dev dst).bytes (m.host src)
      (fun i => if i / rb < height ∧ i % rb < width then some (i / rb * spitch + i % rb)
        else none)))
  | Call.cudaMemcpy2DFromArray dst dpitch src width height =>
    let rb := rowBytes (m.dev src)
    some (setHost m dst (gather (m.host dst) (m.dev src).bytes
      (fun i => if i / dpitch < height ∧ i % dpitch < width then
          some (i / dpitch * rb + i % dpitch)
        else none)))
  | Call.cudaMemcpy3DToArray dst src pitch _xsize ysize width height depth =>
    let rb := rowBytes (m.dev dst)
    let h := (m.dev dst).height
    some (setDev m dst (gather (m.dev dst).bytes (m.host src)
      (fun i =>
        if i % rb < width * (m.dev dst).texel ∧ i / rb % h < height ∧ i / (rb * h) < depth then
          some ((i / (rb * h) * ysize + i / rb % h) * pitch + i % rb)
        else none)))
  | Call.cudaMemcpy3DFromArray dst pitch _xsize ysize src width height depth =>
    let rb := rowBytes (m.dev src)
    let h := (m.dev src).height
    some (setHost m dst (gather (m.host dst) (m.dev src).bytes
      (fun i =>
        if i % pitch < width * (m.dev src).texel ∧ i / pitch % ysize < height ∧
            i / (pitch * ysize) < depth then
          some ((i / (pitch * ysize) * h + i / pitch % ysize) * rb + i % pitch)
        else none)))
  | _ => none

/-- Bytes a copy moves, as documented for the CUDA runtime: `count` for the linear copies,
`width * height` for the 2D copies (their width is in bytes), and the extent in texels
times the texel size for the 3D copies. -/
def bytesMoved (texel : Nat) (c : Call) : Nat :=
  match c with
  | Call.cudaMemcpy _ _ count => count
  | Call.cudaMemcpyToArray _ _ count => count
  | Call.cudaMemcpyFromArray _ _ count => count
  | Call.cudaMemcpy2DToArray _ _ _ width height => width * height
  | Call.cudaMemcpy2DFromArray _ _ _ width height => width * height
  | Call.cudaMemcpy3DToArray _ _ _ _ _ width height depth => width * texel * height * depth
  | Call.cudaMemcpy3DFromArray _ _ _ _ _ width height depth => width * texel * height * depth
  | _ => 0

end cuda

namespace osgCompute

/-- Apply a list of `setDimension(index, size)` calls in order. -/
def Buffer.setDimensions (b : Buffer) (calls : List (Nat × Nat)) : Buffer :=
  calls.foldl (fun b c => b.setDimension c.1 c.2) b

/-- The bit tests the sources apply to a mapping value: `& MAP_HOST`, `& MAP_DEVICE`,
`& MAP_HOST_TARGET` and `& MAP_DEVICE_TARGET`. -/
def Constants.tests (K : Constants) (m : Nat) : Bool × Bool × Bool × Bool :=
  (bitTest m K.MAP_HOST, bitTest m K.MAP_DEVICE, bitTest m K.MAP_HOST_TARGET,
    bitTest m K.MAP_DEVICE_TARGET)

/-- The enumerators mean what their names say to the bit tests of the sources: `UNMAPPED`
passes none of them, a host mapping passes `& MAP_HOST` only among the side tests, a
device mapping `& MAP_DEVICE` only, and exactly the `TARGET` mapping of a side passes the
write test of that side. -/
def Constants.Layout (K : Constants) : Prop :=
  K.tests K.UNMAPPED = (false, false, false, false) ∧
  K.tests K.MAP_HOST_SOURCE = (true, false, false, false) ∧
  K.tests K.MAP_HOST_TARGET = (true, false, true, false) ∧
  K.tests K.MAP_DEVICE_SOURCE = (false, true, false, false) ∧
  K.tests K.MAP_DEVICE_TARGET = (false, true, false, true)

instance (K : Constants) : Decidable K.Layout := by
  unfold Constants.Layout
  infer_instance

/-- Whether a call is an allocation primitive of the context. -/
def Call.isAlloc : Call → Bool
  | Call.mallocHostMemory _ => true
  | Call.mallocDeviceHostMemory _ => true
  | Call.mallocDeviceArray _ _ => true
  | Call.mallocDevice2DArray _ _ _ => true
  | Call.mallocDevice3DArray _ _ _ _ => true
  | _ => false

/-- Whether a call is a copy of the CUDA runtime. -/
def Call.isCopy : Call → Bool
  | Call.cudaMemcpy _ _ _ => true
  | Call.cudaMemcpyToArray _ _ _ => true
  | Call.cudaMemcpyFromArray _ _ _ => true
  | Call.cudaMemcpy2DToArray _ _ _ _ _ => true
  | Call.cudaMemcpy2DFromArray _ _ _ _ _ => true
  | Call.cudaMemcpy3DToArray _ _ _ _ _ _ _ _ => true
  | Call.cudaMemcpy3DFromArray _ _ _ _ _ _ _ _ => true
  | _ => false

/-- Number of copies of the CUDA runtime called so far. -/
def World.copies (w : World) : Nat := w.log.countP Call.isCopy

/-- Number of streams constructed for a context so far. -/
def World.streamsConstructed (w : World) (ctx : Nat) : Nat :=
  w.log.count (Call.newStream ctx)

end osgCompute

namespace osgCuda

open osgCompute

/-- The test of `allocStream` for the "no format" sentinel in the format descriptor. -/
def Array.noFormat (a : Array) : Bool :=
  a.getChannelFormatDesc.x == INT_MAX && a.getChannelFormatDesc.y == INT_MAX &&
    a.getChannelFormatDesc.z == INT_MAX

/-- The slow path of `mapStream` after its allocation block. -/
def Array.hostAllocated (K : Constants) (rt : Runtime) (a : Array) (stream : ArrayStream)
    (mapping : Nat) (w : World) : Bool × ArrayStream × World :=
  Array.allocHostIfNull K rt a mapping
    { Array.unmapIfMapped K stream with _mapping := mapping } w

/-- The slow path of `mapStream` after its setup block. -/
def Array.hostSetUp (K : Constants) (rt : Runtime) (a : Array) (stream : ArrayStream)
    (mapping : Nat) (w : World) : Bool × ArrayStream × World :=
  Array.setupIfNeeded K rt a mapping (a.needsSetup stream)
    (Array.hostAllocated K rt a stream mapping w).2.1
    (Array.hostAllocated K rt a stream mapping w).2.2

/-- The slow path of `mapStream` after its sync block. -/
def Array.hostSynced (K : Constants) (rt : Runtime) (a : Array) (stream : ArrayStream)
    (mapping : Nat) (w : World) : Bool × ArrayStream × World :=
  Array.syncHostIfPending K rt a mapping
    (Array.hostSetUp K rt a stream mapping w).2.1
    (Array.hostSetUp K rt a stream mapping w).2.2

/-- The slow path of `mapArrayStream` after its allocation block. -/
def Array.deviceAllocated (K : Constants) (rt : Runtime) (a : Array) (stream : ArrayStream)
    (mapping : Nat) (w : World) : Bool × ArrayStream × World :=
  Array.allocDeviceIfNull K rt a mapping
    { Array.unmapIfMapped K stream with _mapping := mapping } w

/-- The slow path of `mapArrayStream` after its setup block. -/
def Array.deviceSetUp (K : Constants) (rt : Runtime) (a : Array) (stream : ArrayStream)
    (mapping : Nat) (w : World) : Bool × ArrayStream × World :=
  Array.setupIfNeeded K rt a mapping (a.needsSetup stream)
    (Array.deviceAllocated K rt a stream mapping w).2.1
    (Array.deviceAllocated K rt a stream mapping w).2.2

/-- The slow path of `mapArrayStream` after its sync block. -/
def Array.deviceSynced (K : Constants) (rt : Runtime) (a : Array) (stream : ArrayStream)
    (mapping : Nat) (w : World) : Bool × ArrayStream × World :=
  Array.syncDeviceIfPending K rt a mapping
    (Array.deviceSetUp K rt a stream mapping w).2.1
    (Array.deviceSetUp K rt a stream mapping w).2.2

/-- The condition of the block "PROOF MAPPING" of `mapStream`: the re-entrant map. -/
def Array.hostFast (K : Constants) (a : Array) (stream : ArrayStream) (mapping : Nat) : Bool :=
  (bitTest stream._mapping K.MAP_HOST && bitTest mapping K.MAP_HOST) && !a.needsSetup stream

/-- The condition of the block "PROOF MAPPING" of `mapArrayStream`. -/
def Array.deviceFast (K : Constants) (a : Array) (stream : ArrayStream) (mapping : Nat) :
    Bool :=
  (bitTest stream._mapping K.MAP_DEVICE && bitTest mapping K.MAP_DEVICE) &&
    !a.needsSetup stream

/-- The slot of a context in the stream collection (`none` when empty or absent). -/
def Array.slot (a : Array) (context : Context) : Option ArrayStream :=
  a._streams.getD context.getId none

/-- The calls a client makes on one context: `map`, `mapArray`, `unmap` and `getMapping`. -/
inductive Op where
  | map (mapping : Nat)
  | mapArray (mapping : Nat)
  | unmap
  | getMapping
  deriving DecidableEq

/-- One call on the array, made under the given runtime. -/
def Array.step (K : Constants) (context : Context) (aw : Array × World) (c : Runtime × Op) :
    Array × World :=
  match c.2 with
  | Op.map mapping => (aw.1.map K c.1 context mapping aw.2).2
  | Op.mapArray mapping => (aw.1.mapArray K c.1 context mapping aw.2).2
  | Op.unmap => aw.1.unmap K c.1 context aw.2
  | Op.getMapping => (aw.1.getMapping K context aw.2).2

/-- A sequence of calls, each under its own runtime. -/
def Array.run (K : Constants) (context : Context) (aw : Array × World)
    (calls : List (Runtime × Op)) : Array × World :=
  calls.foldl (Array.step K context) aw

/-- Whether a call gets past the guards in front of `lookupStream`: `map`, `mapArray` and
`unmap` return early on a thread other than the context's, `mapArray` also when asked for a
host-side mapping; `getMapping` has no such guard. -/
def Op.reachesLookup (K : Constants) (context : Context) (c : Runtime × Op) : Bool :=
  match c.2 with
  | Op.map _ => context.getAssignedThread == c.1.currentThread
  | Op.mapArray mapping =>
    context.getAssignedThread == c.1.currentThread && !bitTest mapping K.MAP_HOST
  | Op.unmap => context.getAssignedThread == c.1.currentThread
  | Op.getMapping => true

/-- The stream `Buffer::init(context)` puts in an empty slot. -/
def freshStream (K : Constants) (b : Buffer) (context : Context) : ArrayStream :=
  { ArrayStream.new K with
    _context := some context.getId, BufferStream_allocHint := b.getAllocHint }

/-- The stream collection grown to hold the slot of the context. -/
def grownStreams (b : Buffer) (context : Context) : List (Option ArrayStream) :=
  if b._streams.length ≤ context.getId then
    resize b._streams ((context.getId + 1) % UINT_SIZE) none
  else b._streams

/-- What a call that reaches `lookupStream` leaves behind: the array is still initialised,
the slot of the context is occupied, and one stream was constructed exactly when the slot
was empty before. -/
def Reached (context : Context) (a : Array) (w : World) (r : Array × World) : Prop :=
  r.1.isClear = false ∧ (r.1.slot context).isSome = true ∧
  r.2.streamsConstructed context.getId = w.streamsConstructed context.getId +
    (if (a.slot context).isSome then 0 else 1)

end osgCuda

namespace osgCuda

open osgCompute

/-- The destructor `ArrayStream::~ArrayStream`: the device array and then the host pointer
are handed to `freeMemory` of the context when the stream allocated them. -/
def ArrayStream.destroy (stream : ArrayStream) (w : World) : World :=
  let w1 :=
    if stream._devArrayAllocated && stream._devArray != 0 then
      w.record (Call.freeMemory stream._devArray)
    else w
  if stream._hostPtrAllocated && stream._hostPtr != 0 then
    w1.record (Call.freeMemory stream._hostPtr)
  else w1

end osgCuda

namespace osgCompute

/-- `Buffer::clear(const Context&)`: the stream of the context is deleted and its slot set
to null, then `Resource::clear(context)`. -/
def Buffer.clearContext (b : Buffer) (context : Context) (w : World) : Buffer × World :=
  let r :=
    if b._streams.length > context.getId &&
        (b._streams.getD context.getId none).isSome then
      match b._streams.getD context.getId none with
      | some stream => (b._streams.set context.getId none, stream.destroy w)
      | none => (b._streams, w)
    else (b._streams, w)
  ({ b with toResource := b.toResource.clearContext context.getId, _streams := r.1 }, r.2)

/-- Number of allocation primitives called so far. -/
def World.allocs (w : World) : Nat := w.log.countP Call.isAlloc

end osgCompute

namespace osgCuda

open osgCompute

/-- The calls that configure an array: the setters of `Buffer`, the setters of the external
source, `init()` and `clear()`. -/
inductive ConfigOp where
  | setDimension (dimIdx dimSize : Nat)
  | setElementSize (elementSize : Nat)
  | setAllocHint (allocHint : Nat)
  | setImage (image : Option osg.Image)
  | setArray (array : Option osg.Array)
  | init
  | clear
  deriving DecidableEq

/-- One configuration call on an array. -/
def Array.configure (K : Constants) (a : Array) (op : ConfigOp) : Array :=
  match op with
  | ConfigOp.setDimension dimIdx dimSize =>
    { a with toBuffer := a.toBuffer.setDimension dimIdx dimSize }
  | ConfigOp.setElementSize elementSize =>
    { a with toBuffer := a.toBuffer.setElementSize elementSize }
  | ConfigOp.setAllocHint allocHint => { a with toBuffer := a.toBuffer.setAllocHint allocHint }
  | ConfigOp.setImage image => a.setImage image
  | ConfigOp.setArray array => a.setArray array
  | ConfigOp.init => (a.init K).2
  | ConfigOp.clear => a.clear K

/-- A sequence of configuration calls, in order. -/
def Array.configureAll (K : Constants) (a : Array) (ops : List ConfigOp) : Array :=
  ops.foldl (Array.configure K) a

/-- The external-source invariant: at most one of image and array is set, and on an
initialised array a source that is set has the byte size of the buffer. -/
def Array.SourceInvariant (a : Array) : Prop :=
  (a._image = none ∨ a._array = none) ∧
  (a.isClear = false →
    (∀ image, a._image = some image → image.getTotalSizeInBytes = a.getByteSize) ∧
    (∀ array, a._array = some array → array.getTotalDataSize = a.getByteSize))

end osgCuda

namespace osgCompute

/-- The data members of `osgCompute::Memory` on top of its `Resource` base that the
functions below read or write. -/
structure Memory extends Resource where
  _dimensions : List Nat
  _numElements : Nat
  _elementSize : Nat
  _allocHint : Nat
  _subloadCallback : Option SubloadCallback
  _pitch : Nat
  deriving DecidableEq

namespace Memory

/-- `Memory::clearLocal`. -/
def clearLocal (m : Memory) : Memory :=
  { m with
    _dimensions := []
    _numElements := 0
    _elementSize := 0
    _allocHint := 0
    _subloadCallback := none
    _pitch := 0 }

/-- `Memory::clear()`: `Resource::clear()` then `clearLocal()`. -/
def clear (m : Memory) : Memory :=
  clearLocal { m with toResource := m.toResource.clear }

/-- The constructor `Memory::Memory()`: a `Resource` in the clear state, then
`clearLocal()`. -/
def new : Memory :=
  clearLocal
    { _clear := true, _contexts := [], _dimensions := [], _numElements := 0,
      _elementSize := 0, _allocHint := 0, _subloadCallback := none, _pitch := 0 }

/-- `Memory::init()`. -/
def init (m : Memory) : Bool × Memory :=
  if !m.isClear then (true, m)
  else if m._dimensions.isEmpty then (false, m)
  else if m._elementSize == 0 then (false, m)
  else
    let r := m.toResource.init
    (r.1, { m with toResource := r.2 })

/-- `Memory::setElementSize`. -/
def setElementSize (m : Memory) (elementSize : Nat) : Memory :=
  if !m.isClear then m else { m with _elementSize := elementSize }

/-- `Memory::getElementSize`. -/
def getElementSize (m : Memory) : Nat := m._elementSize

/-- `Memory::getNumElements`. -/
def getNumElements (m : Memory) : Nat := m._numElements

/-- `Memory::setDimension`: the store, then the loop that multiplies all dimensions into
`_numElements`. The new size `dimIdx+1` is computed in `unsigned int`; a store at an index
outside the vector changes nothing here. -/
def setDimension (m : Memory) (dimIdx dimSize : Nat) : Memory :=
  if !m.isClear then m
  else
    let dims :=
      if m._dimensions.length ≤ dimIdx then resize m._dimensions ((dimIdx + 1) % UINT_SIZE) 0
      else m._dimensions
    { m with
      _dimensions := dims.set dimIdx dimSize
      _numElements := Buffer.computeNumElements (dims.set dimIdx dimSize) }

/-- `Memory::getDimension`: the test for an empty vector comes first; `none` would be a read
outside the vector. -/
def getDimension (m : Memory) (dimIdx : Nat) : Option Nat :=
  if m._dimensions.isEmpty ||
      decide (dimIdx > (m._dimensions.length + SIZE_T_SIZE - 1) % SIZE_T_SIZE) then some 0
  else m._dimensions[dimIdx]?

/-- `Memory::getNumDimensions`. -/
def getNumDimensions (m : Memory) : Nat := m._dimensions.length % UINT_SIZE

/-- `Memory::setAllocHint`. -/
def setAllocHint (m : Memory) (allocHint : Nat) : Memory :=
  if !m.isClear then m else { m with _allocHint := m._allocHint ||| allocHint }

/-- `Memory::getAllocHint`. -/
def getAllocHint (m : Memory) : Nat := m._allocHint

end Memory

/-- The calls that configure a `Memory`. -/
inductive MemoryOp where
  | setDimension (dimIdx dimSize : Nat)
  | setElementSize (elementSize : Nat)
  | setAllocHint (allocHint : Nat)
  | init
  | clear
  deriving DecidableEq

/-- The index of a `setDimension` call is below `UINT_MAX`, so that `dimIdx+1` does not
wrap and the store lands inside the vector. -/
def MemoryOp.inRange (op : MemoryOp) : Bool :=
  match op with
  | MemoryOp.setDimension dimIdx _ => decide (dimIdx + 1 < UINT_SIZE)
  | _ => true

/-- One configuration call on a `Memory`. -/
def Memory.configure (m : Memory) (op : MemoryOp) : Memory :=
  match op with
  | MemoryOp.setDimension dimIdx dimSize => m.setDimension dimIdx dimSize
  | MemoryOp.setElementSize elementSize => m.setElementSize elementSize
  | MemoryOp.setAllocHint allocHint => m.setAllocHint allocHint
  | MemoryOp.init => m.init.2
  | MemoryOp.clear => m.clear

/-- A sequence of configuration calls on a `Memory`, in order. -/
def Memory.configureAll (m : Memory) (ops : List MemoryOp) : Memory :=
  ops.foldl Memory.configure m

/-- The invariant of the configuration calls of a `Memory`: once a dimension is set,
`_numElements` is the wrapped product of the dimensions, and an initialised `Memory` has a
dimension. -/
def Memory.Consistent (m : Memory) : Prop :=
  (m._dimensions ≠ [] → m._numElements = Buffer.computeNumElements m._dimensions) ∧
  (m.isClear = false → m._dimensions ≠ [])

/-- The copies made so far, oldest first. -/
def World.copyCalls (w : World) : List Call := w.log.filter Call.isCopy

/-- A call `memset(&data[offset], value, length)`: it writes the bytes at offsets
`offset`, ..., `offset + length - 1` from `data`. -/
structure Memset where
  data : Nat
  offset : Nat
  value : Int
  length : Nat
  deriving DecidableEq

/-- All bytes the `memset` writes lie in a region of `size` bytes that starts at `data`. -/
def Memset.within (c : Memset) (size : Nat) : Bool := decide (c.offset + c.length ≤ size)

/-- The bytes of the region at `data` after the `memset`; what it writes past the end of
the region is not part of the region. -/
def Memset.apply (c : Memset) (bytes : List Nat) : List Nat :=
  (List.range bytes.length).map fun i =>
    if c.offset ≤ i ∧ i < c.offset + c.length then (c.value % 256).toNat else bytes.getD i 0

end osgCompute

namespace osgCuda

open osgCompute

/-- `Array::setMemory`: the result, the `memset` it called (if any), the array and the
world afterwards. `memset` returns its first argument, so the test of its result for null
does not fire on a pointer that `map` returned. -/
def Array.setMemory (K : Constants) (rt : Runtime) (a : Array) (context : Context)
    (value : Int) (mapping offset count : Nat) (w : World) :
    Bool × Option Memset × Array × World :=
  let r := a.map K rt context mapping w
  if r.1 == 0 then (false, none, r.2.1, r.2.2)
  else if bitTest mapping K.MAP_HOST_TARGET then
    let c : Memset :=
      { data := r.1, offset := offset, value := value,
        length := if count == UINT_MAX then r.2.1.getByteSize else count }
    (true, some c, r.2.1,
      { r.2.2 with mem := cuda.setHost r.2.2.mem r.1 (c.apply (r.2.2.mem.host r.1)) })
  else if bitTest mapping K.MAP_DEVICE_TARGET then (true, none, r.2.1, r.2.2)
  else
    let u := r.2.1.unmap K rt context r.2.2
    (false, none, u.1, u.2)

/-- The condition of the block "SYNC STREAM" of `mapStream`, in terms of the stream before
the call: the host flag is pending (also through the `unmapStream` of a re-map) or the host
memory is allocated by this call, and a device array exists. -/
def Array.hostSyncDue (K : Constants) (stream : ArrayStream) : Bool :=
  ((Array.unmapIfMapped K stream)._syncHost || stream._hostPtr == 0) && stream._devArray != 0

/-- The condition of the block "SYNC STREAM" of `mapArrayStream`, in terms of the stream
before the call. -/
def Array.deviceSyncDue (K : Constants) (stream : ArrayStream) : Bool :=
  ((Array.unmapIfMapped K stream)._syncDevice || stream._devArray == 0) &&
    stream._hostPtr != 0

end osgCuda

namespace osgCompute

/-- `Memory::getAllElementsSize` (its `hint` argument is not read). -/
def Memory.getAllElementsSize (m : Memory) : Nat :=
  if !m.isClear then 0 else (m.getElementSize * m.getNumElements) % UINT_SIZE

end osgCompute

namespace osgCuda

open osgCompute

/-- The indices the device branch of `allocStream` may pass to `getDimension`: 0, 1 and 2
for rank 3, 0 and 1 for rank 2, and 0 otherwise. The host branch reads no dimension. -/
def Array.allocReads (a : Array) : List Nat :=
  if a.getNumDimensions == 3 then [0, 1, 1, 2, 2]
  else if a.getNumDimensions == 2 then [0, 1, 1]
  else [0]

/-- The indices `setupStream` passes to `getDimension`: none below rank 3 (and none for a
host-side mapping), else those of the pitched pointer and of the extent of the 3D copy. -/
def Array.setupReads (a : Array) : List Nat :=
  if a.getNumDimensions < 3 then [] else [0, 0, 1, 0, 1, 2]

/-- The indices `syncStream` passes to `getDimension`, in either direction: none for rank
1, those of the 2D copy for rank 2, and those of the 3D copy in the final else branch. -/
def Array.syncReads (a : Array) : List Nat :=
  if a.getNumDimensions == 1 then []
  else if a.getNumDimensions == 2 then [0, 0, 1]
  else [0, 0, 1, 0, 1, 2]

/-- Every pending-sync flag that is set in `s` is set in `t`. -/
def ArrayStream.flagsKept (s t : ArrayStream) : Prop :=
  (s._syncHost = true → t._syncHost = true) ∧ (s._syncDevice = true → t._syncDevice = true)

/-- The stream and the copies of `r` are those a successful `syncStream` left in its host
branch: the copy from the device to the host returned `cudaSuccess`, it is the last copy
made, and the stream is the one the copy was made for with the host flag cleared. -/
def Array.HostTransfer (K : Constants) (rt : Runtime) (a : Array) (m : Nat)
    (r : ArrayStream × World) : Prop :=
  ∃ (t : ArrayStream) (w : World) (mem : Mem),
    bitTest m K.MAP_DEVICE = false ∧ bitTest m K.MAP_HOST = true ∧
    (Array.syncStream K rt a m t w).1 = true ∧
    rt.memcpy (a.syncHostCall t) w.mem = some mem ∧
    r.1 = { t with _syncHost := false } ∧
    r.2.copyCalls = w.copyCalls ++ [a.syncHostCall t]

/-- The stream and the copies of `r` are those a successful `syncStream` left in its
device branch. -/
def Array.DeviceTransfer (K : Constants) (rt : Runtime) (a : Array) (m : Nat)
    (r : ArrayStream × World) : Prop :=
  ∃ (t : ArrayStream) (w : World) (mem : Mem),
    bitTest m K.MAP_DEVICE = true ∧
    (Array.syncStream K rt a m t w).1 = true ∧
    rt.memcpy (a.syncDeviceCall t) w.mem = some mem ∧
    r.1 = { t with _syncDevice := false } ∧
    r.2.copyCalls = w.copyCalls ++ [a.syncDeviceCall t]

/-- The invariant of the configuration calls of an array: the dimension list is shorter
than 2^32, and an initialised array has between 1 and 3 dimensions. -/
def Array.RankInvariant (a : Array) : Prop :=
  a._dimensions.length < UINT_SIZE ∧
  (a.isClear = false → 1 ≤ a._dimensions.length ∧ a._dimensions.length ≤ 3)

end osgCuda

namespace Scenario

open osgCompute osgCuda

/-- Sample values for the enumerators, one hexadecimal digit per side and intent. -/
def K : Constants :=
  { UNMAPPED := 0x0000, MAP_HOST := 0x0011, MAP_HOST_SOURCE := 0x0001,
    MAP_HOST_TARGET := 0x0010, MAP_DEVICE := 0x1100, MAP_DEVICE_SOURCE := 0x0100,
    MAP_DEVICE_TARGET := 0x1000, NO_ALLOC_HINT := 0, ALLOC_DYNAMIC := 1 }

/-- A format descriptor for one 32-bit channel. -/
def desc32 : ChannelFormatDesc := { x := 32, y := 0, z := 0, w := 0, f := 2 }

/-- The scenario buffer of the spec before `init()`: rank 2, dimensions (4, 4), element
size 4, with a format descriptor of 4 bytes per texel. -/
def configured44 : osgCuda.Array :=
  { osgCuda.Array.new K with
    toBuffer := (((Buffer.new K).setDimension 0 4).setDimension 1 4).setElementSize 4
    _channelFormatDesc := desc32 }

/-- The scenario buffer after `init()`. -/
def array44 : osgCuda.Array := (configured44.init K).2

/-- An image of one mip level, 64 bytes at pointer 300, modified once. -/
def image : osg.Image :=
  { getNumMipmapLevels := 1, getTotalSizeInBytes := 64, getModifiedCount := 1, data := 300 }

/-- The scenario buffer with that image as its external source. -/
def sourced44 : osgCuda.Array := array44.setImage (some image)

/-- A rank-1 buffer of the same byte size: dimension (16), element size 4, initialised. -/
def array16 : osgCuda.Array :=
  ({ osgCuda.Array.new K with
    toBuffer := ((Buffer.new K).setDimension 0 16).setElementSize 4
    _channelFormatDesc := desc32 }.init K).2

/-- A context with id 0 assigned to thread 1. -/
def context : Context := { getId := 0, getAssignedThread := 1 }

/-- A runtime in which every call succeeds: host allocations return the pointer 100, device
allocations the handle 200, copies behave as documented for the CUDA runtime, and the
callback leaves memory alone. The calling thread is thread 1. -/
def runtime : Runtime :=
  { currentThread := 1
    malloc := fun c =>
      match c with
      | Call.mallocHostMemory _ => 100
      | Call.mallocDeviceHostMemory _ => 100
      | _ => 200
    memcpy := cuda.memcpy
    callback := fun _ m => m }

/-- The same runtime with every allocation primitive failing. -/
def noMemory : Runtime := { runtime with malloc := fun _ => 0 }

/-- The image after its owner gave it 128 bytes. -/
def resized : osg.Image := { image with getTotalSizeInBytes := 128 }

/-- The initialised scenario buffer whose image source now reports 128 bytes. -/
def sourcedResized : osgCuda.Array := { sourced44 with _image := some resized }

/-- An image of 64 bytes with three mip levels. -/
def mipmapped : osg.Image := { image with getNumMipmapLevels := 3 }

/-- The same runtime called from thread 2. -/
def otherThread : Runtime := { runtime with currentThread := 2 }

/-- Memory in which every host region holds 64 zero bytes and every device array is 4 by 4
texels of 4 bytes, all zero. -/
def memory : Mem :=
  { host := fun _ => List.replicate 64 0
    dev := fun _ => { texel := 4, width := 4, height := 4, bytes := List.replicate 64 0 } }

/-- The start of the scenario: that memory and an empty log. -/
def world : World := { mem := memory, log := [] }

/-- The pattern P: 64 bytes of value 0x7F. -/
def pattern : List Nat := List.replicate 64 0x7F

/-- Step 1 of the scenario: `map(ctx, HOST_TARGET)`. -/
def afterHostMap : Nat × osgCuda.Array × World :=
  array44.map K runtime context K.MAP_HOST_TARGET world

/-- Steps 2 and 3: the pattern is written to the returned host region, then `unmap(ctx)`. -/
def afterUnmap : osgCuda.Array × World :=
  afterHostMap.2.1.unmap K runtime context
    { afterHostMap.2.2 with mem := cuda.setHost afterHostMap.2.2.mem afterHostMap.1 pattern }

/-- Step 4: `map(ctx, DEVICE_SOURCE)`. -/
def afterDeviceMap : Nat × osgCuda.Array × World :=
  afterUnmap.1.map K runtime context K.MAP_DEVICE_SOURCE afterUnmap.2

/-- The same four steps on the rank-1 buffer: the result of the final `map(ctx,
DEVICE_SOURCE)`. -/
def rank1AfterDeviceMap : Nat × osgCuda.Array × World :=
  let r1 := array16.map K runtime context K.MAP_HOST_TARGET world
  let r2 := r1.2.1.unmap K runtime context
    { r1.2.2 with mem := cuda.setHost r1.2.2.mem r1.1 pattern }
  r2.1.map K runtime context K.MAP_DEVICE_SOURCE r2.2

/-- The first `map(ctx, HOST_TARGET)` on the scenario buffer while no memory can be
allocated. -/
def afterFailedMap : Nat × osgCuda.Array × World :=
  array44.map K noMemory context K.MAP_HOST_TARGET world

/-- The scenario buffer after `getMapping(ctx)`: the stream of the context exists and is
UNMAPPED. -/
def afterLookup : Nat × osgCuda.Array × World := array44.getMapping K context world

/-- A second context, with id 1, assigned to the same thread. -/
def context1 : Context := { getId := 1, getAssignedThread := 1 }

/-- The scenario buffer mapped to the host in both contexts. -/
def twoContexts : Nat × osgCuda.Array × World :=
  afterHostMap.2.1.map K runtime context1 K.MAP_HOST_TARGET afterHostMap.2.2

/-- The rank-1 scenario buffer with the image as its external source. -/
def sourced16 : osgCuda.Array := array16.setImage (some image)

/-- Another image of 64 bytes, at pointer 301, modified twice. -/
def image2 : osg.Image := { image with getModifiedCount := 2, data := 301 }

/-- On the rank-1 buffer with a source: `map(ctx, DEVICE_SOURCE)` (the source, all zero, is
loaded to the device), `unmap(ctx)`, `setImage(image2)` whose data is the pattern, then
`map(ctx, HOST_SOURCE)`. -/
def sourceThenSync : Nat × osgCuda.Array × World :=
  let r1 := sourced16.map K runtime context K.MAP_DEVICE_SOURCE world
  let r2 := r1.2.1.unmap K runtime context r1.2.2
  (r2.1.setImage (some image2)).map K runtime context K.MAP_HOST_SOURCE
    { r2.2 with mem := cuda.setHost r2.2.mem 301 pattern }

/-- The calls that follow `sourceThenSync`: `unmap(ctx)`, `map(ctx, DEVICE_SOURCE)`,
`unmap(ctx)`, `map(ctx, HOST_SOURCE)`. -/
def sourceLost : osgCuda.Array × World :=
  osgCuda.Array.run K context (sourceThenSync.2.1, sourceThenSync.2.2)
    [(runtime, osgCuda.Op.unmap), (runtime, osgCuda.Op.map K.MAP_DEVICE_SOURCE),
      (runtime, osgCuda.Op.unmap), (runtime, osgCuda.Op.map K.MAP_HOST_SOURCE)]

/-- On the rank-1 buffer: `map(ctx, DEVICE_SOURCE)`, `unmap(ctx)`, `map(ctx, HOST_TARGET)`,
and the pattern written to the returned host region. -/
def written16 : Nat × osgCuda.Array × World :=
  let r1 := array16.map K runtime context K.MAP_DEVICE_SOURCE world
  let r2 := r1.2.1.unmap K runtime context r1.2.2
  let r3 := r2.1.map K runtime context K.MAP_HOST_TARGET r2.2
  (r3.1, r3.2.1, { r3.2.2 with mem := cuda.setHost r3.2.2.mem r3.1 pattern })

/-- After the write: `unmap(ctx)`, then `map(ctx, DEVICE_SOURCE)`. -/
def writeThenUnmap : Nat × osgCuda.Array × World :=
  let r := written16.2.1.unmap K runtime context written16.2.2
  r.1.map K runtime context K.MAP_DEVICE_SOURCE r.2

/-- After the write: `map(ctx, HOST_SOURCE)` without an unmap, then `unmap(ctx)`. -/
def remapThenUnmap : osgCuda.Array × World :=
  let r := written16.2.1.map K runtime context K.MAP_HOST_SOURCE written16.2.2
  r.2.1.unmap K runtime context r.2.2

/-- After that: `map(ctx, DEVICE_SOURCE)`. -/
def remapLosesWrite : Nat × osgCuda.Array × World :=
  remapThenUnmap.1.map K runtime context K.MAP_DEVICE_SOURCE remapThenUnmap.2

/-- A new array with dimensions (4,4), element size 4 and the hint ALLOC_DYNAMIC,
initialised. -/
def dynamic44 : osgCuda.Array :=
  (osgCuda.Array.new K).configureAll K
    [osgCuda.ConfigOp.setDimension 0 4, osgCuda.ConfigOp.setDimension 1 4,
      osgCuda.ConfigOp.setElementSize 4, osgCuda.ConfigOp.setAllocHint K.ALLOC_DYNAMIC,
      osgCuda.ConfigOp.init]

/-- A new array with dimensions (4,4) and element size 4, initialised; its format
descriptor was never set. -/
def plain44 : osgCuda.Array :=
  (osgCuda.Array.new K).configureAll K
    [osgCuda.ConfigOp.setDimension 0 4, osgCuda.ConfigOp.setDimension 1 4,
      osgCuda.ConfigOp.setElementSize 4, osgCuda.ConfigOp.init]

/-- A rank-3 buffer of 64 bytes, dimensions (2,2,4) and element size 4, with the image as
its source. -/
def sourced224 : osgCuda.Array :=
  (({ osgCuda.Array.new K with
    toBuffer :=
      ((((Buffer.new K).setDimension 0 2).setDimension 1 2).setDimension 2 4).setElementSize 4
    _channelFormatDesc := desc32 }.init K).2).setImage (some image)

/-- On the scenario buffer: `map(ctx, DEVICE_SOURCE)`, `unmap(ctx)`, `map(ctx,
HOST_SOURCE)`. -/
def deviceThenHost : Nat × osgCuda.Array × World :=
  let r1 := array44.map K runtime context K.MAP_DEVICE_SOURCE world
  let r2 := r1.2.1.unmap K runtime context r1.2.2
  r2.1.map K runtime context K.MAP_HOST_SOURCE r2.2

/-- `setMemory(ctx, 0x7F, HOST_TARGET, 8)` with the default count on the scenario
buffer. -/
def setMemoryAt8 : Bool × Option Memset × osgCuda.Array × World :=
  array44.setMemory K runtime context 0x7F K.MAP_HOST_TARGET 8 UINT_MAX world

/-- The same runtime with every copy of the CUDA runtime failing. -/
def noCopy : Runtime := { runtime with memcpy := fun _ _ => none }

/-- A stream of the rank-1 buffer with both sides allocated and the host flag pending. -/
def hostPending : osgCuda.ArrayStream :=
  { osgCuda.ArrayStream.new K with _hostPtr := 100, _devArray := 200, _syncHost := true }

/-- A `Memory` with dimensions (4,4) and element size 4, initialised. -/
def memory44 : Memory :=
  Memory.new.configureAll
    [MemoryOp.setDimension 0 4, MemoryOp.setDimension 1 4, MemoryOp.setElementSize 4,
      MemoryOp.init]

/-- The rank-1 buffer after `map(ctx, MAP_DEVICE_TARGET)` and `unmap(ctx)`: the device side
was written, the host side is not allocated yet. -/
def afterDeviceWrite : osgCuda.Array × World :=
  osgCuda.Array.run K context (array16, world)
    [(runtime, osgCuda.Op.map K.MAP_DEVICE_TARGET), (runtime, osgCuda.Op.unmap)]

/-- The stream of the context after the device write. -/
def devicePending : osgCuda.ArrayStream :=
  (afterDeviceWrite.1.slot context).getD (osgCuda.ArrayStream.new K)

/-- The call `map(ctx, MAP_HOST_SOURCE)` under the runtime `rt`. -/
def hostRead (rt : Runtime) : List (Runtime × osgCuda.Op) :=
  [(rt, osgCuda.Op.map K.MAP_HOST_SOURCE)]

/-- The stream of the context after the device write and `hostRead rt`. -/
def afterHostRead (rt : Runtime) : osgCuda.ArrayStream :=
  ((osgCuda.Array.run K context afterDeviceWrite (hostRead rt)).1.slot context).getD
    (osgCuda.ArrayStream.new K)

end Scenario

/-! Theorems. -/
namespace osgCompute

theorem foldl_mul_mod_lt (ds : List Nat) (n : Nat) (h : n < UINT_SIZE) :
    ds.foldl (fun n d => (n * d) % UINT_SIZE) n < UINT_SIZE := by
  induction ds generalizing n with
  | nil => simpa using h
  | cons d ds ih =>
    simp only [List.foldl_cons]
    exact ih _ (Nat.mod_lt _ (by decide))

theorem foldl_mul_mod (ds : List Nat) (n : Nat) :
    (ds.foldl (fun n d => (n * d) % UINT_SIZE) n) % UINT_SIZE = (n * ds.prod) % UINT_SIZE := by
  induction ds generalizing n with
  | nil => simp
  | cons d ds ih =>
    simp only [List.foldl_cons, List.prod_cons]
    rw [ih, Nat.mod_mul_mod, Nat.mul_assoc]

theorem computeNumElements_eq (ds : List Nat) :
    Buffer.computeNumElements ds = ds.prod % UINT_SIZE := by
  unfold Buffer.computeNumElements
  have h1 := foldl_mul_mod ds 1
  have h2 := foldl_mul_mod_lt ds 1 (by decide)
  rw [Nat.mod_eq_of_lt h2] at h1
  simpa using h1

theorem setDimension_clear (b : Buffer) (i n : Nat) (h : b.isClear = true) :
    (b.setDimension i n).isClear = true := by
  simp [Buffer.setDimension, h]

theorem setDimension_length (b : Buffer) (i n : Nat) (h : b.isClear = true)
    (hi : i + 1 < UINT_SIZE) :
    (b.setDimension i n)._dimensions.length = max b._dimensions.length (i + 1) := by
  simp only [Buffer.setDimension, h, Bool.not_true, Bool.false_eq_true, if_false]
  by_cases hl : b._dimensions.length ≤ i
  · simp [hl, resize, Nat.mod_eq_of_lt hi]
    omega
  · simp [hl]
    omega


theorem setDimensions_spec (calls : List (Nat × Nat)) (b : Buffer) (h : b.isClear = true)
    (hi : ∀ c ∈ calls, c.1 + 1 < UINT_SIZE) :
    (b.setDimensions calls).isClear = true ∧
    (b.setDimensions calls)._elementSize = b._elementSize ∧
    b._dimensions.length ≤ (b.setDimensions calls)._dimensions.length ∧
    (calls ≠ [] → 0 < (b.setDimensions calls)._dimensions.length) := by
  induction calls generalizing b with
  | nil => simp [Buffer.setDimensions, h]
  | cons c cs ih =>
    have hc : c.1 + 1 < UINT_SIZE := hi c (by simp)
    have h1 := setDimension_clear b c.1 c.2 h
    have h2 := setDimension_length b c.1 c.2 h hc
    have h3 := ih (b.setDimension c.1 c.2) h1 (fun c' hc' => hi c' (by simp [hc']))
    have h4 : (b.setDimension c.1 c.2)._elementSize = b._elementSize := by
      simp [Buffer.setDimension, h]
    simp only [Buffer.setDimensions, List.foldl_cons] at h3 ⊢
    refine ⟨h3.1, h3.2.1.trans h4, ?_, fun _ => ?_⟩
    · have := h3.2.2.1
      omega
    · have := h3.2.2.1
      omega

theorem init_of_clear (b : Buffer) (h : b.isClear = true) (hd : b._dimensions ≠ [])
    (he : b._elementSize ≠ 0) :
    b.init = (true, { b with _numElements := Buffer.computeNumElements b._dimensions,
                             _clear := false }) := by
  simp [Buffer.init, h, hd, he, Resource.init]

/-- C2: for every clear Buffer, after a non-empty sequence of setDimension calls and
setElementSize(e) with e > 0, init() succeeds, getNumElements() is the product of the
dimensions and getByteSize() is elementSize × numElements, both in unsigned 32-bit
arithmetic; for dimensions (4,4) and element size 4 getByteSize() is 64. -/
theorem C2_init_numElements_byteSize (K : Constants) (b : Buffer) (calls : List (Nat × Nat))
    (e : Nat) (hclear : b.isClear = true) (hcalls : calls ≠ [])
    (hidx : ∀ c ∈ calls, c.1 + 1 < UINT_SIZE) (he : 0 < e) :
    (((b.setDimensions calls).setElementSize e).init).1 = true ∧
    (((b.setDimensions calls).setElementSize e).init).2.isClear = false ∧
    (((b.setDimensions calls).setElementSize e).init).2._dimensions =
      (b.setDimensions calls)._dimensions ∧
    (((b.setDimensions calls).setElementSize e).init).2.getNumElements =
      (b.setDimensions calls)._dimensions.prod % UINT_SIZE ∧
    (((b.setDimensions calls).setElementSize e).init).2.getByteSize =
      (e * ((b.setDimensions calls)._dimensions.prod % UINT_SIZE)) % UINT_SIZE ∧
    (((((Buffer.new K).setDimension 0 4).setDimension 1 4).setElementSize 4).init).2.getByteSize
      = 64 := by
  obtain ⟨h1, _, _, h4⟩ := setDimensions_spec calls b hclear hidx
  have hd : (b.setDimensions calls)._dimensions ≠ [] := by
    intro h0
    have := h4 hcalls
    simp [h0] at this
  have hs : (b.setDimensions calls).setElementSize e =
      { b.setDimensions calls with _elementSize := e } := by
    simp [Buffer.setElementSize, h1]
  have hi := init_of_clear ((b.setDimensions calls).setElementSize e)
    (by rw [hs]; exact h1) (by rw [hs]; exact hd)
    (by rw [hs]; simpa using Nat.pos_iff_ne_zero.mp he)
  rw [hi, hs]
  refine ⟨rfl, rfl, rfl, ?_, ?_, ?_⟩
  · simp [Buffer.getNumElements, computeNumElements_eq]
  · simp [Buffer.getByteSize, Buffer.getNumElements, Buffer.getElementSize, computeNumElements_eq]
  · rfl


/-- C8: once init() has succeeded the resource is not clear, and setDimension,
setElementSize and setAllocHint return the buffer unchanged for every argument, so
dimensions, elementSize, allocHint, numElements and getByteSize() are as before. -/
theorem C8_setters_noop_after_init (b : Buffer) (dimIdx dimSize elementSize allocHint : Nat)
    (h : (b.init).1 = true) :
    (b.init).2.isClear = false ∧
    (b.init).2.setDimension dimIdx dimSize = (b.init).2 ∧
    (b.init).2.setElementSize elementSize = (b.init).2 ∧
    (b.init).2.setAllocHint allocHint = (b.init).2 ∧
    ((b.init).2.setDimension dimIdx dimSize).getByteSize = (b.init).2.getByteSize ∧
    ((b.init).2.setElementSize elementSize).getByteSize = (b.init).2.getByteSize ∧
    ((b.init).2.setAllocHint allocHint).getByteSize = (b.init).2.getByteSize := by
  have hc : (b.init).2.isClear = false := by
    by_cases h0 : b.isClear = true
    · by_cases hd : b._dimensions = []
      · simp [Buffer.init, h0, hd] at h
      · by_cases he : b._elementSize = 0
        · simp [Buffer.init, h0, hd, he] at h
        · rw [init_of_clear b h0 hd he]
          rfl
    · have h0' : b.isClear = false := by simpa using h0
      simp [Buffer.init, h0']
  have h1 : (b.init).2.setDimension dimIdx dimSize = (b.init).2 := by
    simp [Buffer.setDimension, hc]
  have h2 : (b.init).2.setElementSize elementSize = (b.init).2 := by
    simp [Buffer.setElementSize, hc]
  have h3 : (b.init).2.setAllocHint allocHint = (b.init).2 := by
    simp [Buffer.setAllocHint, hc]
  refine ⟨hc, h1, h2, h3, ?_, ?_, ?_⟩
  · rw [h1]
  · rw [h2]
  · rw [h3]

/-- C9, as stated, fails: after setDimension(1,4) and setElementSize(4) on a new buffer the
dimensions are (0,4), yet init() returns true and the buffer is no longer clear. -/
theorem C9_zero_dimension_accepted :
    ((((Buffer.new Scenario.K).setDimension 1 4).setElementSize 4).init).1 = true ∧
    ((((Buffer.new Scenario.K).setDimension 1 4).setElementSize 4).init).2._dimensions
      = [0, 4] ∧
    ((((Buffer.new Scenario.K).setDimension 1 4).setElementSize 4).init).2.isClear
      = false := by
  decide

/-- C9, amended: on a clear buffer init() returns false exactly when no dimension is set or
elementSize is 0, and then leaves the buffer as it was (clear); a zero dimension is not
rejected: with a dimension set and a non-zero element size init() succeeds, and a zero
among the dimensions gives getNumElements() = 0 and getByteSize() = 0. -/
theorem C9_init_fails_iff_unconfigured (b : Buffer) (h : b.isClear = true) :
    ((b.init).1 = false ↔ (b._dimensions = [] ∨ b._elementSize = 0)) ∧
    ((b.init).1 = false → (b.init).2 = b) ∧
    (b._dimensions ≠ [] → b._elementSize ≠ 0 → 0 ∈ b._dimensions →
      (b.init).1 = true ∧ (b.init).2.isClear = false ∧ (b.init).2.getNumElements = 0 ∧
      (b.init).2.getByteSize = 0) := by
  by_cases hd : b._dimensions = []
  · simp [Buffer.init, h, hd]
  · by_cases he : b._elementSize = 0
    · simp [Buffer.init, h, hd, he]
    · rw [init_of_clear b h hd he]
      simp only [hd, he, or_self, iff_false, Bool.true_eq_false, not_false_eq_true,
        false_implies, ne_eq, true_and, forall_const]
      intro h0
      have hp : b._dimensions.prod = 0 := List.prod_eq_zero h0
      simp [Buffer.getNumElements, Buffer.getByteSize, Buffer.getElementSize,
        computeNumElements_eq, hp, Resource.isClear]

/-- Witness for C2: the scenario of the spec, dimensions (4,4) and element size 4 on a new
buffer. -/
theorem C2_init_numElements_byteSize_witness :
    ((((Buffer.new Scenario.K).setDimensions [(0, 4), (1, 4)]).setElementSize 4).init).1 = true ∧
    ((((Buffer.new Scenario.K).setDimensions [(0, 4), (1, 4)]).setElementSize 4).init).2.getNumElements
      = 16 ∧
    ((((Buffer.new Scenario.K).setDimensions [(0, 4), (1, 4)]).setElementSize 4).init).2.getByteSize
      = 64 := by
  have h := C2_init_numElements_byteSize Scenario.K (Buffer.new Scenario.K) [(0, 4), (1, 4)] 4
    (by decide) (by decide) (by decide) (by decide)
  exact ⟨h.1, by decide, by decide⟩

/-- Witness for C8: the initialised scenario buffer ignores all three setters. -/
theorem C8_setters_noop_after_init_witness :
    (Scenario.array44.toBuffer.init).2.setDimension 0 9 = (Scenario.array44.toBuffer.init).2 ∧
    (Scenario.array44.toBuffer.init).2.setElementSize 8 = (Scenario.array44.toBuffer.init).2 ∧
    (Scenario.array44.toBuffer.init).2.setAllocHint 1 = (Scenario.array44.toBuffer.init).2 :=
  let h := C8_setters_noop_after_init Scenario.array44.toBuffer 0 9 8 1 (by decide)
  ⟨h.2.1, h.2.2.1, h.2.2.2.1⟩

/-- Witness for C9: a new buffer with dimensions (0,4) and element size 4. -/
theorem C9_init_fails_iff_unconfigured_witness :
    ((((Buffer.new Scenario.K).setDimension 1 4).setElementSize 4).init).1 = true ∧
    ((((Buffer.new Scenario.K).setDimension 1 4).setElementSize 4).init).2.getByteSize = 0 :=
  let h := (C9_init_fails_iff_unconfigured
    (((Buffer.new Scenario.K).setDimension 1 4).setElementSize 4) (by decide)).2.2
    (by decide) (by decide) (by decide)
  ⟨h.1, h.2.2.2⟩

end osgCompute

namespace osgCuda

open osgCompute

theorem getDimension_of_lt (a : Array) (d : Nat) (h : d < a._dimensions.length)
    (hlen : a._dimensions.length < UINT_SIZE) :
    a.getDimension d = a._dimensions.getD d 0 := by
  have h1 : (a._dimensions.length + SIZE_T_SIZE - 1) % SIZE_T_SIZE = a._dimensions.length - 1 := by
    have : a._dimensions.length + SIZE_T_SIZE - 1 = (a._dimensions.length - 1) + SIZE_T_SIZE := by
      omega
    rw [this, Nat.add_mod_right]
    apply Nat.mod_eq_of_lt
    simp only [UINT_SIZE, SIZE_T_SIZE] at *
    omega
  have h2 : ¬ d > a._dimensions.length - 1 := by omega
  simp [Array.getDimension, Buffer.getDimension, h1, h2, List.getD_eq_getElem?_getD]

theorem map_getDimension_range (a : Array) (hlen : a._dimensions.length < UINT_SIZE) :
    (List.range a._dimensions.length).map a.getDimension = a._dimensions := by
  apply List.ext_getElem
  · simp
  · intro n h1 h2
    simp only [List.getElem_map, List.getElem_range]
    rw [getDimension_of_lt a n h2 hlen]
    simp [List.getD_eq_getElem?_getD, h2]

theorem initByteSize_eq (a : Array) (hlen : a._dimensions.length < UINT_SIZE) :
    a.initByteSize = (a._elementSize * a._dimensions.prod) % UINT_SIZE := by
  have h1 : a.getNumDimensions = a._dimensions.length := by
    simp [Buffer.getNumDimensions, Nat.mod_eq_of_lt hlen]
  have h2 : a.initNumElements = Buffer.computeNumElements a._dimensions := by
    unfold Array.initNumElements Buffer.computeNumElements
    rw [h1]
    conv_rhs => rw [← map_getDimension_range a hlen]
    rw [List.foldl_map]
  unfold Array.initByteSize
  rw [h2, computeNumElements_eq, Buffer.getElementSize, Nat.mod_mul_mod, Nat.mul_comm]

theorem clear_isClear (K : Constants) (a : Array) : (a.clear K).isClear = true := rfl

/-- C10: on a clear Array, init() returns false exactly when the rank is above 3, an image
source has more than one mip level, the image's or the array's byte size differs from
elementSize × product(dimensions) (unsigned 32-bit arithmetic), no dimension is set, or
elementSize is 0; after every such failure the resource is clear. -/
theorem C10_init_fails_iff (K : Constants) (a : Array) (hclear : a.isClear = true)
    (hlen : a._dimensions.length < UINT_SIZE) :
    ((a.init K).1 = false ↔
      (3 < a._dimensions.length ∨
       (∃ image, a._image = some image ∧ 1 < image.getNumMipmapLevels) ∨
       (∃ image, a._image = some image ∧
          image.getTotalSizeInBytes ≠ (a._elementSize * a._dimensions.prod) % UINT_SIZE) ∨
       (∃ array, a._array = some array ∧
          array.getTotalDataSize ≠ (a._elementSize * a._dimensions.prod) % UINT_SIZE) ∨
       a._dimensions = [] ∨ a._elementSize = 0)) ∧
    ((a.init K).1 = false → (a.init K).2.isClear = true) := by
  have h1 : a.getNumDimensions = a._dimensions.length := by
    simp [Buffer.getNumDimensions, Nat.mod_eq_of_lt hlen]
  have hb := initByteSize_eq a hlen
  have hc : a.toBuffer.isClear = true := hclear
  unfold Array.init
  rw [h1, hb]
  by_cases hr : 3 < a._dimensions.length
  · simp [hr, clear_isClear]
  · simp only [gt_iff_lt, hr, if_false, false_or]
    cases himg : a._image with
    | some image =>
      by_cases hm : 1 < image.getNumMipmapLevels
      · simp [hm, clear_isClear]
      · by_cases hs : image.getTotalSizeInBytes = (a._elementSize * a._dimensions.prod) % UINT_SIZE
        · cases harr : a._array with
          | some array =>
            by_cases hs2 : array.getTotalDataSize = (a._elementSize * a._dimensions.prod) % UINT_SIZE
            · by_cases hd : a._dimensions = []
              · simp [hm, hs, hs2, hd, Buffer.init, hc]
              · by_cases he : a._elementSize = 0
                · simp [hm, hs, hs2, hd, he, Buffer.init, hc]
                · simp [hm, hs, hs2, hd, he, init_of_clear a.toBuffer hc hd he]
            · simp [hm, hs, hs2, clear_isClear]
          | none =>
            by_cases hd : a._dimensions = []
            · simp [hm, hs, hd, Buffer.init, hc]
            · by_cases he : a._elementSize = 0
              · simp [hm, hs, hd, he, Buffer.init, hc]
              · simp [hm, hs, hd, he, init_of_clear a.toBuffer hc hd he]
        · simp [hm, hs, clear_isClear]
    | none =>
      cases harr : a._array with
      | some array =>
        by_cases hs2 : array.getTotalDataSize = (a._elementSize * a._dimensions.prod) % UINT_SIZE
        · by_cases hd : a._dimensions = []
          · simp [hs2, hd, Buffer.init, hc]
          · by_cases he : a._elementSize = 0
            · simp [hs2, hd, he, Buffer.init, hc]
            · simp [hs2, hd, he, init_of_clear a.toBuffer hc hd he]
        · simp [hs2, clear_isClear]
      | none =>
        by_cases hd : a._dimensions = []
        · simp [hd, Buffer.init, hc]
        · by_cases he : a._elementSize = 0
          · simp [hd, he, Buffer.init, hc]
          · simp [hd, he, init_of_clear a.toBuffer hc hd he]


theorem lookupStream_of_some (f : Context → Option ArrayStream) (b : Buffer) (context : Context)
    (w : World) (s : ArrayStream) (h : b._streams.getD context.getId none = some s) :
    b.lookupStream f context w = (b, w, some s) := by
  have hlen : ¬ b._streams.length ≤ context.getId := by
    intro hle
    rw [List.getD_eq_default _ _ hle] at h
    exact absurd h (by simp)
  have h' : b._streams[context.getId]?.getD none = some s := by
    simpa [List.getD_eq_getElem?_getD] using h
  simp [Buffer.lookupStream, hlen, h']

theorem slot_lt_length (a : Array) (context : Context) (s : ArrayStream)
    (h : a.slot context = some s) : context.getId < a._streams.length := by
  by_contra hle
  unfold Array.slot at h
  rw [List.getD_eq_default _ _ (not_lt.mp hle)] at h
  exact absurd h (by simp)

theorem map_of_some (K : Constants) (rt : Runtime) (a : Array) (context : Context)
    (mapping : Nat) (w : World) (s : ArrayStream) (hclear : a.isClear = false)
    (hthread : context.getAssignedThread = rt.currentThread) (hs : a.slot context = some s) :
    a.map K rt context mapping w =
      if bitTest mapping K.MAP_DEVICE then
        ((a.mapArrayStream K rt s mapping w).1,
          a.setStream context (a.mapArrayStream K rt s mapping w).2.1,
          (a.mapArrayStream K rt s mapping w).2.2)
      else if bitTest mapping K.MAP_HOST then
        ((a.mapStream K rt s mapping w).1,
          a.setStream context (a.mapStream K rt s mapping w).2.1,
          (a.mapStream K rt s mapping w).2.2)
      else (0, a.setStream context (Array.unmapStream K s), w) := by
  have hc : a.toBuffer.isClear = false := hclear
  unfold Array.map
  rw [lookupStream_of_some _ _ _ _ s hs]
  simp [hclear, hthread]

theorem unmap_of_some (K : Constants) (rt : Runtime) (a : Array) (context : Context)
    (w : World) (s : ArrayStream) (hclear : a.isClear = false)
    (hthread : context.getAssignedThread = rt.currentThread) (hs : a.slot context = some s) :
    a.unmap K rt context w = (a.setStream context (Array.unmapStream K s), w) := by
  unfold Array.unmap
  rw [lookupStream_of_some _ _ _ _ s hs]
  simp [hclear, hthread]

/-- C4: unmap always leaves mapping = UNMAPPED and changes no pointer, ownership flag, hint,
counter or context; it sets the device pending-sync flag exactly when the mapping passes
the test `& MAP_HOST_TARGET`, and the host flag exactly when it fails that test and passes
`& MAP_DEVICE_TARGET`. For the five mapping states, with the enumerators laid out as named,
that is: the device flag is set exactly for HOST_TARGET, the host flag exactly for
DEVICE_TARGET, and both stay as they were for HOST_SOURCE, DEVICE_SOURCE and UNMAPPED.
`Array::unmap` applies this to the stream of the context. -/
theorem C4_unmap_flags (K : Constants) (rt : Runtime) (a : Array) (context : Context)
    (w : World) (s : ArrayStream) :
    (Array.unmapStream K s)._mapping = K.UNMAPPED ∧
    Array.unmapStream K s =
      { s with
        _mapping := K.UNMAPPED
        _syncDevice := (Array.unmapStream K s)._syncDevice
        _syncHost := (Array.unmapStream K s)._syncHost } ∧
    (Array.unmapStream K s)._syncDevice =
      (s._syncDevice || bitTest s._mapping K.MAP_HOST_TARGET) ∧
    (Array.unmapStream K s)._syncHost =
      (s._syncHost ||
        (!bitTest s._mapping K.MAP_HOST_TARGET && bitTest s._mapping K.MAP_DEVICE_TARGET)) ∧
    (K.Layout →
      (s._mapping = K.UNMAPPED ∨ s._mapping = K.MAP_HOST_SOURCE ∨
        s._mapping = K.MAP_HOST_TARGET ∨ s._mapping = K.MAP_DEVICE_SOURCE ∨
        s._mapping = K.MAP_DEVICE_TARGET) →
      (Array.unmapStream K s)._syncDevice =
        (s._syncDevice || decide (s._mapping = K.MAP_HOST_TARGET)) ∧
      (Array.unmapStream K s)._syncHost =
        (s._syncHost || decide (s._mapping = K.MAP_DEVICE_TARGET))) ∧
    (a.isClear = false → context.getAssignedThread = rt.currentThread →
      a.slot context = some s →
      a.unmap K rt context w = (a.setStream context (Array.unmapStream K s), w)) := by
  refine ⟨rfl, ?_, ?_, ?_, ?_, fun h1 h2 h3 => unmap_of_some K rt a context w s h1 h2 h3⟩
  · unfold Array.unmapStream
    split_ifs <;> rfl
  · unfold Array.unmapStream
    split_ifs with h1 h2
    · simp [h1]
    · simp [h1]
    · simp [h1]
  · unfold Array.unmapStream
    split_ifs with h1 h2
    · simp [h1]
    · simp [h1, h2]
    · simp [h1, h2]
  intro hK hm
  obtain ⟨h0, h1, h2, h3, h4⟩ := hK
  simp only [Constants.tests, Prod.mk.injEq] at h0 h1 h2 h3 h4
  have n1 : K.MAP_HOST_SOURCE ≠ K.MAP_HOST_TARGET := by
    intro e; rw [e] at h1; simp_all
  have n2 : K.UNMAPPED ≠ K.MAP_HOST_TARGET := by
    intro e; rw [e] at h0; simp_all
  have n3 : K.MAP_DEVICE_SOURCE ≠ K.MAP_HOST_TARGET := by
    intro e; rw [e] at h3; simp_all
  have n4 : K.MAP_DEVICE_TARGET ≠ K.MAP_HOST_TARGET := by
    intro e; rw [e] at h4; simp_all
  have n5 : K.UNMAPPED ≠ K.MAP_DEVICE_TARGET := by
    intro e; rw [e] at h0; simp_all
  have n6 : K.MAP_HOST_SOURCE ≠ K.MAP_DEVICE_TARGET := by
    intro e; rw [e] at h1; simp_all
  have n7 : K.MAP_DEVICE_SOURCE ≠ K.MAP_DEVICE_TARGET := by
    intro e; rw [e] at h3; simp_all
  have n8 : K.MAP_HOST_TARGET ≠ K.MAP_DEVICE_TARGET := by
    intro e; rw [e] at h2; simp_all
  rcases hm with e | e | e | e | e
  · simp [Array.unmapStream, e, h0, n2, n5]
  · simp [Array.unmapStream, e, h1, n1, n6]
  · simp [Array.unmapStream, e, h2, n8]
  · simp [Array.unmapStream, e, h3, n3, n7]
  · simp [Array.unmapStream, e, h4, n4]

/-- Witness for C4: a stream mapped HOST_TARGET with both flags clear; unmap sets the
device flag only. -/
theorem C4_unmap_flags_witness :
    (Array.unmapStream Scenario.K
        { ArrayStream.new Scenario.K with
          _mapping := Scenario.K.MAP_HOST_TARGET, _hostPtr := 100 })._syncDevice = true ∧
    (Array.unmapStream Scenario.K
        { ArrayStream.new Scenario.K with
          _mapping := Scenario.K.MAP_HOST_TARGET, _hostPtr := 100 })._syncHost = false :=
  (C4_unmap_flags Scenario.K Scenario.runtime Scenario.array44 Scenario.context Scenario.world
    { ArrayStream.new Scenario.K with _mapping := Scenario.K.MAP_HOST_TARGET, _hostPtr := 100 }
    ).2.2.2.2.1 (by decide) (by decide)

theorem invokeCallback_subload (rt : Runtime) (a : Array) (s : ArrayStream) (ptr mapping : Nat)
    (w : World) :
    (Array.invokeCallback rt a s ptr mapping false w).log = w.log ∨
    (Array.invokeCallback rt a s ptr mapping false w).log =
      w.log ++ [Call.subload ptr mapping (s._context.getD 0)] := by
  unfold Array.invokeCallback
  cases a._subloadCallback with
  | none => simp
  | some cb =>
    by_cases hp : ptr = 0
    · simp [hp]
    · by_cases hb : cb.isBufferSubloadCallback = true
      · simp [hp, hb]
      · simp [hp, hb]

/-- C5: when the stream is mapped to a side and setup is not needed (the external source,
if any, still has the counter the stream recorded), mapping that side again with any
mapping value returns the existing pointer and changes no field of the stream except
mapping, which becomes the requested one; the log gains no allocation and no copy: it is
unchanged or gains the one subload call of the callback. `Array::map`, called on the
thread of a context whose stream this is, returns that pointer and stores that stream. -/
theorem C5_remap_same_side (K : Constants) (rt : Runtime) (a : Array) (s : ArrayStream)
    (mapping : Nat) (w : World) (context : Context) (hsetup : a.needsSetup s = false) :
    (bitTest s._mapping K.MAP_HOST = true → bitTest mapping K.MAP_HOST = true →
      (a.mapStream K rt s mapping w).1 = s._hostPtr ∧
      (a.mapStream K rt s mapping w).2.1 = { s with _mapping := mapping } ∧
      ((a.mapStream K rt s mapping w).2.2.log = w.log ∨
        (a.mapStream K rt s mapping w).2.2.log =
          w.log ++ [Call.subload s._hostPtr mapping (s._context.getD 0)]) ∧
      (bitTest mapping K.MAP_DEVICE = false → a.isClear = false →
        context.getAssignedThread = rt.currentThread → a.slot context = some s →
        (a.map K rt context mapping w).1 = s._hostPtr ∧
        (a.map K rt context mapping w).2.1 =
          a.setStream context { s with _mapping := mapping })) ∧
    (bitTest s._mapping K.MAP_DEVICE = true → bitTest mapping K.MAP_DEVICE = true →
      (a.mapArrayStream K rt s mapping w).1 = s._devArray ∧
      (a.mapArrayStream K rt s mapping w).2.1 = { s with _mapping := mapping } ∧
      ((a.mapArrayStream K rt s mapping w).2.2.log = w.log ∨
        (a.mapArrayStream K rt s mapping w).2.2.log =
          w.log ++ [Call.subload s._devArray mapping (s._context.getD 0)]) ∧
      (a.isClear = false → context.getAssignedThread = rt.currentThread →
        a.slot context = some s →
        (a.map K rt context mapping w).1 = s._devArray ∧
        (a.map K rt context mapping w).2.1 =
          a.setStream context { s with _mapping := mapping })) := by
  constructor
  · intro h1 h2
    have e : a.mapStream K rt s mapping w =
        (s._hostPtr, { s with _mapping := mapping },
          Array.invokeCallback rt a s s._hostPtr mapping false w) := by
      simp [Array.mapStream, h1, h2, hsetup]
    refine ⟨?_, ?_, ?_, ?_⟩
    · rw [e]
    · rw [e]
    · rw [e]; exact invokeCallback_subload rt a s s._hostPtr mapping w
    · intro h3 hc ht hs
      rw [map_of_some K rt a context mapping w s hc ht hs]
      simp only [h3, Bool.false_eq_true, if_false, h2, if_true, e]
      exact ⟨trivial, trivial⟩
  · intro h1 h2
    have e : a.mapArrayStream K rt s mapping w =
        (s._devArray, { s with _mapping := mapping },
          Array.invokeCallback rt a s s._devArray mapping false w) := by
      simp [Array.mapArrayStream, h1, h2, hsetup]
    refine ⟨?_, ?_, ?_, ?_⟩
    · rw [e]
    · rw [e]
    · rw [e]; exact invokeCallback_subload rt a s s._devArray mapping w
    · intro hc ht hs
      rw [map_of_some K rt a context mapping w s hc ht hs]
      simp only [h2, if_true, e]
      exact ⟨trivial, trivial⟩

theorem count_record (w : World) (c : Call) (i : Nat) (h : c ≠ Call.newStream i) :
    (w.record c).log.count (Call.newStream i) = w.log.count (Call.newStream i) := by
  simp [World.record, List.count_append, List.count_singleton, h]

theorem count_append_one (l : List Call) (c : Call) (i : Nat) (h : c ≠ Call.newStream i) :
    (l ++ [c]).count (Call.newStream i) = l.count (Call.newStream i) := by
  simp [List.count_append, List.count_singleton, h]

theorem count_one (c : Call) (i : Nat) (h : c ≠ Call.newStream i) :
    List.count (Call.newStream i) [c] = 0 := by
  simp [List.count_singleton, h]

theorem hostAllocCall_ne (K : Constants) (a : Array) (s : ArrayStream) (i : Nat) :
    Array.hostAllocCall K a s ≠ Call.newStream i := by
  unfold Array.hostAllocCall; split <;> simp

theorem deviceAllocCall_ne (a : Array) (i : Nat) :
    Array.deviceAllocCall a ≠ Call.newStream i := by
  unfold Array.deviceAllocCall; split_ifs <;> simp

theorem setupDeviceCall_ne (a : Array) (s : ArrayStream) (i : Nat) :
    Array.setupDeviceCall a s ≠ Call.newStream i := by
  unfold Array.setupDeviceCall; split_ifs <;> simp

theorem setupHostCall_ne (a : Array) (s : ArrayStream) (i : Nat) :
    Array.setupHostCall a s ≠ Call.newStream i := by
  unfold Array.setupHostCall; simp

theorem syncDeviceCall_ne (a : Array) (s : ArrayStream) (i : Nat) :
    Array.syncDeviceCall a s ≠ Call.newStream i := by
  unfold Array.syncDeviceCall; split_ifs <;> simp

theorem syncHostCall_ne (a : Array) (s : ArrayStream) (i : Nat) :
    Array.syncHostCall a s ≠ Call.newStream i := by
  unfold Array.syncHostCall; split_ifs <;> simp

theorem allocStream_count (K : Constants) (rt : Runtime) (a : Array) (m : Nat)
    (s : ArrayStream) (w : World) (i : Nat) :
    (Array.allocStream K rt a m s w).2.2.log.count (Call.newStream i) =
      w.log.count (Call.newStream i) := by
  unfold Array.allocStream
  simp only []
  split_ifs <;>
    simp [count_record, hostAllocCall_ne, deviceAllocCall_ne]

theorem setupStream_count (K : Constants) (rt : Runtime) (a : Array) (m : Nat)
    (s : ArrayStream) (w : World) (i : Nat) :
    (Array.setupStream K rt a m s w).2.2.log.count (Call.newStream i) =
      w.log.count (Call.newStream i) := by
  unfold Array.setupStream
  split_ifs
  · rfl
  · simp only []
    split <;> simp [count_record, count_append_one, count_one, setupDeviceCall_ne]
  · rfl
  · simp only []
    split <;> simp [count_record, count_append_one, count_one, setupHostCall_ne]
  · rfl

theorem syncStream_count (K : Constants) (rt : Runtime) (a : Array) (m : Nat)
    (s : ArrayStream) (w : World) (i : Nat) :
    (Array.syncStream K rt a m s w).2.2.log.count (Call.newStream i) =
      w.log.count (Call.newStream i) := by
  unfold Array.syncStream
  split_ifs
  · simp only []
    split <;> simp [count_record, count_append_one, count_one, syncDeviceCall_ne]
  · simp only []
    split <;> simp [count_record, count_append_one, count_one, syncHostCall_ne]
  · rfl

theorem invokeCallback_count (rt : Runtime) (a : Array) (s : ArrayStream) (ptr m : Nat)
    (first : Bool) (w : World) (i : Nat) :
    (Array.invokeCallback rt a s ptr m first w).log.count (Call.newStream i) =
      w.log.count (Call.newStream i) := by
  unfold Array.invokeCallback
  split
  · rfl
  · split_ifs <;> simp [count_append_one]

theorem allocHostIfNull_count (K : Constants) (rt : Runtime) (a : Array) (m : Nat)
    (s : ArrayStream) (w : World) (i : Nat) :
    (Array.allocHostIfNull K rt a m s w).2.2.log.count (Call.newStream i) =
      w.log.count (Call.newStream i) := by
  unfold Array.allocHostIfNull
  split_ifs
  · exact allocStream_count K rt a m s w i
  · rfl

theorem allocDeviceIfNull_count (K : Constants) (rt : Runtime) (a : Array) (m : Nat)
    (s : ArrayStream) (w : World) (i : Nat) :
    (Array.allocDeviceIfNull K rt a m s w).2.2.log.count (Call.newStream i) =
      w.log.count (Call.newStream i) := by
  unfold Array.allocDeviceIfNull
  split_ifs
  · exact allocStream_count K rt a m s w i
  · rfl

theorem setupIfNeeded_count (K : Constants) (rt : Runtime) (a : Array) (m : Nat) (n : Bool)
    (s : ArrayStream) (w : World) (i : Nat) :
    (Array.setupIfNeeded K rt a m n s w).2.2.log.count (Call.newStream i) =
      w.log.count (Call.newStream i) := by
  unfold Array.setupIfNeeded
  split_ifs
  · exact setupStream_count K rt a m s w i
  · rfl

theorem syncHostIfPending_count (K : Constants) (rt : Runtime) (a : Array) (m : Nat)
    (s : ArrayStream) (w : World) (i : Nat) :
    (Array.syncHostIfPending K rt a m s w).2.2.log.count (Call.newStream i) =
      w.log.count (Call.newStream i) := by
  unfold Array.syncHostIfPending
  split_ifs
  · exact syncStream_count K rt a m s w i
  · rfl

theorem syncDeviceIfPending_count (K : Constants) (rt : Runtime) (a : Array) (m : Nat)
    (s : ArrayStream) (w : World) (i : Nat) :
    (Array.syncDeviceIfPending K rt a m s w).2.2.log.count (Call.newStream i) =
      w.log.count (Call.newStream i) := by
  unfold Array.syncDeviceIfPending
  split_ifs
  · exact syncStream_count K rt a m s w i
  · rfl

theorem mapStream_count (K : Constants) (rt : Runtime) (a : Array) (s : ArrayStream) (m : Nat)
    (w : World) (i : Nat) :
    (Array.mapStream K rt a s m w).2.2.log.count (Call.newStream i) =
      w.log.count (Call.newStream i) := by
  unfold Array.mapStream
  simp only []
  split_ifs <;>
    simp [invokeCallback_count, syncHostIfPending_count, syncDeviceIfPending_count,
      setupIfNeeded_count, allocHostIfNull_count, allocDeviceIfNull_count]

theorem mapArrayStream_count (K : Constants) (rt : Runtime) (a : Array) (s : ArrayStream)
    (m : Nat) (w : World) (i : Nat) :
    (Array.mapArrayStream K rt a s m w).2.2.log.count (Call.newStream i) =
      w.log.count (Call.newStream i) := by
  unfold Array.mapArrayStream
  simp only []
  split_ifs <;>
    simp [invokeCallback_count, syncHostIfPending_count, syncDeviceIfPending_count,
      setupIfNeeded_count, allocHostIfNull_count, allocDeviceIfNull_count]


theorem getD_resize_none {α : Type} (l : List (Option α)) (n i : Nat) :
    (resize l n none).getD i none = if i < n then l.getD i none else none := by
  unfold resize
  by_cases h1 : i < n
  · by_cases h2 : i < l.length
    · simp [List.getD_eq_getElem?_getD, h1, h2, List.getElem?_append_left,
        List.getElem?_take]
    · have h3 : min n l.length ≤ i := by omega
      have h4 : l[i]? = none := by simp; omega
      simp only [List.getD_eq_getElem?_getD, h1, if_true, h4]
      rw [List.getElem?_append_right (by simpa using h3)]
      simp [List.getElem?_replicate]
      split_ifs <;> rfl
  · simp only [List.getD_eq_getElem?_getD, h1, if_false]
    rw [List.getElem?_eq_none]
    · rfl
    · simp; omega

theorem grownStreams_length (b : Buffer) (context : Context)
    (hid : context.getId + 1 < UINT_SIZE) :
    context.getId < (grownStreams b context).length := by
  unfold grownStreams
  split_ifs with h
  · simp [resize, Nat.mod_eq_of_lt hid]; omega
  · omega

theorem grownStreams_getD (b : Buffer) (context : Context)
    (hid : context.getId + 1 < UINT_SIZE) :
    (grownStreams b context).getD context.getId none = b._streams.getD context.getId none := by
  unfold grownStreams
  split_ifs with h
  · rw [getD_resize_none, Nat.mod_eq_of_lt hid]
    simp
  · rfl

theorem lookupStream_of_none (K : Constants) (b : Buffer) (context : Context) (w : World)
    (hid : context.getId + 1 < UINT_SIZE)
    (hs : b._streams.getD context.getId none = none) :
    b.lookupStream (Array.newStream K) context w =
      ({ b with
          toResource := (b.toResource.initContext context.getId).2
          _streams := (grownStreams b context).set context.getId (some (freshStream K b context)) },
        w.record (Call.newStream context.getId), some (freshStream K b context)) := by
  have hg := grownStreams_getD b context hid
  have hl := grownStreams_length b context hid
  rw [hs] at hg
  have hi : Buffer.initContext (Array.newStream K) b context w =
      (true, { b with
          toResource := (b.toResource.initContext context.getId).2
          _streams := (grownStreams b context).set context.getId (some (freshStream K b context)) },
        w.record (Call.newStream context.getId)) := by
    unfold Buffer.initContext
    simp only []
    unfold grownStreams at hg
    rw [hg]
    rfl
  have hc : (b._streams.length ≤ context.getId ||
      (b._streams.getD context.getId none).isNone) = true := by
    rw [hs]
    simp
  unfold Buffer.lookupStream
  simp only [hc, if_true, hi]
  simp [List.getD_eq_getElem?_getD, List.getElem?_set_self, hl]

theorem lookupStream_spec (K : Constants) (b : Buffer) (context : Context) (w : World)
    (hid : context.getId + 1 < UINT_SIZE) :
    ∃ s b' w', b.lookupStream (Array.newStream K) context w = (b', w', some s) ∧
      b'._streams.getD context.getId none = some s ∧
      b'.isClear = b.isClear ∧
      w'.streamsConstructed context.getId = w.streamsConstructed context.getId +
        (if (b._streams.getD context.getId none).isSome then 0 else 1) := by
  cases hs : b._streams.getD context.getId none with
  | some s =>
    exact ⟨s, b, w, lookupStream_of_some _ b context w s hs, hs, rfl, by simp⟩
  | none =>
    have hl := grownStreams_length b context hid
    refine ⟨_, _, _, lookupStream_of_none K b context w hid hs, ?_, rfl, ?_⟩
    · simp [List.getD_eq_getElem?_getD, List.getElem?_set_self, hl]
    · simp [World.streamsConstructed, World.record, List.count_append]


theorem slot_setStream (a : Array) (context : Context) (s s' : ArrayStream)
    (h : a.slot context = some s) : (a.setStream context s').slot context = some s' := by
  have hl := slot_lt_length a context s h
  simp [Array.slot, Array.setStream, List.getD_eq_getElem?_getD, List.getElem?_set_self, hl]

theorem map_reached (K : Constants) (rt : Runtime) (a : Array) (context : Context)
    (mapping : Nat) (w : World) (hclear : a.isClear = false)
    (hthread : context.getAssignedThread = rt.currentThread)
    (hid : context.getId + 1 < UINT_SIZE) :
    Reached context a w (a.map K rt context mapping w).2 := by
  obtain ⟨s, b', w', hl, hslot, hcl, hcnt⟩ := lookupStream_spec K a.toBuffer context w hid
  have hs1 : Array.slot { a with toBuffer := b' } context = some s := hslot
  have hc1 : ({ a with toBuffer := b' } : Array).isClear = false := by
    have : b'.isClear = false := by rw [hcl]; exact hclear
    exact this
  unfold Array.map
  rw [hl]
  simp only [hclear, hthread, bne_self_eq_false, Bool.false_eq_true, if_false]
  split_ifs
  · refine ⟨hc1, ?_, ?_⟩
    · rw [slot_setStream _ _ s _ hs1]; rfl
    · simp only [World.streamsConstructed] at hcnt ⊢
      rw [mapArrayStream_count]
      exact hcnt
  · refine ⟨hc1, ?_, ?_⟩
    · rw [slot_setStream _ _ s _ hs1]; rfl
    · simp only [World.streamsConstructed] at hcnt ⊢
      rw [mapStream_count]
      exact hcnt
  · refine ⟨hc1, ?_, hcnt⟩
    rw [slot_setStream _ _ s _ hs1]; rfl

theorem mapArray_reached (K : Constants) (rt : Runtime) (a : Array) (context : Context)
    (mapping : Nat) (w : World) (hclear : a.isClear = false)
    (hthread : context.getAssignedThread = rt.currentThread)
    (hside : bitTest mapping K.MAP_HOST = false)
    (hid : context.getId + 1 < UINT_SIZE) :
    Reached context a w (a.mapArray K rt context mapping w).2 := by
  obtain ⟨s, b', w', hl, hslot, hcl, hcnt⟩ := lookupStream_spec K a.toBuffer context w hid
  have hs1 : Array.slot { a with toBuffer := b' } context = some s := hslot
  have hc1 : ({ a with toBuffer := b' } : Array).isClear = false := by
    have : b'.isClear = false := by rw [hcl]; exact hclear
    exact this
  unfold Array.mapArray
  rw [hl]
  simp only [hclear, hthread, hside, bne_self_eq_false, Bool.false_eq_true, if_false]
  split_ifs
  · refine ⟨hc1, ?_, ?_⟩
    · rw [slot_setStream _ _ s _ hs1]; rfl
    · simp only [World.streamsConstructed] at hcnt ⊢
      rw [mapArrayStream_count]
      exact hcnt
  · refine ⟨hc1, ?_, hcnt⟩
    rw [slot_setStream _ _ s _ hs1]; rfl

theorem unmap_reached (K : Constants) (rt : Runtime) (a : Array) (context : Context)
    (w : World) (hclear : a.isClear = false)
    (hthread : context.getAssignedThread = rt.currentThread)
    (hid : context.getId + 1 < UINT_SIZE) :
    Reached context a w (a.unmap K rt context w) := by
  obtain ⟨s, b', w', hl, hslot, hcl, hcnt⟩ := lookupStream_spec K a.toBuffer context w hid
  have hs1 : Array.slot { a with toBuffer := b' } context = some s := hslot
  have hc1 : ({ a with toBuffer := b' } : Array).isClear = false := by
    have : b'.isClear = false := by rw [hcl]; exact hclear
    exact this
  unfold Array.unmap
  rw [hl]
  simp only [hclear, hthread, bne_self_eq_false, Bool.false_eq_true, if_false]
  refine ⟨hc1, ?_, hcnt⟩
  rw [slot_setStream _ _ s _ hs1]; rfl

theorem getMapping_reached (K : Constants) (a : Array) (context : Context)
    (w : World) (hclear : a.isClear = false) (hid : context.getId + 1 < UINT_SIZE) :
    Reached context a w (a.getMapping K context w).2 := by
  obtain ⟨s, b', w', hl, hslot, hcl, hcnt⟩ := lookupStream_spec K a.toBuffer context w hid
  have hc : a.toBuffer.isClear = false := hclear
  have hc1 : b'.isClear = false := by rw [hcl]; exact hclear
  unfold Array.getMapping Buffer.getMapping
  rw [hl]
  simp only [hc, Bool.false_eq_true, if_false]
  refine ⟨hc1, ?_, hcnt⟩
  show (b'._streams.getD context.getId none).isSome = true
  rw [hslot]
  rfl

theorem step_spec (K : Constants) (context : Context) (a : Array) (w : World)
    (c : Runtime × Op) (hclear : a.isClear = false) (hid : context.getId + 1 < UINT_SIZE) :
    (Array.step K context (a, w) c).1.isClear = false ∧
    ((Array.step K context (a, w) c).1.slot context).isSome =
      ((a.slot context).isSome || Op.reachesLookup K context c) ∧
    (Array.step K context (a, w) c).2.streamsConstructed context.getId =
      w.streamsConstructed context.getId +
        (if !(a.slot context).isSome && Op.reachesLookup K context c then 1 else 0) := by
  by_cases hr : Op.reachesLookup K context c = true
  · have key : Reached context a w (Array.step K context (a, w) c) := by
      obtain ⟨rt, op⟩ := c
      cases op with
      | map mapping =>
        simp only [Op.reachesLookup, beq_iff_eq] at hr
        exact map_reached K rt a context mapping w hclear hr hid
      | mapArray mapping =>
        simp only [Op.reachesLookup, Bool.and_eq_true, beq_iff_eq, Bool.not_eq_true'] at hr
        exact mapArray_reached K rt a context mapping w hclear hr.1 hr.2 hid
      | unmap =>
        simp only [Op.reachesLookup, beq_iff_eq] at hr
        exact unmap_reached K rt a context w hclear hr hid
      | getMapping => exact getMapping_reached K a context w hclear hid
    obtain ⟨k1, k2, k3⟩ := key
    refine ⟨k1, ?_, ?_⟩
    · rw [k2, hr]; simp
    · rw [k3, hr]
      cases (a.slot context).isSome <;> simp
  · have hr' : Op.reachesLookup K context c = false := by simpa using hr
    have key : Array.step K context (a, w) c = (a, w) := by
      obtain ⟨rt, op⟩ := c
      cases op with
      | map mapping =>
        simp only [Op.reachesLookup, beq_eq_false_iff_ne, ne_eq] at hr'
        simp [Array.step, Array.map, hclear, hr']
      | mapArray mapping =>
        simp only [Op.reachesLookup, Bool.and_eq_false_iff, beq_eq_false_iff_ne, ne_eq,
          Bool.not_eq_false'] at hr'
        rcases hr' with h | h
        · simp [Array.step, Array.mapArray, hclear, h]
        · simp [Array.step, Array.mapArray, hclear, h]
      | unmap =>
        simp only [Op.reachesLookup, beq_eq_false_iff_ne, ne_eq] at hr'
        simp [Array.step, Array.unmap, hclear, hr']
      | getMapping => simp [Op.reachesLookup] at hr'
    rw [key, hr']
    exact ⟨hclear, by simp, by simp⟩

theorem count_step (n : Nat) (o r t : Bool) :
    (n + (if (!o && r) = true then 1 else 0)) + (if (!(o || r) && t) = true then 1 else 0) =
      n + (if (!o && (r || t)) = true then 1 else 0) := by
  cases o <;> cases r <;> cases t <;> simp

theorem run_spec (K : Constants) (context : Context) (calls : List (Runtime × Op))
    (a : Array) (w : World) (hclear : a.isClear = false)
    (hid : context.getId + 1 < UINT_SIZE) :
    (Array.run K context (a, w) calls).1.isClear = false ∧
    ((Array.run K context (a, w) calls).1.slot context).isSome =
      ((a.slot context).isSome || calls.any (Op.reachesLookup K context)) ∧
    (Array.run K context (a, w) calls).2.streamsConstructed context.getId =
      w.streamsConstructed context.getId +
        (if !(a.slot context).isSome && calls.any (Op.reachesLookup K context) then 1 else 0) := by
  induction calls generalizing a w with
  | nil => simp [Array.run, hclear]
  | cons c cs ih =>
    obtain ⟨h1, h2, h3⟩ := step_spec K context a w c hclear hid
    have ih' := ih (Array.step K context (a, w) c).1 (Array.step K context (a, w) c).2 h1
    simp only [Array.run, List.foldl_cons, List.any_cons] at ih' ⊢
    refine ⟨ih'.1, ?_, ?_⟩
    · rw [ih'.2.1, h2]
      simp [Bool.or_assoc]
    · rw [ih'.2.2, h3, h2]
      exact count_step _ _ _ _

end osgCuda

namespace osgCuda

open osgCompute

/-- Witness for C10: a clear array with four dimensions is rejected and stays clear. -/
theorem C10_init_fails_iff_witness :
    ({ Array.new Scenario.K with
        toBuffer := ((Buffer.new Scenario.K).setDimension 3 2).setElementSize 4 }.init Scenario.K).1
      = false ∧
    ({ Array.new Scenario.K with
        toBuffer := ((Buffer.new Scenario.K).setDimension 3 2).setElementSize 4 }.init
          Scenario.K).2.isClear = true :=
  let h := C10_init_fails_iff Scenario.K
    { Array.new Scenario.K with
      toBuffer := ((Buffer.new Scenario.K).setDimension 3 2).setElementSize 4 }
    (by decide) (by decide)
  ⟨h.1.mpr (Or.inl (by decide)), h.2 (h.1.mpr (Or.inl (by decide)))⟩

/-- Witness for C5: a stream mapped HOST_TARGET at pointer 100 is mapped HOST_SOURCE: the
pointer comes back, only the mapping changes and nothing is logged. -/
theorem C5_remap_same_side_witness :
    (Scenario.array44.mapStream Scenario.K Scenario.runtime
      { ArrayStream.new Scenario.K with _mapping := Scenario.K.MAP_HOST_TARGET, _hostPtr := 100 }
      Scenario.K.MAP_HOST_SOURCE Scenario.world).1 = 100 ∧
    (Scenario.array44.mapStream Scenario.K Scenario.runtime
      { ArrayStream.new Scenario.K with _mapping := Scenario.K.MAP_HOST_TARGET, _hostPtr := 100 }
      Scenario.K.MAP_HOST_SOURCE Scenario.world).2.1 =
      { ArrayStream.new Scenario.K with _mapping := Scenario.K.MAP_HOST_SOURCE, _hostPtr := 100 } :=
  let h := (C5_remap_same_side Scenario.K Scenario.runtime Scenario.array44
    { ArrayStream.new Scenario.K with _mapping := Scenario.K.MAP_HOST_TARGET, _hostPtr := 100 }
    Scenario.K.MAP_HOST_SOURCE Scenario.world Scenario.context (by decide)).1 (by decide)
    (by decide)
  ⟨h.1, h.2.1⟩

/-- C3, as stated, fails: on the initialised scenario array a first call that is rejected
before the stream lookup (`mapArray` asked for a host-side mapping, or `map` from a thread
other than the context's) constructs no stream and leaves the slot empty. -/
theorem C3_rejected_first_call_constructs_nothing :
    (Array.run Scenario.K Scenario.context (Scenario.array44, Scenario.world)
      [(Scenario.runtime, Op.mapArray Scenario.K.MAP_HOST_SOURCE)]).2.streamsConstructed 0 = 0 ∧
    ((Array.run Scenario.K Scenario.context (Scenario.array44, Scenario.world)
      [(Scenario.runtime, Op.mapArray Scenario.K.MAP_HOST_SOURCE)]).1.slot Scenario.context)
      = none ∧
    (Array.run Scenario.K Scenario.context (Scenario.array44, Scenario.world)
      [(Scenario.otherThread, Op.map Scenario.K.MAP_HOST_TARGET)]).2.streamsConstructed 0 = 0 := by
  decide

/-- C3, amended: for every initialised Array and context, in any sequence of map, mapArray,
unmap and getMapping calls made with that context, the buffer stays initialised and a
stream is constructed exactly when the slot of the context was empty and some call gets
past the guards in front of the stream lookup, so at most one is constructed; once the slot
is occupied (after any prefix of the sequence) it stays occupied and the later calls
construct no stream. -/
theorem C3_at_most_one_stream (K : Constants) (context : Context) (a : Array) (w : World)
    (pre post : List (Runtime × Op)) (hclear : a.isClear = false)
    (hid : context.getId + 1 < UINT_SIZE) :
    (Array.run K context (a, w) (pre ++ post)).1.isClear = false ∧
    (Array.run K context (a, w) (pre ++ post)).2.streamsConstructed context.getId =
      w.streamsConstructed context.getId +
        (if !(a.slot context).isSome && (pre ++ post).any (Op.reachesLookup K context)
          then 1 else 0) ∧
    (Array.run K context (a, w) (pre ++ post)).2.streamsConstructed context.getId ≤
      w.streamsConstructed context.getId + 1 ∧
    ((Array.run K context (a, w) (pre ++ post)).1.slot context).isSome =
      ((a.slot context).isSome || (pre ++ post).any (Op.reachesLookup K context)) ∧
    (((Array.run K context (a, w) pre).1.slot context).isSome = true →
      ((Array.run K context (a, w) (pre ++ post)).1.slot context).isSome = true ∧
      (Array.run K context (a, w) (pre ++ post)).2.streamsConstructed context.getId =
        (Array.run K context (a, w) pre).2.streamsConstructed context.getId) := by
  obtain ⟨h1, h2, h3⟩ := run_spec K context (pre ++ post) a w hclear hid
  obtain ⟨p1, _, _⟩ := run_spec K context pre a w hclear hid
  have hsplit : Array.run K context (a, w) (pre ++ post) =
      Array.run K context (Array.run K context (a, w) pre) post := by
    simp [Array.run, List.foldl_append]
  refine ⟨h1, h3, ?_, h2, ?_⟩
  · rw [h3]
    split_ifs <;> omega
  · intro hocc
    obtain ⟨_, q2, q3⟩ := run_spec K context post (Array.run K context (a, w) pre).1
      (Array.run K context (a, w) pre).2 p1 hid
    rw [hsplit]
    refine ⟨?_, ?_⟩
    · rw [q2, hocc]; rfl
    · rw [q3, hocc]; simp

/-- Witness for C3: on the scenario array, `map(HOST_TARGET)` constructs the one stream;
`unmap`, `map(DEVICE_SOURCE)` and `getMapping` after it construct none. -/
theorem C3_at_most_one_stream_witness :
    (Array.run Scenario.K Scenario.context (Scenario.array44, Scenario.world)
      ([(Scenario.runtime, Op.map Scenario.K.MAP_HOST_TARGET)] ++
        [(Scenario.runtime, Op.unmap), (Scenario.runtime, Op.map Scenario.K.MAP_DEVICE_SOURCE),
          (Scenario.runtime, Op.getMapping)])).2.streamsConstructed 0 = 1 :=
  (C3_at_most_one_stream Scenario.K Scenario.context Scenario.array44 Scenario.world
    [(Scenario.runtime, Op.map Scenario.K.MAP_HOST_TARGET)]
    [(Scenario.runtime, Op.unmap), (Scenario.runtime, Op.map Scenario.K.MAP_DEVICE_SOURCE),
      (Scenario.runtime, Op.getMapping)] (by decide) (by decide)).2.1

end osgCuda

namespace osgCuda

open osgCompute

theorem unmapIfMapped_keeps (K : Constants) (s : ArrayStream) :
    (Array.unmapIfMapped K s)._hostPtr = s._hostPtr ∧
    (Array.unmapIfMapped K s)._devArray = s._devArray ∧
    (Array.unmapIfMapped K s)._modifyCount = s._modifyCount ∧
    (s._syncDevice = true → (Array.unmapIfMapped K s)._syncDevice = true) ∧
    (s._syncHost = true → (Array.unmapIfMapped K s)._syncHost = true) := by
  unfold Array.unmapIfMapped Array.unmapStream
  split_ifs <;> simp

theorem allocStream_keeps (K : Constants) (rt : Runtime) (a : Array) (m : Nat)
    (s : ArrayStream) (w : World) :
    (Array.allocStream K rt a m s w).2.1._mapping = s._mapping ∧
    (Array.allocStream K rt a m s w).2.1._modifyCount = s._modifyCount ∧
    (Array.allocStream K rt a m s w).2.2.copies = w.copies ∧
    (Array.allocStream K rt a m s w).2.2.mem = w.mem := by
  have h1 : (Array.hostAllocCall K a s).isCopy = false := by
    unfold Array.hostAllocCall; split_ifs <;> rfl
  have h2 : (Array.deviceAllocCall a).isCopy = false := by
    unfold Array.deviceAllocCall; split_ifs <;> rfl
  unfold Array.allocStream
  simp only []
  split_ifs <;> simp [World.record, World.copies, List.countP_append, h1, h2]

theorem setupStream_keeps (K : Constants) (rt : Runtime) (a : Array) (m : Nat)
    (s : ArrayStream) (w : World) :
    (Array.setupStream K rt a m s w).2.1._mapping = s._mapping ∧
    (Array.setupStream K rt a m s w).2.1._hostPtr = s._hostPtr ∧
    (Array.setupStream K rt a m s w).2.1._devArray = s._devArray := by
  unfold Array.setupStream
  split_ifs
  · exact ⟨rfl, rfl, rfl⟩
  · simp only []
    split <;> exact ⟨rfl, rfl, rfl⟩
  · exact ⟨rfl, rfl, rfl⟩
  · simp only []
    split <;> exact ⟨rfl, rfl, rfl⟩
  · exact ⟨rfl, rfl, rfl⟩

theorem syncStream_keeps (K : Constants) (rt : Runtime) (a : Array) (m : Nat)
    (s : ArrayStream) (w : World) :
    (Array.syncStream K rt a m s w).2.1._mapping = s._mapping ∧
    (Array.syncStream K rt a m s w).2.1._hostPtr = s._hostPtr ∧
    (Array.syncStream K rt a m s w).2.1._devArray = s._devArray ∧
    (Array.syncStream K rt a m s w).2.1._modifyCount = s._modifyCount ∧
    (bitTest m K.MAP_DEVICE = false →
      (Array.syncStream K rt a m s w).2.1._syncDevice = s._syncDevice) ∧
    (bitTest m K.MAP_DEVICE = true →
      (Array.syncStream K rt a m s w).2.1._syncHost = s._syncHost) := by
  unfold Array.syncStream
  split_ifs with h1 h2
  · simp only []
    split <;> simp [h1]
  · simp only []
    split <;> simp [h1]
  · simp [h1]

theorem countP_isCopy_append_one (l : List Call) (c : Call) (h : c.isCopy = true) :
    (l ++ [c]).countP Call.isCopy = l.countP Call.isCopy + 1 := by
  simp [List.countP_append, h]

theorem setupHostCall_isCopy (a : Array) (s : ArrayStream) :
    (Array.setupHostCall a s).isCopy = true := rfl

theorem setupDeviceCall_isCopy (a : Array) (s : ArrayStream) :
    (Array.setupDeviceCall a s).isCopy = true := by
  unfold Array.setupDeviceCall; split_ifs <;> rfl

theorem syncHostCall_isCopy (a : Array) (s : ArrayStream) :
    (Array.syncHostCall a s).isCopy = true := by
  unfold Array.syncHostCall; split_ifs <;> rfl

theorem syncDeviceCall_isCopy (a : Array) (s : ArrayStream) :
    (Array.syncDeviceCall a s).isCopy = true := by
  unfold Array.syncDeviceCall; split_ifs <;> rfl

theorem invokeCallback_copies (rt : Runtime) (a : Array) (s : ArrayStream) (ptr m : Nat)
    (first : Bool) (w : World) :
    (Array.invokeCallback rt a s ptr m first w).copies = w.copies := by
  unfold Array.invokeCallback World.copies
  split
  · rfl
  · split_ifs <;> simp [List.countP_append, Call.isCopy]

/-- A successful `setupStream` for a host-side mapping marks the device copy stale and
records the counter of the source. -/
theorem setupStream_host_ok (K : Constants) (rt : Runtime) (a : Array) (m : Nat)
    (s : ArrayStream) (w : World) (hd : bitTest m K.MAP_DEVICE = false)
    (hok : (Array.setupStream K rt a m s w).1 = true) :
    (Array.setupStream K rt a m s w).2.1 =
      { s with _syncDevice := true, _modifyCount := a.sourceModifiedCount s } := by
  unfold Array.setupStream at hok ⊢
  simp only [hd, Bool.false_eq_true, if_false] at hok ⊢
  by_cases hh : bitTest m K.MAP_HOST = true
  · by_cases h0 : (a.sourceData == 0) = true
    · simp [hh, h0] at hok
    · cases hmem : rt.memcpy (a.setupHostCall s) w.mem with
      | none => simp [hh, h0, hmem] at hok
      | some m' => simp [hh, h0, hmem]
  · simp [hh] at hok

/-- A successful `setupStream` for a device-side mapping marks the host copy stale and
records the counter of the source. -/
theorem setupStream_device_ok (K : Constants) (rt : Runtime) (a : Array) (m : Nat)
    (s : ArrayStream) (w : World) (hd : bitTest m K.MAP_DEVICE = true)
    (hok : (Array.setupStream K rt a m s w).1 = true) :
    (Array.setupStream K rt a m s w).2.1 =
      { s with _syncHost := true, _modifyCount := a.sourceModifiedCount s } := by
  unfold Array.setupStream at hok ⊢
  simp only [hd, if_true] at hok ⊢
  by_cases h0 : (a.sourceData == 0) = true
  · simp [h0] at hok
  · cases hmem : rt.memcpy (a.setupDeviceCall s) w.mem with
    | none => simp [h0, hmem] at hok
    | some m' => simp [h0, hmem]

end osgCuda

namespace osgCuda

open osgCompute

theorem mapStream_slow (K : Constants) (rt : Runtime) (a : Array) (s : ArrayStream)
    (m : Nat) (w : World) (hfast : Array.hostFast K a s m = false)
    (hm : bitTest m K.MAP_HOST = true) :
    a.mapStream K rt s m w =
      if !(Array.hostAllocated K rt a s m w).1 then
        (0, (Array.hostAllocated K rt a s m w).2.1, (Array.hostAllocated K rt a s m w).2.2)
      else if !(Array.hostSetUp K rt a s m w).1 then
        (0, (Array.hostSetUp K rt a s m w).2.1, (Array.hostSetUp K rt a s m w).2.2)
      else if !(Array.hostSynced K rt a s m w).1 then
        (0, (Array.hostSynced K rt a s m w).2.1, (Array.hostSynced K rt a s m w).2.2)
      else
        ((Array.hostSynced K rt a s m w).2.1._hostPtr, (Array.hostSynced K rt a s m w).2.1,
          Array.invokeCallback rt a (Array.hostSynced K rt a s m w).2.1
            (Array.hostSynced K rt a s m w).2.1._hostPtr m
            ((Array.unmapIfMapped K s)._hostPtr == 0) (Array.hostSynced K rt a s m w).2.2) := by
  unfold Array.hostFast at hfast
  unfold Array.mapStream
  simp only []
  rw [hfast]
  simp only [Bool.false_eq_true, if_false, hm, if_true]
  rfl

theorem mapArrayStream_slow (K : Constants) (rt : Runtime) (a : Array) (s : ArrayStream)
    (m : Nat) (w : World) (hfast : Array.deviceFast K a s m = false)
    (hm : bitTest m K.MAP_DEVICE = true) :
    a.mapArrayStream K rt s m w =
      if !(Array.deviceAllocated K rt a s m w).1 then
        (0, (Array.deviceAllocated K rt a s m w).2.1, (Array.deviceAllocated K rt a s m w).2.2)
      else if !(Array.deviceSetUp K rt a s m w).1 then
        (0, (Array.deviceSetUp K rt a s m w).2.1, (Array.deviceSetUp K rt a s m w).2.2)
      else if !(Array.deviceSynced K rt a s m w).1 then
        (0, (Array.deviceSynced K rt a s m w).2.1, (Array.deviceSynced K rt a s m w).2.2)
      else
        ((Array.deviceSynced K rt a s m w).2.1._devArray, (Array.deviceSynced K rt a s m w).2.1,
          Array.invokeCallback rt a (Array.deviceSynced K rt a s m w).2.1
            (Array.deviceSynced K rt a s m w).2.1._devArray m
            ((Array.unmapIfMapped K s)._devArray == 0)
            (Array.deviceSynced K rt a s m w).2.2) := by
  unfold Array.deviceFast at hfast
  unfold Array.mapArrayStream
  simp only []
  rw [hfast]
  simp only [Bool.false_eq_true, if_false, hm, if_true]
  rfl

/-- A slow-path `mapStream` that returns a pointer got through all three blocks. -/
theorem mapStream_ok (K : Constants) (rt : Runtime) (a : Array) (s : ArrayStream)
    (m : Nat) (w : World) (hfast : Array.hostFast K a s m = false)
    (hm : bitTest m K.MAP_HOST = true) (hok : (a.mapStream K rt s m w).1 ≠ 0) :
    (Array.hostAllocated K rt a s m w).1 = true ∧ (Array.hostSetUp K rt a s m w).1 = true ∧
    (Array.hostSynced K rt a s m w).1 = true ∧
    (a.mapStream K rt s m w).2.1 = (Array.hostSynced K rt a s m w).2.1 ∧
    (a.mapStream K rt s m w).2.2.copies = (Array.hostSynced K rt a s m w).2.2.copies ∧
    (Array.hostSynced K rt a s m w).2.1._hostPtr ≠ 0 := by
  rw [mapStream_slow K rt a s m w hfast hm] at hok ⊢
  by_cases h1 : (Array.hostAllocated K rt a s m w).1 = true
  · by_cases h2 : (Array.hostSetUp K rt a s m w).1 = true
    · by_cases h3 : (Array.hostSynced K rt a s m w).1 = true
      · simp only [h1, h2, h3, Bool.not_true, Bool.false_eq_true, if_false] at hok ⊢
        exact ⟨trivial, trivial, trivial, trivial, invokeCallback_copies _ _ _ _ _ _ _, hok⟩
      · simp [h1, h2, h3] at hok
    · simp [h1, h2] at hok
  · simp [h1] at hok

/-- A slow-path `mapArrayStream` that returns a handle got through all three blocks. -/
theorem mapArrayStream_ok (K : Constants) (rt : Runtime) (a : Array) (s : ArrayStream)
    (m : Nat) (w : World) (hfast : Array.deviceFast K a s m = false)
    (hm : bitTest m K.MAP_DEVICE = true) (hok : (a.mapArrayStream K rt s m w).1 ≠ 0) :
    (Array.deviceAllocated K rt a s m w).1 = true ∧
    (Array.deviceSetUp K rt a s m w).1 = true ∧
    (Array.deviceSynced K rt a s m w).1 = true ∧
    (a.mapArrayStream K rt s m w).2.1 = (Array.deviceSynced K rt a s m w).2.1 ∧
    (a.mapArrayStream K rt s m w).2.2.copies = (Array.deviceSynced K rt a s m w).2.2.copies ∧
    (Array.deviceSynced K rt a s m w).2.1._devArray ≠ 0 := by
  rw [mapArrayStream_slow K rt a s m w hfast hm] at hok ⊢
  by_cases h1 : (Array.deviceAllocated K rt a s m w).1 = true
  · by_cases h2 : (Array.deviceSetUp K rt a s m w).1 = true
    · by_cases h3 : (Array.deviceSynced K rt a s m w).1 = true
      · simp only [h1, h2, h3, Bool.not_true, Bool.false_eq_true, if_false] at hok ⊢
        exact ⟨trivial, trivial, trivial, trivial, invokeCallback_copies _ _ _ _ _ _ _, hok⟩
      · simp [h1, h2, h3] at hok
    · simp [h1, h2] at hok
  · simp [h1] at hok

end osgCuda

namespace osgCuda

open osgCompute

theorem sourceModifiedCount_const (a : Array) (s t : ArrayStream)
    (h : a.needsSetup s = true) : a.sourceModifiedCount t = a.sourceModifiedCount s := by
  unfold Array.needsSetup at h
  unfold Array.sourceModifiedCount
  cases hi : a._image with
  | some image => rfl
  | none =>
    cases ha : a._array with
    | some array => rfl
    | none => simp [hi, ha] at h

theorem needsSetup_of_modifyCount (a : Array) (s t : ArrayStream)
    (hsrc : a._image = none ∨ a._array = none)
    (h : t._modifyCount = a.sourceModifiedCount s) : a.needsSetup t = false := by
  unfold Array.needsSetup
  unfold Array.sourceModifiedCount at h
  rcases hsrc with hi | ha
  · cases ha : a._array with
    | some array => simp [hi, ha] at h ⊢; exact h.symm
    | none => simp [hi]
  · cases hi : a._image with
    | some image => simp [hi, ha] at h ⊢; exact h.symm
    | none => simp [ha]

theorem allocStream_device_ok (K : Constants) (rt : Runtime) (a : Array) (m : Nat)
    (s : ArrayStream) (w : World) (hh : bitTest m K.MAP_HOST = false)
    (hd : bitTest m K.MAP_DEVICE = true) (h0 : s._devArray = 0) (hf : a.noFormat = false)
    (hp : rt.malloc a.deviceAllocCall ≠ 0) :
    (Array.allocStream K rt a m s w).1 = true ∧
    (Array.allocStream K rt a m s w).2.1._devArray = rt.malloc a.deviceAllocCall ∧
    (Array.allocStream K rt a m s w).2.1._hostPtr = s._hostPtr ∧
    (Array.allocStream K rt a m s w).2.1._syncDevice = (s._syncDevice || s._hostPtr != 0) ∧
    (Array.allocStream K rt a m s w).2.1._syncHost = s._syncHost ∧
    (Array.allocStream K rt a m s w).2.2 = w.record a.deviceAllocCall := by
  unfold Array.noFormat at hf
  unfold Array.allocStream
  simp only [hh, hd, h0, hf, Bool.false_eq_true, if_false, if_true, bne_self_eq_false]
  have hp' : (rt.malloc a.deviceAllocCall == 0) = false := by simpa using hp
  simp only [hp', Bool.false_eq_true, if_false]
  by_cases hq : s._hostPtr = 0
  · simp [hq]
  · simp [hq]

theorem allocStream_host_ok (K : Constants) (rt : Runtime) (a : Array) (m : Nat)
    (s : ArrayStream) (w : World) (hh : bitTest m K.MAP_HOST = true) (h0 : s._hostPtr = 0)
    (hp : rt.malloc (Array.hostAllocCall K a s) ≠ 0) :
    (Array.allocStream K rt a m s w).1 = true ∧
    (Array.allocStream K rt a m s w).2.1._hostPtr = rt.malloc (Array.hostAllocCall K a s) ∧
    (Array.allocStream K rt a m s w).2.1._devArray = s._devArray ∧
    (Array.allocStream K rt a m s w).2.1._syncHost = (s._syncHost || s._devArray != 0) ∧
    (Array.allocStream K rt a m s w).2.1._syncDevice = s._syncDevice ∧
    (Array.allocStream K rt a m s w).2.2 = w.record (Array.hostAllocCall K a s) := by
  unfold Array.allocStream
  simp only [hh, h0, if_true, bne_self_eq_false, Bool.false_eq_true, if_false]
  have hp' : (rt.malloc (Array.hostAllocCall K a s) == 0) = false := by simpa using hp
  simp only [hp', Bool.false_eq_true, if_false]
  by_cases hq : s._devArray = 0
  · simp [hq]
  · simp [hq]

theorem syncStream_device_ok (K : Constants) (rt : Runtime) (a : Array) (m : Nat)
    (s : ArrayStream) (w : World) (hd : bitTest m K.MAP_DEVICE = true)
    (hcopy : ∀ c mem, c.isCopy = true → rt.memcpy c mem ≠ none) :
    (Array.syncStream K rt a m s w).1 = true ∧
    (Array.syncStream K rt a m s w).2.1 = { s with _syncDevice := false } ∧
    (Array.syncStream K rt a m s w).2.2.copies = w.copies + 1 := by
  unfold Array.syncStream
  simp only [hd, if_true]
  cases hm : rt.memcpy (a.syncDeviceCall s) w.mem with
  | none => exact absurd hm (hcopy _ _ (syncDeviceCall_isCopy a s))
  | some mem =>
    simp [World.copies, countP_isCopy_append_one, syncDeviceCall_isCopy]

theorem syncStream_host_ok (K : Constants) (rt : Runtime) (a : Array) (m : Nat)
    (s : ArrayStream) (w : World) (hd : bitTest m K.MAP_DEVICE = false)
    (hh : bitTest m K.MAP_HOST = true)
    (hcopy : ∀ c mem, c.isCopy = true → rt.memcpy c mem ≠ none) :
    (Array.syncStream K rt a m s w).1 = true ∧
    (Array.syncStream K rt a m s w).2.1 = { s with _syncHost := false } ∧
    (Array.syncStream K rt a m s w).2.2.copies = w.copies + 1 := by
  unfold Array.syncStream
  simp only [hd, hh, if_true, Bool.false_eq_true, if_false]
  cases hm : rt.memcpy (a.syncHostCall s) w.mem with
  | none => exact absurd hm (hcopy _ _ (syncHostCall_isCopy a s))
  | some mem =>
    simp [World.copies, countP_isCopy_append_one, syncHostCall_isCopy]

end osgCuda

namespace osgCuda

open osgCompute

theorem allocHostIfNull_keeps (K : Constants) (rt : Runtime) (a : Array) (m : Nat)
    (s : ArrayStream) (w : World) :
    (Array.allocHostIfNull K rt a m s w).2.1._mapping = s._mapping ∧
    (Array.allocHostIfNull K rt a m s w).2.1._modifyCount = s._modifyCount ∧
    (Array.allocHostIfNull K rt a m s w).2.2.copies = w.copies := by
  unfold Array.allocHostIfNull
  split_ifs
  · exact ⟨(allocStream_keeps K rt a m s w).1, (allocStream_keeps K rt a m s w).2.1,
      (allocStream_keeps K rt a m s w).2.2.1⟩
  · exact ⟨rfl, rfl, rfl⟩

theorem allocDeviceIfNull_keeps (K : Constants) (rt : Runtime) (a : Array) (m : Nat)
    (s : ArrayStream) (w : World) :
    (Array.allocDeviceIfNull K rt a m s w).2.1._mapping = s._mapping ∧
    (Array.allocDeviceIfNull K rt a m s w).2.1._modifyCount = s._modifyCount ∧
    (Array.allocDeviceIfNull K rt a m s w).2.2.copies = w.copies := by
  unfold Array.allocDeviceIfNull
  split_ifs
  · exact ⟨(allocStream_keeps K rt a m s w).1, (allocStream_keeps K rt a m s w).2.1,
      (allocStream_keeps K rt a m s w).2.2.1⟩
  · exact ⟨rfl, rfl, rfl⟩

theorem syncHostIfPending_keeps (K : Constants) (rt : Runtime) (a : Array) (m : Nat)
    (s : ArrayStream) (w : World) :
    (Array.syncHostIfPending K rt a m s w).2.1._mapping = s._mapping ∧
    (Array.syncHostIfPending K rt a m s w).2.1._hostPtr = s._hostPtr ∧
    (Array.syncHostIfPending K rt a m s w).2.1._devArray = s._devArray ∧
    (Array.syncHostIfPending K rt a m s w).2.1._modifyCount = s._modifyCount ∧
    (bitTest m K.MAP_DEVICE = false →
      (Array.syncHostIfPending K rt a m s w).2.1._syncDevice = s._syncDevice) := by
  unfold Array.syncHostIfPending
  split_ifs
  · obtain ⟨h1, h2, h3, h4, h5, _⟩ := syncStream_keeps K rt a m s w
    exact ⟨h1, h2, h3, h4, h5⟩
  · exact ⟨rfl, rfl, rfl, rfl, fun _ => rfl⟩

theorem syncDeviceIfPending_keeps (K : Constants) (rt : Runtime) (a : Array) (m : Nat)
    (s : ArrayStream) (w : World) :
    (Array.syncDeviceIfPending K rt a m s w).2.1._mapping = s._mapping ∧
    (Array.syncDeviceIfPending K rt a m s w).2.1._hostPtr = s._hostPtr ∧
    (Array.syncDeviceIfPending K rt a m s w).2.1._devArray = s._devArray ∧
    (Array.syncDeviceIfPending K rt a m s w).2.1._modifyCount = s._modifyCount ∧
    (bitTest m K.MAP_DEVICE = true →
      (Array.syncDeviceIfPending K rt a m s w).2.1._syncHost = s._syncHost) := by
  unfold Array.syncDeviceIfPending
  split_ifs
  · obtain ⟨h1, h2, h3, h4, _, h6⟩ := syncStream_keeps K rt a m s w
    exact ⟨h1, h2, h3, h4, h6⟩
  · exact ⟨rfl, rfl, rfl, rfl, fun _ => rfl⟩

/-- After a successful host-side map that needed setup: the device copy is marked stale,
the counter of the source is recorded, the mapping is the requested one and the host
pointer is set. -/
theorem mapStream_setup_ok (K : Constants) (rt : Runtime) (a : Array) (s : ArrayStream)
    (m : Nat) (w : World) (hneeds : a.needsSetup s = true)
    (hh : bitTest m K.MAP_HOST = true) (hd : bitTest m K.MAP_DEVICE = false)
    (hok : (a.mapStream K rt s m w).1 ≠ 0) :
    (a.mapStream K rt s m w).2.1._syncDevice = true ∧
    (a.mapStream K rt s m w).2.1._modifyCount = a.sourceModifiedCount s ∧
    (a.mapStream K rt s m w).2.1._mapping = m ∧
    (a.mapStream K rt s m w).2.1._hostPtr ≠ 0 := by
  have hfast : Array.hostFast K a s m = false := by simp [Array.hostFast, hneeds]
  obtain ⟨_, e2, _, es, _, hp⟩ := mapStream_ok K rt a s m w hfast hh hok
  have hsu : Array.hostSetUp K rt a s m w =
      Array.setupStream K rt a m (Array.hostAllocated K rt a s m w).2.1
        (Array.hostAllocated K rt a s m w).2.2 := by
    simp [Array.hostSetUp, Array.setupIfNeeded, hneeds]
  have hsb := setupStream_host_ok K rt a m _ _ hd (by rw [← hsu]; exact e2)
  rw [← hsu] at hsb
  obtain ⟨k1, _, _, k4, k5⟩ := syncHostIfPending_keeps K rt a m
    (Array.hostSetUp K rt a s m w).2.1 (Array.hostSetUp K rt a s m w).2.2
  have ka := allocHostIfNull_keeps K rt a m
    { Array.unmapIfMapped K s with _mapping := m } w
  rw [es]
  refine ⟨?_, ?_, ?_, hp⟩
  · show (Array.hostSynced K rt a s m w).2.1._syncDevice = true
    unfold Array.hostSynced
    rw [k5 hd, hsb]
  · unfold Array.hostSynced
    rw [k4, hsb]
    exact sourceModifiedCount_const a s _ hneeds
  · unfold Array.hostSynced
    rw [k1, hsb]
    exact ka.1

/-- After a successful device-side map that needed setup: the host copy is marked stale,
the counter of the source is recorded, the mapping is the requested one and the device
handle is set. -/
theorem mapArrayStream_setup_ok (K : Constants) (rt : Runtime) (a : Array) (s : ArrayStream)
    (m : Nat) (w : World) (hneeds : a.needsSetup s = true)
    (hd : bitTest m K.MAP_DEVICE = true)
    (hok : (a.mapArrayStream K rt s m w).1 ≠ 0) :
    (a.mapArrayStream K rt s m w).2.1._syncHost = true ∧
    (a.mapArrayStream K rt s m w).2.1._modifyCount = a.sourceModifiedCount s ∧
    (a.mapArrayStream K rt s m w).2.1._mapping = m ∧
    (a.mapArrayStream K rt s m w).2.1._devArray ≠ 0 := by
  have hfast : Array.deviceFast K a s m = false := by simp [Array.deviceFast, hneeds]
  obtain ⟨_, e2, _, es, _, hp⟩ := mapArrayStream_ok K rt a s m w hfast hd hok
  have hsu : Array.deviceSetUp K rt a s m w =
      Array.setupStream K rt a m (Array.deviceAllocated K rt a s m w).2.1
        (Array.deviceAllocated K rt a s m w).2.2 := by
    simp [Array.deviceSetUp, Array.setupIfNeeded, hneeds]
  have hsb := setupStream_device_ok K rt a m _ _ hd (by rw [← hsu]; exact e2)
  rw [← hsu] at hsb
  obtain ⟨k1, _, _, k4, k5⟩ := syncDeviceIfPending_keeps K rt a m
    (Array.deviceSetUp K rt a s m w).2.1 (Array.deviceSetUp K rt a s m w).2.2
  have ka := allocDeviceIfNull_keeps K rt a m
    { Array.unmapIfMapped K s with _mapping := m } w
  rw [es]
  refine ⟨?_, ?_, ?_, hp⟩
  · show (Array.deviceSynced K rt a s m w).2.1._syncHost = true
    unfold Array.deviceSynced
    rw [k5 hd, hsb]
  · unfold Array.deviceSynced
    rw [k4, hsb]
    exact sourceModifiedCount_const a s _ hneeds
  · unfold Array.deviceSynced
    rw [k1, hsb]
    exact ka.1

end osgCuda

namespace osgCuda

open osgCompute

theorem deviceAllocCall_isAlloc (a : Array) : (a.deviceAllocCall).isAlloc = true := by
  unfold Array.deviceAllocCall; split_ifs <;> rfl

theorem hostAllocCall_isAlloc (K : Constants) (a : Array) (s : ArrayStream) :
    (Array.hostAllocCall K a s).isAlloc = true := by
  unfold Array.hostAllocCall; split_ifs <;> rfl

theorem allocDeviceIfNull_ok (K : Constants) (rt : Runtime) (a : Array) (m : Nat)
    (t : ArrayStream) (w : World) (hh : bitTest m K.MAP_HOST = false)
    (hd : bitTest m K.MAP_DEVICE = true) (hfmt : t._devArray ≠ 0 ∨ a.noFormat = false)
    (hmalloc : ∀ c, c.isAlloc = true → rt.malloc c ≠ 0) :
    (Array.allocDeviceIfNull K rt a m t w).1 = true ∧
    (Array.allocDeviceIfNull K rt a m t w).2.1._devArray ≠ 0 ∧
    (Array.allocDeviceIfNull K rt a m t w).2.1._hostPtr = t._hostPtr ∧
    (t._syncDevice = true → (Array.allocDeviceIfNull K rt a m t w).2.1._syncDevice = true) ∧
    (Array.allocDeviceIfNull K rt a m t w).2.2.copies = w.copies := by
  have hk := (allocDeviceIfNull_keeps K rt a m t w).2.2
  unfold Array.allocDeviceIfNull at hk ⊢
  by_cases h0 : t._devArray = 0
  · have hf : a.noFormat = false := by
      rcases hfmt with h | h
      · exact absurd h0 h
      · exact h
    obtain ⟨a1, a2, a3, a4, _, _⟩ := allocStream_device_ok K rt a m t w hh hd h0 hf
      (hmalloc _ (deviceAllocCall_isAlloc a))
    have hc : (t._devArray == 0) = true := by simpa using h0
    simp only [hc, if_true] at hk ⊢
    refine ⟨a1, ?_, a3, ?_, hk⟩
    · rw [a2]; exact hmalloc _ (deviceAllocCall_isAlloc a)
    · intro hp; rw [a4, hp]; rfl
  · have hc : (t._devArray == 0) = false := by simpa using h0
    simp only [hc, Bool.false_eq_true, if_false]
    exact ⟨trivial, h0, trivial, fun h => h, trivial⟩

theorem allocHostIfNull_ok (K : Constants) (rt : Runtime) (a : Array) (m : Nat)
    (t : ArrayStream) (w : World) (hh : bitTest m K.MAP_HOST = true)
    (hmalloc : ∀ c, c.isAlloc = true → rt.malloc c ≠ 0) :
    (Array.allocHostIfNull K rt a m t w).1 = true ∧
    (Array.allocHostIfNull K rt a m t w).2.1._hostPtr ≠ 0 ∧
    (Array.allocHostIfNull K rt a m t w).2.1._devArray = t._devArray ∧
    (t._syncHost = true → (Array.allocHostIfNull K rt a m t w).2.1._syncHost = true) ∧
    (Array.allocHostIfNull K rt a m t w).2.2.copies = w.copies := by
  have hk := (allocHostIfNull_keeps K rt a m t w).2.2
  unfold Array.allocHostIfNull at hk ⊢
  by_cases h0 : t._hostPtr = 0
  · obtain ⟨a1, a2, a3, a4, _, _⟩ := allocStream_host_ok K rt a m t w hh h0
      (hmalloc _ (hostAllocCall_isAlloc K a t))
    have hc : (t._hostPtr == 0) = true := by simpa using h0
    simp only [hc, if_true] at hk ⊢
    refine ⟨a1, ?_, a3, ?_, hk⟩
    · rw [a2]; exact hmalloc _ (hostAllocCall_isAlloc K a t)
    · intro hp; rw [a4, hp]; rfl
  · have hc : (t._hostPtr == 0) = false := by simpa using h0
    simp only [hc, Bool.false_eq_true, if_false]
    exact ⟨trivial, h0, trivial, fun h => h, trivial⟩

/-- A device-side map of a stream that is not mapped to the device, needs no setup, has a
host pointer and a pending device sync: with allocations and copies succeeding it returns
a handle, performs exactly one copy and clears the flag. -/
theorem mapArrayStream_pending_sync (K : Constants) (rt : Runtime) (a : Array)
    (s : ArrayStream) (m : Nat) (w : World) (hns : a.needsSetup s = false)
    (hcur : bitTest s._mapping K.MAP_DEVICE = false)
    (hd : bitTest m K.MAP_DEVICE = true) (hh : bitTest m K.MAP_HOST = false)
    (hpend : s._syncDevice = true) (hptr : s._hostPtr ≠ 0)
    (hfmt : s._devArray ≠ 0 ∨ a.noFormat = false)
    (hmalloc : ∀ c, c.isAlloc = true → rt.malloc c ≠ 0)
    (hcopy : ∀ c mem, c.isCopy = true → rt.memcpy c mem ≠ none) :
    (a.mapArrayStream K rt s m w).1 ≠ 0 ∧
    (a.mapArrayStream K rt s m w).2.2.copies = w.copies + 1 ∧
    (a.mapArrayStream K rt s m w).2.1._syncDevice = false := by
  have hfast : Array.deviceFast K a s m = false := by simp [Array.deviceFast, hcur]
  obtain ⟨u1, u2, _, u4, _⟩ := unmapIfMapped_keeps K s
  have u4' := u4 hpend
  have hA : (Array.deviceAllocated K rt a s m w).1 = true ∧
      (Array.deviceAllocated K rt a s m w).2.1._devArray ≠ 0 ∧
      (Array.deviceAllocated K rt a s m w).2.1._hostPtr =
        ({ Array.unmapIfMapped K s with _mapping := m } : ArrayStream)._hostPtr ∧
      (({ Array.unmapIfMapped K s with _mapping := m } : ArrayStream)._syncDevice = true →
        (Array.deviceAllocated K rt a s m w).2.1._syncDevice = true) ∧
      (Array.deviceAllocated K rt a s m w).2.2.copies = w.copies :=
    allocDeviceIfNull_ok K rt a m
      { Array.unmapIfMapped K s with _mapping := m } w hh hd
      (by rcases hfmt with h | h
          · exact Or.inl (by show (Array.unmapIfMapped K s)._devArray ≠ 0; rw [u2]; exact h)
          · exact Or.inr h) hmalloc
  obtain ⟨A1, A2, A3', A4', A5⟩ := hA
  have A3 : (Array.deviceAllocated K rt a s m w).2.1._hostPtr ≠ 0 := by
    rw [A3']
    show (Array.unmapIfMapped K s)._hostPtr ≠ 0
    rw [u1]; exact hptr
  have A4 : (Array.deviceAllocated K rt a s m w).2.1._syncDevice = true := A4' u4'
  have hS : Array.deviceSetUp K rt a s m w =
      (true, (Array.deviceAllocated K rt a s m w).2.1,
        (Array.deviceAllocated K rt a s m w).2.2) := by
    simp [Array.deviceSetUp, Array.setupIfNeeded, hns]
  have hY : Array.deviceSynced K rt a s m w =
      Array.syncStream K rt a m (Array.deviceAllocated K rt a s m w).2.1
        (Array.deviceAllocated K rt a s m w).2.2 := by
    unfold Array.deviceSynced Array.syncDeviceIfPending
    rw [hS]
    simp [A4, A3]
  obtain ⟨y1, y2, y3⟩ := syncStream_device_ok K rt a m
    (Array.deviceAllocated K rt a s m w).2.1 (Array.deviceAllocated K rt a s m w).2.2 hd hcopy
  rw [← hY] at y1 y2 y3
  rw [mapArrayStream_slow K rt a s m w hfast hd]
  simp only [A1, hS, y1, Bool.not_true, Bool.false_eq_true, if_false]
  refine ⟨?_, ?_, ?_⟩
  · rw [y2]; exact A2
  · rw [invokeCallback_copies, y3, A5]
  · rw [y2]

/-- A host-side map of a stream that is not mapped to the host, needs no setup, has a
device array and a pending host sync: with allocations and copies succeeding it returns a
pointer, performs exactly one copy and clears the flag. -/
theorem mapStream_pending_sync (K : Constants) (rt : Runtime) (a : Array)
    (s : ArrayStream) (m : Nat) (w : World) (hns : a.needsSetup s = false)
    (hcur : bitTest s._mapping K.MAP_HOST = false)
    (hh : bitTest m K.MAP_HOST = true) (hd : bitTest m K.MAP_DEVICE = false)
    (hpend : s._syncHost = true) (hptr : s._devArray ≠ 0)
    (hmalloc : ∀ c, c.isAlloc = true → rt.malloc c ≠ 0)
    (hcopy : ∀ c mem, c.isCopy = true → rt.memcpy c mem ≠ none) :
    (a.mapStream K rt s m w).1 ≠ 0 ∧
    (a.mapStream K rt s m w).2.2.copies = w.copies + 1 ∧
    (a.mapStream K rt s m w).2.1._syncHost = false := by
  have hfast : Array.hostFast K a s m = false := by simp [Array.hostFast, hcur]
  obtain ⟨u1, u2, _, _, u5⟩ := unmapIfMapped_keeps K s
  have u5' := u5 hpend
  have hA : (Array.hostAllocated K rt a s m w).1 = true ∧
      (Array.hostAllocated K rt a s m w).2.1._hostPtr ≠ 0 ∧
      (Array.hostAllocated K rt a s m w).2.1._devArray =
        ({ Array.unmapIfMapped K s with _mapping := m } : ArrayStream)._devArray ∧
      (({ Array.unmapIfMapped K s with _mapping := m } : ArrayStream)._syncHost = true →
        (Array.hostAllocated K rt a s m w).2.1._syncHost = true) ∧
      (Array.hostAllocated K rt a s m w).2.2.copies = w.copies :=
    allocHostIfNull_ok K rt a m
      { Array.unmapIfMapped K s with _mapping := m } w hh hmalloc
  obtain ⟨A1, A2, A3', A4', A5⟩ := hA
  have A3 : (Array.hostAllocated K rt a s m w).2.1._devArray ≠ 0 := by
    rw [A3']
    show (Array.unmapIfMapped K s)._devArray ≠ 0
    rw [u2]; exact hptr
  have A4 : (Array.hostAllocated K rt a s m w).2.1._syncHost = true := A4' u5'
  have hS : Array.hostSetUp K rt a s m w =
      (true, (Array.hostAllocated K rt a s m w).2.1,
        (Array.hostAllocated K rt a s m w).2.2) := by
    simp [Array.hostSetUp, Array.setupIfNeeded, hns]
  have hY : Array.hostSynced K rt a s m w =
      Array.syncStream K rt a m (Array.hostAllocated K rt a s m w).2.1
        (Array.hostAllocated K rt a s m w).2.2 := by
    unfold Array.hostSynced Array.syncHostIfPending
    rw [hS]
    simp [A4, A3]
  obtain ⟨y1, y2, y3⟩ := syncStream_host_ok K rt a m
    (Array.hostAllocated K rt a s m w).2.1 (Array.hostAllocated K rt a s m w).2.2 hd hh hcopy
  rw [← hY] at y1 y2 y3
  rw [mapStream_slow K rt a s m w hfast hh]
  simp only [A1, hS, y1, Bool.not_true, Bool.false_eq_true, if_false]
  refine ⟨?_, ?_, ?_⟩
  · rw [y2]; exact A2
  · rw [invokeCallback_copies, y3, A5]
  · rw [y2]

/-- C6: after a successful map in which needsSetup was true, the pending-sync flag of the
opposite side is true and modifyCount equals the counter of the source; the next map of
the opposite side, with the source unchanged and allocations and copies succeeding,
returns a pointer, performs exactly one copy and leaves that flag false. Stated for a host
map followed by a device map and for a device map followed by a host map; a mapping value
names one side. -/
theorem C6_source_change_propagates (K : Constants) (rt1 rt2 : Runtime) (a : Array)
    (s : ArrayStream) (m1 m2 : Nat) (w : World)
    (hsrc : a._image = none ∨ a._array = none) (hneeds : a.needsSetup s = true)
    (hmalloc : ∀ c, c.isAlloc = true → rt2.malloc c ≠ 0)
    (hcopy : ∀ c mem, c.isCopy = true → rt2.memcpy c mem ≠ none) :
    (bitTest m1 K.MAP_HOST = true → bitTest m1 K.MAP_DEVICE = false →
      (a.mapStream K rt1 s m1 w).1 ≠ 0 →
      (a.mapStream K rt1 s m1 w).2.1._syncDevice = true ∧
      (a.mapStream K rt1 s m1 w).2.1._modifyCount = a.sourceModifiedCount s ∧
      (bitTest m2 K.MAP_DEVICE = true → bitTest m2 K.MAP_HOST = false →
        ((a.mapStream K rt1 s m1 w).2.1._devArray ≠ 0 ∨ a.noFormat = false) →
        (a.mapArrayStream K rt2 (a.mapStream K rt1 s m1 w).2.1 m2
          (a.mapStream K rt1 s m1 w).2.2).1 ≠ 0 ∧
        (a.mapArrayStream K rt2 (a.mapStream K rt1 s m1 w).2.1 m2
          (a.mapStream K rt1 s m1 w).2.2).2.2.copies = (a.mapStream K rt1 s m1 w).2.2.copies + 1 ∧
        (a.mapArrayStream K rt2 (a.mapStream K rt1 s m1 w).2.1 m2
          (a.mapStream K rt1 s m1 w).2.2).2.1._syncDevice = false)) ∧
    (bitTest m1 K.MAP_DEVICE = true → bitTest m1 K.MAP_HOST = false →
      (a.mapArrayStream K rt1 s m1 w).1 ≠ 0 →
      (a.mapArrayStream K rt1 s m1 w).2.1._syncHost = true ∧
      (a.mapArrayStream K rt1 s m1 w).2.1._modifyCount = a.sourceModifiedCount s ∧
      (bitTest m2 K.MAP_HOST = true → bitTest m2 K.MAP_DEVICE = false →
        (a.mapStream K rt2 (a.mapArrayStream K rt1 s m1 w).2.1 m2
          (a.mapArrayStream K rt1 s m1 w).2.2).1 ≠ 0 ∧
        (a.mapStream K rt2 (a.mapArrayStream K rt1 s m1 w).2.1 m2
          (a.mapArrayStream K rt1 s m1 w).2.2).2.2.copies =
            (a.mapArrayStream K rt1 s m1 w).2.2.copies + 1 ∧
        (a.mapStream K rt2 (a.mapArrayStream K rt1 s m1 w).2.1 m2
          (a.mapArrayStream K rt1 s m1 w).2.2).2.1._syncHost = false)) := by
  constructor
  · intro h1h h1d hok
    obtain ⟨p1, p2, p3, p4⟩ := mapStream_setup_ok K rt1 a s m1 w hneeds h1h h1d hok
    refine ⟨p1, p2, fun h2d h2h hfmt => ?_⟩
    exact mapArrayStream_pending_sync K rt2 a _ m2 _
      (needsSetup_of_modifyCount a s _ hsrc p2) (by rw [p3]; exact h1d) h2d h2h p1 p4 hfmt
      hmalloc hcopy
  · intro h1d h1h hok
    obtain ⟨p1, p2, p3, p4⟩ := mapArrayStream_setup_ok K rt1 a s m1 w hneeds h1d hok
    refine ⟨p1, p2, fun h2h h2d => ?_⟩
    exact mapStream_pending_sync K rt2 a _ m2 _
      (needsSetup_of_modifyCount a s _ hsrc p2) (by rw [p3]; exact h1h) h2h h2d p1 p4
      hmalloc hcopy

theorem scenario_malloc (c : Call) (_h : c.isAlloc = true) : Scenario.runtime.malloc c ≠ 0 := by
  cases c <;> simp [Scenario.runtime]

theorem scenario_memcpy (c : Call) (mem : Mem) (h : c.isCopy = true) :
    Scenario.runtime.memcpy c mem ≠ none := by
  cases c <;> simp [Scenario.runtime, cuda.memcpy, Call.isCopy] at h ⊢

/-- Witness for C6: on the scenario array with an image source, a new stream is mapped
HOST_TARGET (setup runs), then DEVICE_SOURCE: one copy, and the device flag is cleared. -/
theorem C6_source_change_propagates_witness :
    (Scenario.sourced44.mapStream Scenario.K Scenario.runtime (ArrayStream.new Scenario.K)
      Scenario.K.MAP_HOST_TARGET Scenario.world).2.1._syncDevice = true ∧
    (Scenario.sourced44.mapArrayStream Scenario.K Scenario.runtime
      (Scenario.sourced44.mapStream Scenario.K Scenario.runtime (ArrayStream.new Scenario.K)
        Scenario.K.MAP_HOST_TARGET Scenario.world).2.1
      Scenario.K.MAP_DEVICE_SOURCE
      (Scenario.sourced44.mapStream Scenario.K Scenario.runtime (ArrayStream.new Scenario.K)
        Scenario.K.MAP_HOST_TARGET Scenario.world).2.2).2.1._syncDevice = false :=
  let h := (C6_source_change_propagates Scenario.K Scenario.runtime Scenario.runtime
    Scenario.sourced44 (ArrayStream.new Scenario.K) Scenario.K.MAP_HOST_TARGET
    Scenario.K.MAP_DEVICE_SOURCE Scenario.world (by decide) (by decide) scenario_malloc
    scenario_memcpy).1 (by decide) (by decide) (by decide)
  ⟨h.1, (h.2.2 (by decide) (by decide) (Or.inr (by decide))).2.2⟩

/-- C1 at the scenario of the spec (rank 2, dimensions (4,4), element size 4, every call
succeeding): `map(HOST_TARGET)` returns the host pointer 100, the pattern is written,
`unmap`, then `map(DEVICE_SOURCE)` returns the handle 200, but the device array does not
hold the pattern: of each row of 16 bytes only the first 4 were copied. The same steps on
a rank-1 buffer of 64 bytes do leave the pattern in the device array. -/
theorem C1_round_trip_rank2_loses_data :
    Scenario.array44.isClear = false ∧
    Scenario.afterHostMap.1 = 100 ∧
    Scenario.afterUnmap.2.mem.host 100 = Scenario.pattern ∧
    Scenario.afterDeviceMap.1 = 200 ∧
    (Scenario.afterDeviceMap.2.2.mem.dev 200).bytes ≠ Scenario.pattern ∧
    (Scenario.afterDeviceMap.2.2.mem.dev 200).bytes =
      [127, 127, 127, 127, 0, 0, 0, 0, 0, 0, 0, 0, 0, 0, 0, 0,
       127, 127, 127, 127, 0, 0, 0, 0, 0, 0, 0, 0, 0, 0, 0, 0,
       127, 127, 127, 127, 0, 0, 0, 0, 0, 0, 0, 0, 0, 0, 0, 0,
       127, 127, 127, 127, 0, 0, 0, 0, 0, 0, 0, 0, 0, 0, 0, 0] ∧
    Scenario.rank1AfterDeviceMap.1 = 200 ∧
    (Scenario.rank1AfterDeviceMap.2.2.mem.dev 200).bytes = Scenario.pattern := by
  decide

/-- C7 at the scenario of the spec: the `map(DEVICE_SOURCE)` after
`map(HOST_TARGET)`/`unmap` issues one copy, `cudaMemcpy2DToArray` with pitch 16, width 4
and height 4, which moves 16 bytes, while getByteSize() is 64; for every rank-2 array the
width passed is dimension 0, not dimension 0 × elementSize. The rank-1 buffer of the same
size issues `cudaMemcpyToArray` for all 64 bytes. -/
theorem C7_sync_2d_copy_width :
    Scenario.afterDeviceMap.2.2.log =
      [Call.newStream 0, Call.mallocHostMemory 64,
        Call.mallocDevice2DArray 4 4 Scenario.desc32,
        Call.cudaMemcpy2DToArray 200 100 16 4 4] ∧
    cuda.bytesMoved 4 (Call.cudaMemcpy2DToArray 200 100 16 4 4) = 16 ∧
    Scenario.array44.getByteSize = 64 ∧
    (∀ (a : Array) (s : ArrayStream), a.getNumDimensions = 2 →
      a.syncDeviceCall s =
        Call.cudaMemcpy2DToArray s._devArray s._hostPtr a.rowPitch (a.getDimension 0)
          (a.getDimension 1) ∧
      cuda.bytesMoved 0 (a.syncDeviceCall s) = a.getDimension 0 * a.getDimension 1) ∧
    Scenario.rank1AfterDeviceMap.2.2.log =
      [Call.newStream 0, Call.mallocHostMemory 64,
        Call.mallocDeviceArray 16 Scenario.desc32,
        Call.cudaMemcpyToArray 200 100 64] := by
  refine ⟨by decide, by decide, by decide, ?_, by decide⟩
  intro a s h
  simp [Array.syncDeviceCall, h, cuda.bytesMoved]

end osgCuda

namespace osgCompute

/-- C20 counterexample: on a new buffer, after `setDimension(0, 4)` the dimensions are (4),
their product is 4, and `getNumElements()` still returns 0; with element size 4 set as well
`getByteSize()` is 0, not 16. -/
theorem C20_setDimension_keeps_numElements :
    ((Buffer.new Scenario.K).setDimension 0 4)._dimensions = [4] ∧
    ((Buffer.new Scenario.K).setDimension 0 4)._dimensions.prod = 4 ∧
    ((Buffer.new Scenario.K).setDimension 0 4).getNumElements = 0 ∧
    (((Buffer.new Scenario.K).setElementSize 4).setDimension 0 4).getElementSize = 4 ∧
    (((Buffer.new Scenario.K).setElementSize 4).setDimension 0 4).getByteSize = 0 := by
  decide

/-- C20 (amended): `numElements` is computed by `init()`, not by `setDimension`. A
`setDimension` call on a clear Buffer leaves `getNumElements()` and `getByteSize()` as they
were; when the following `init()` succeeds, `getNumElements()` is the product of the
dimensions and `getByteSize()` is elementSize × that product, in unsigned 32-bit
arithmetic. -/
theorem C20_numElements_computed_by_init (b : Buffer) (dimIdx dimSize : Nat)
    (hclear : b.isClear = true) :
    (b.setDimension dimIdx dimSize).getNumElements = b.getNumElements ∧
    (b.setDimension dimIdx dimSize).getByteSize = b.getByteSize ∧
    ((b.setDimension dimIdx dimSize).init.1 = true →
      (b.setDimension dimIdx dimSize).init.2.getNumElements =
        (b.setDimension dimIdx dimSize)._dimensions.prod % UINT_SIZE ∧
      (b.setDimension dimIdx dimSize).init.2.getByteSize =
        (b._elementSize * ((b.setDimension dimIdx dimSize)._dimensions.prod % UINT_SIZE))
          % UINT_SIZE) := by
  have hc : (b.setDimension dimIdx dimSize).isClear = true := setDimension_clear b _ _ hclear
  have hs : b.setDimension dimIdx dimSize =
      { b with _dimensions := (b.setDimension dimIdx dimSize)._dimensions } := by
    simp [Buffer.setDimension, hclear]
  refine ⟨by rw [hs]; rfl, by rw [hs]; rfl, ?_⟩
  intro hok
  have he : (b.setDimension dimIdx dimSize)._elementSize = b._elementSize := by rw [hs]
  by_cases hd : (b.setDimension dimIdx dimSize)._dimensions = []
  · simp [Buffer.init, hc, hd] at hok
  · by_cases h0 : (b.setDimension dimIdx dimSize)._elementSize = 0
    · simp [Buffer.init, hc, hd, h0] at hok
    · rw [init_of_clear _ hc hd h0]
      simp [Buffer.getNumElements, Buffer.getByteSize, Buffer.getElementSize,
        computeNumElements_eq, he]

/-- Witness for C20: a new buffer with element size 4 and `setDimension(0, 4)`. -/
theorem C20_numElements_computed_by_init_witness :
    (((Buffer.new Scenario.K).setElementSize 4).setDimension 0 4).getNumElements = 0 ∧
    (((Buffer.new Scenario.K).setElementSize 4).setDimension 0 4).init.2.getNumElements = 4 ∧
    (((Buffer.new Scenario.K).setElementSize 4).setDimension 0 4).init.2.getByteSize = 16 :=
  let h := C20_numElements_computed_by_init ((Buffer.new Scenario.K).setElementSize 4) 0 4
    (by decide)
  ⟨h.1, (h.2.2 (by decide)).1, (h.2.2 (by decide)).2⟩

end osgCompute

namespace osgCuda

open osgCompute

/-- C11: usage errors are no-ops. When the array is clear or the calling thread is not the
thread assigned to the context, `map` and `mapArray` return null and `unmap` returns, and
`mapArray` asked for a host-side mapping returns null; in each case the array (every buffer
field, the stream collection and every stream in it) and the world (no stream constructed,
nothing allocated or copied) are as before the call. -/
theorem C11_usage_errors_are_noops (K : Constants) (rt : Runtime) (a : Array)
    (context : Context) (mapping : Nat) (w : World) :
    ((a.isClear = true ∨ context.getAssignedThread ≠ rt.currentThread) →
      a.map K rt context mapping w = (0, a, w) ∧
      a.mapArray K rt context mapping w = (0, a, w) ∧
      a.unmap K rt context w = (a, w)) ∧
    (bitTest mapping K.MAP_HOST = true → a.mapArray K rt context mapping w = (0, a, w)) := by
  constructor
  · intro h
    by_cases hc : a.isClear = true
    · simp [Array.map, Array.mapArray, Array.unmap, hc]
    · rcases h with h | h
      · exact absurd h hc
      · simp [Array.map, Array.mapArray, Array.unmap, hc, h]
  · intro h
    simp [Array.mapArray, h]

/-- Witness for C11: the initialised scenario buffer called from another thread, the new
(clear) buffer called from the right thread, and `mapArray` with the host-target mapping. -/
theorem C11_usage_errors_are_noops_witness :
    Scenario.array44.map Scenario.K Scenario.otherThread Scenario.context 0x10 Scenario.world
      = (0, Scenario.array44, Scenario.world) ∧
    (Array.new Scenario.K).unmap Scenario.K Scenario.runtime Scenario.context Scenario.world
      = (Array.new Scenario.K, Scenario.world) ∧
    Scenario.array44.mapArray Scenario.K Scenario.runtime Scenario.context 0x10 Scenario.world
      = (0, Scenario.array44, Scenario.world) :=
  ⟨((C11_usage_errors_are_noops Scenario.K Scenario.otherThread Scenario.array44
      Scenario.context 0x10 Scenario.world).1 (Or.inr (by decide))).1,
   ((C11_usage_errors_are_noops Scenario.K Scenario.runtime (Array.new Scenario.K)
      Scenario.context 0x10 Scenario.world).1 (Or.inl (by decide))).2.2,
   (C11_usage_errors_are_noops Scenario.K Scenario.runtime Scenario.array44
      Scenario.context 0x10 Scenario.world).2 (by decide)⟩

end osgCuda

namespace osgCuda

open osgCompute

/-- C18 counterexample: a new (clear) array takes the image with three mip levels, and a
clear array that holds an array source loses it in the same call. -/
theorem C18_clear_array_accepts_multilevel_image :
    Scenario.mipmapped.getNumMipmapLevels = 3 ∧
    (Array.new Scenario.K).isClear = true ∧
    (Array.new Scenario.K)._image = none ∧
    ((Array.new Scenario.K).setImage (some Scenario.mipmapped))._image
      = some Scenario.mipmapped ∧
    (((Array.new Scenario.K).setArray
      (some { getTotalDataSize := 64, getModifiedCount := 0, getDataPointer := 7 })).setImage
        (some Scenario.mipmapped))._array = none := by
  decide

/-- C18 (amended): on an initialised Array, `setImage` with an image of more than one mip
level changes nothing. On a clear Array the image is stored and the array reference is
cleared; the following `init()` rejects it: it returns false and clears the Array. -/
theorem C18_multilevel_image (K : Constants) (a : Array) (image : osg.Image)
    (hmip : image.getNumMipmapLevels > 1) :
    (a.isClear = false → a.setImage (some image) = a) ∧
    (a.isClear = true →
      a.setImage (some image) = { a with _image := some image, _array := none } ∧
      (a.setImage (some image)).init K = (false, Array.new K)) := by
  constructor
  · intro h
    simp [Array.setImage, h, hmip]
  · intro h
    have hs : a.setImage (some image) = { a with _image := some image, _array := none } := by
      simp [Array.setImage, h]
    refine ⟨hs, ?_⟩
    rw [hs]
    unfold Array.init
    by_cases hr : ({ a with _image := some image, _array := none } : Array).getNumDimensions > 3
    · rw [if_pos hr]; rfl
    · rw [if_neg hr]
      simp only [hmip, decide_True, if_true]
      rfl

/-- Witness for C18: the initialised scenario buffer with its image keeps it, and the new
array that took the multi-level image fails `init()`. -/
theorem C18_multilevel_image_witness :
    Scenario.sourced44.setImage (some Scenario.mipmapped) = Scenario.sourced44 ∧
    ((Array.new Scenario.K).setImage (some Scenario.mipmapped)).init Scenario.K
      = (false, Array.new Scenario.K) :=
  ⟨(C18_multilevel_image Scenario.K Scenario.sourced44 Scenario.mipmapped (by decide)).1
      (by decide),
   ((C18_multilevel_image Scenario.K (Array.new Scenario.K) Scenario.mipmapped (by decide)).2
      (by decide)).2⟩

end osgCuda

namespace osgCuda

open osgCompute

theorem clear_eq_new (K : Constants) (a : Array) : a.clear K = Array.new K := rfl

theorem buffer_clear_eq_new (K : Constants) (b : Buffer) : b.clear K = Buffer.new K := rfl

theorem buffer_init_streams (b : Buffer) : b.init.2._streams = b._streams := by
  unfold Buffer.init
  split_ifs <;> rfl

theorem init_streams (K : Constants) (a : Array) (h : a._streams = []) :
    (a.init K).2._streams = [] := by
  have hb := buffer_init_streams a.toBuffer
  unfold Array.init
  simp only []
  split_ifs
  · rfl
  · rfl
  · rfl
  · rfl
  · show a.toBuffer.init.2._streams = []
    rw [hb]; exact h

theorem configure_streams (K : Constants) (a : Array) (op : ConfigOp) (h : a._streams = []) :
    (a.configure K op)._streams = [] := by
  cases op with
  | setDimension i n =>
    show (a.toBuffer.setDimension i n)._streams = []
    unfold Buffer.setDimension
    split_ifs <;> exact h
  | setElementSize e =>
    show (a.toBuffer.setElementSize e)._streams = []
    unfold Buffer.setElementSize
    split_ifs <;> exact h
  | setAllocHint e =>
    show (a.toBuffer.setAllocHint e)._streams = []
    unfold Buffer.setAllocHint
    split_ifs <;> exact h
  | setImage i =>
    show (a.setImage i)._streams = []
    unfold Array.setImage
    split
    · split_ifs <;> exact h
    · exact h
  | setArray i =>
    show (a.setArray i)._streams = []
    unfold Array.setArray
    split
    · split_ifs <;> exact h
    · exact h
  | init => exact init_streams K a h
  | clear => rfl

theorem configureAll_streams (K : Constants) (ops : List ConfigOp) (a : Array)
    (h : a._streams = []) : (a.configureAll K ops)._streams = [] := by
  induction ops generalizing a with
  | nil => exact h
  | cons op ops ih => exact ih _ (configure_streams K a op h)

/-- C15: `Array::init` has no test of the clear flag before its checks. On the initialised
scenario buffer whose image still reports 64 bytes `init()` returns true and changes
nothing; once the image reports 128 bytes, or three mip levels, `init()` returns false and
the array is back in the state of a new one (dimensions, element size, streams and source
gone). `Buffer::init` returns true at once on every initialised buffer. -/
theorem C15_init_on_initialised_array :
    Scenario.sourced44.isClear = false ∧
    Scenario.sourced44.init Scenario.K = (true, Scenario.sourced44) ∧
    Scenario.sourcedResized.isClear = false ∧
    Scenario.sourcedResized._dimensions = [4, 4] ∧
    Scenario.sourcedResized.getByteSize = 64 ∧
    Scenario.sourcedResized.init Scenario.K = (false, Array.new Scenario.K) ∧
    (Array.new Scenario.K)._dimensions = [] ∧
    ({ Scenario.sourced44 with _image := some Scenario.mipmapped } : Array).init Scenario.K
      = (false, Array.new Scenario.K) ∧
    (Scenario.afterHostMap.2.1.slot Scenario.context).isSome = true ∧
    (({ Scenario.afterHostMap.2.1 with _image := some Scenario.resized } : Array).init
      Scenario.K).2._streams = [] ∧
    (∀ b : Buffer, b.isClear = false → b.init = (true, b)) ∧
    (∀ (K : Constants) (a : Array), a.isClear = false →
      a.init K = (true, a) ∨ a.init K = (false, Array.new K)) := by
  refine ⟨by decide, by decide, by decide, by decide, by decide, by decide, by decide,
    by decide, by decide, by decide, ?_, ?_⟩
  · intro b h
    simp [Buffer.init, h]
  · intro K a h
    have hb : a.toBuffer.init = (true, a.toBuffer) := by
      have h1 : a.toBuffer.isClear = false := h
      simp [Buffer.init, h1]
    unfold Array.init
    simp only []
    split_ifs
    · exact Or.inr rfl
    · exact Or.inr rfl
    · exact Or.inr rfl
    · exact Or.inr rfl
    · left
      rw [hb]

/-- C17: `clear()` leaves an Array in the state of a newly constructed one (and a Buffer in
that of a new Buffer): no streams, no dimensions, element size and number of elements 0,
the no-hint value, no callback, no image, no array, the format descriptor of a new array.
Any sequence of configuration calls then gives the state it gives on a new array, so the
same getByteSize(); and once initialised again, the first map on the context's thread
constructs one stream, the one handed to the mapping code. -/
theorem C17_clear_resets (K : Constants) (rt : Runtime) (a : Array) (ops : List ConfigOp)
    (context : Context) (mapping : Nat) (w : World)
    (hinit : ((a.clear K).configureAll K ops).isClear = false)
    (hthread : context.getAssignedThread = rt.currentThread)
    (hid : context.getId + 1 < UINT_SIZE) :
    a.clear K = Array.new K ∧ a.toBuffer.clear K = Buffer.new K ∧
    (a.clear K).isClear = true ∧ (a.clear K)._streams = [] ∧ (a.clear K)._dimensions = [] ∧
    (a.clear K)._elementSize = 0 ∧ (a.clear K)._numElements = 0 ∧
    (a.clear K)._allocHint = K.NO_ALLOC_HINT ∧ (a.clear K)._subloadCallback = none ∧
    (a.clear K)._image = none ∧ (a.clear K)._array = none ∧
    (a.clear K)._channelFormatDesc = (Array.new K)._channelFormatDesc ∧
    ((a.clear K).configureAll K ops).getByteSize =
      ((Array.new K).configureAll K ops).getByteSize ∧
    ((a.clear K).configureAll K ops).slot context = none ∧
    (((a.clear K).configureAll K ops).toBuffer.lookupStream (Array.newStream K) context w).2.2
      = some (freshStream K ((a.clear K).configureAll K ops).toBuffer context) ∧
    (((a.clear K).configureAll K ops).map K rt context mapping w).2.2.streamsConstructed
      context.getId = w.streamsConstructed context.getId + 1 := by
  have hs : ((a.clear K).configureAll K ops)._streams = [] :=
    configureAll_streams K ops (a.clear K) rfl
  have hslot : ((a.clear K).configureAll K ops).slot context = none := by
    simp [Array.slot, hs]
  have hl := lookupStream_of_none K ((a.clear K).configureAll K ops).toBuffer context w hid
    hslot
  have hr := (map_reached K rt _ context mapping w hinit hthread hid).2.2
  refine ⟨rfl, rfl, rfl, rfl, rfl, rfl, rfl, rfl, rfl, rfl, rfl, rfl, rfl, hslot, ?_, ?_⟩
  · rw [hl]
  · rw [hr, hslot]; rfl

/-- Witness for C17: the scenario buffer after a host map is cleared, configured again with
dimensions (4,4) and element size 4, initialised and mapped. -/
theorem C17_clear_resets_witness :
    (Scenario.afterHostMap.2.1.slot Scenario.context).isSome = true ∧
    Scenario.afterHostMap.2.1.clear Scenario.K = Array.new Scenario.K ∧
    ((Scenario.afterHostMap.2.1.clear Scenario.K).configureAll Scenario.K
      [ConfigOp.setDimension 0 4, ConfigOp.setDimension 1 4, ConfigOp.setElementSize 4,
        ConfigOp.init]).getByteSize = 64 ∧
    (((Scenario.afterHostMap.2.1.clear Scenario.K).configureAll Scenario.K
      [ConfigOp.setDimension 0 4, ConfigOp.setDimension 1 4, ConfigOp.setElementSize 4,
        ConfigOp.init]).map Scenario.K Scenario.runtime Scenario.context 0x10
          Scenario.afterHostMap.2.2).2.2.streamsConstructed 0 = 2 :=
  let h := C17_clear_resets Scenario.K Scenario.runtime Scenario.afterHostMap.2.1
    [ConfigOp.setDimension 0 4, ConfigOp.setDimension 1 4, ConfigOp.setElementSize 4,
      ConfigOp.init] Scenario.context 0x10 Scenario.afterHostMap.2.2
    (by decide) (by decide) (by decide)
  ⟨by decide, h.1, by decide, h.2.2.2.2.2.2.2.2.2.2.2.2.2.2.2⟩

end osgCuda

namespace osgCuda

open osgCompute

theorem getD_set_none_ne {α : Type} (l : List (Option α)) (i j : Nat) (v : Option α)
    (h : j ≠ i) : (l.set i v).getD j none = l.getD j none := by
  simp only [List.getD_eq_getElem?_getD]
  rw [List.getElem?_set_ne (Ne.symm h)]

/-- C16: `clear(context)` empties the slot of that context and nothing else: every other
slot holds what it held, the collection keeps its length, and dimensions, element size,
number of elements, alloc hint, callback and the clear flag are unchanged; the stream that
was in the slot is destroyed (its memory is freed when the stream allocated it). When the
slot was empty or absent, the collection and the world are unchanged. -/
theorem C16_clear_context (b : Buffer) (context : Context) (w : World) :
    (b.clearContext context w).1._streams.getD context.getId none = none ∧
    (∀ j, j ≠ context.getId →
      (b.clearContext context w).1._streams.getD j none = b._streams.getD j none) ∧
    (b.clearContext context w).1._streams.length = b._streams.length ∧
    (b.clearContext context w).1._dimensions = b._dimensions ∧
    (b.clearContext context w).1._elementSize = b._elementSize ∧
    (b.clearContext context w).1._numElements = b._numElements ∧
    (b.clearContext context w).1._allocHint = b._allocHint ∧
    (b.clearContext context w).1._subloadCallback = b._subloadCallback ∧
    (b.clearContext context w).1.isClear = b.isClear ∧
    (∀ s, b._streams.getD context.getId none = some s →
      (b.clearContext context w).2 = s.destroy w) ∧
    (b._streams.getD context.getId none = none →
      (b.clearContext context w).1._streams = b._streams ∧ (b.clearContext context w).2 = w) := by
  cases hs : b._streams.getD context.getId none with
  | none =>
    have h : b.clearContext context w =
        ({ b with toResource := b.toResource.clearContext context.getId }, w) := by
      unfold Buffer.clearContext
      rw [hs]
      simp
    rw [h]
    refine ⟨hs, fun _ _ => rfl, rfl, rfl, rfl, rfl, rfl, rfl, rfl, ?_, fun _ => ⟨rfl, rfl⟩⟩
    intro s h'
    simp at h'
  | some s =>
    have hlt : context.getId < b._streams.length := by
      by_contra hge
      rw [List.getD_eq_default _ _ (Nat.le_of_not_lt hge)] at hs
      simp at hs
    have h : b.clearContext context w =
        ({ b with toResource := b.toResource.clearContext context.getId,
                  _streams := b._streams.set context.getId none }, s.destroy w) := by
      unfold Buffer.clearContext
      rw [hs]
      simp [hlt]
    rw [h]
    refine ⟨?_, ?_, ?_, rfl, rfl, rfl, rfl, rfl, rfl, ?_, ?_⟩
    · simp [List.getD_eq_getElem?_getD, hlt]
    · intro j hj
      exact getD_set_none_ne _ _ _ _ hj
    · simp
    · intro s' h'
      simp at h'
      rw [h']
    · intro h'
      simp at h'

theorem base_getMapping_of_none (K : Constants) (b : Buffer) (context : Context) (w : World)
    (hclear : b.isClear = false) (hid : context.getId + 1 < UINT_SIZE)
    (hs : b._streams.getD context.getId none = none) :
    b.getMapping K Buffer.newStream context w =
      (K.UNMAPPED, { b with _streams := grownStreams b context }, w) := by
  have hg := grownStreams_getD b context hid
  rw [hs] at hg
  unfold grownStreams at hg
  have hi : b.initContext Buffer.newStream context w =
      (false, { b with _streams := grownStreams b context }, w) := by
    unfold Buffer.initContext grownStreams
    simp only []
    rw [hg]
    rfl
  unfold Buffer.getMapping Buffer.lookupStream
  rw [hs]
  simp only [hclear, hi, Option.isNone_none, Bool.or_true, if_true, Bool.false_eq_true,
    if_false]
  unfold grownStreams
  rw [hg]

/-- C14 counterexample: `getMapping(context)` on the initialised scenario buffer, which has
no stream yet: it returns UNMAPPED, and afterwards one stream was constructed, the
collection has grown from 0 to 1 slot and the slot of the context is occupied. -/
theorem C14_getMapping_constructs_stream :
    Scenario.array44.isClear = false ∧
    Scenario.array44._streams = [] ∧
    (Scenario.array44.getMapping Scenario.K Scenario.context Scenario.world).1
      = Scenario.K.UNMAPPED ∧
    (Scenario.array44.getMapping Scenario.K Scenario.context Scenario.world).2.2.log
      = [Call.newStream 0] ∧
    (Scenario.array44.getMapping Scenario.K Scenario.context Scenario.world).2.1._streams.length
      = 1 ∧
    ((Scenario.array44.getMapping Scenario.K Scenario.context Scenario.world).2.1.slot
      Scenario.context).isSome = true := by
  decide

/-- C14 (amended): `getMapping(context)` goes through `lookupStream`. On a clear buffer it
returns UNMAPPED and changes nothing; on an initialised buffer with a stream for the context
it returns the mapping of that stream and changes nothing; on an initialised buffer without
one it constructs the stream (growing the collection up to the slot of the context, and
registering the context), stores it in the slot and returns its mapping, UNMAPPED. On a
base Buffer, whose `newStream` offers no stream, the collection grows all the same, no
stream is constructed and UNMAPPED is returned. -/
theorem C14_getMapping_looks_up (K : Constants) (a : Array) (context : Context) (w : World) :
    (a.isClear = true → a.getMapping K context w = (K.UNMAPPED, a, w)) ∧
    (∀ s, a.isClear = false → a.slot context = some s →
      a.getMapping K context w = (s._mapping, a, w)) ∧
    (a.isClear = false → a.slot context = none → context.getId + 1 < UINT_SIZE →
      (a.getMapping K context w).1 = K.UNMAPPED ∧
      (a.getMapping K context w).2.1.slot context = some (freshStream K a.toBuffer context) ∧
      (a.getMapping K context w).2.1._streams =
        (grownStreams a.toBuffer context).set context.getId
          (some (freshStream K a.toBuffer context)) ∧
      (a.getMapping K context w).2.2 = w.record (Call.newStream context.getId)) ∧
    (∀ b : Buffer, b.isClear = false → b._streams.getD context.getId none = none →
      context.getId + 1 < UINT_SIZE →
      b.getMapping K Buffer.newStream context w =
        (K.UNMAPPED, { b with _streams := grownStreams b context }, w)) := by
  refine ⟨?_, ?_, ?_, fun b hc hs hid => base_getMapping_of_none K b context w hc hid hs⟩
  · intro h
    have h1 : a.toBuffer.isClear = true := h
    simp [Array.getMapping, Buffer.getMapping, h1]
  · intro s h hs
    have h1 : a.toBuffer.isClear = false := h
    have hl := lookupStream_of_some (Array.newStream K) a.toBuffer context w s hs
    simp [Array.getMapping, Buffer.getMapping, h1, hl]
  · intro h hs hid
    have h1 : a.toBuffer.isClear = false := h
    have hl := lookupStream_of_none K a.toBuffer context w hid hs
    have hlen := grownStreams_length a.toBuffer context hid
    simp [Array.getMapping, Buffer.getMapping, h1, hl, freshStream, ArrayStream.new,
      Array.slot, List.getD_eq_getElem?_getD, hlen]

/-- Witness for C14: the scenario buffer without a stream, and after a host map. -/
theorem C14_getMapping_looks_up_witness :
    (Scenario.array44.getMapping Scenario.K Scenario.context Scenario.world).2.2
      = Scenario.world.record (Call.newStream 0) ∧
    Scenario.afterHostMap.2.1.getMapping Scenario.K Scenario.context Scenario.world
      = (0x10, Scenario.afterHostMap.2.1, Scenario.world) ∧
    (Array.new Scenario.K).getMapping Scenario.K Scenario.context Scenario.world
      = (0, Array.new Scenario.K, Scenario.world) :=
  ⟨((C14_getMapping_looks_up Scenario.K Scenario.array44 Scenario.context Scenario.world).2.2.1
      (by decide) (by decide) (by decide)).2.2.2,
   (C14_getMapping_looks_up Scenario.K Scenario.afterHostMap.2.1 Scenario.context
      Scenario.world).2.1
      { _mapping := 0x10, BufferStream_allocHint := 0, _context := some 0, _devArray := 0,
        _hostPtr := 100, _syncDevice := false, _syncHost := false, _allocHint := 0,
        _devArrayAllocated := false, _hostPtrAllocated := true, _modifyCount := UINT_MAX }
      (by decide) (by decide),
   (C14_getMapping_looks_up Scenario.K (Array.new Scenario.K) Scenario.context
      Scenario.world).1 (by decide)⟩

end osgCuda

namespace osgCuda

open osgCompute

theorem hostAllocCall_not_copy (K : Constants) (a : Array) (s : ArrayStream) :
    (Array.hostAllocCall K a s).isCopy = false := by
  unfold Array.hostAllocCall; split_ifs <;> rfl

theorem setupStream_allocs (K : Constants) (rt : Runtime) (a : Array) (m : Nat)
    (s : ArrayStream) (w : World) :
    (Array.setupStream K rt a m s w).2.2.allocs = w.allocs := by
  have h1 : (Array.setupHostCall a s).isAlloc = false := rfl
  have h2 : (Array.setupDeviceCall a s).isAlloc = false := by
    unfold Array.setupDeviceCall; split_ifs <;> rfl
  unfold Array.setupStream
  split_ifs
  · rfl
  · simp only []
    split <;> simp [World.record, World.allocs, List.countP_append, h2]
  · rfl
  · simp only []
    split <;> simp [World.record, World.allocs, List.countP_append, h1]
  · rfl

theorem syncStream_allocs (K : Constants) (rt : Runtime) (a : Array) (m : Nat)
    (s : ArrayStream) (w : World) :
    (Array.syncStream K rt a m s w).2.2.allocs = w.allocs := by
  have h1 : (Array.syncHostCall a s).isAlloc = false := by
    unfold Array.syncHostCall; split_ifs <;> rfl
  have h2 : (Array.syncDeviceCall a s).isAlloc = false := by
    unfold Array.syncDeviceCall; split_ifs <;> rfl
  unfold Array.syncStream
  split_ifs
  · simp only []
    split <;> simp [World.record, World.allocs, List.countP_append, h2]
  · simp only []
    split <;> simp [World.record, World.allocs, List.countP_append, h1]
  · rfl

theorem invokeCallback_allocs (rt : Runtime) (a : Array) (s : ArrayStream) (ptr m : Nat)
    (first : Bool) (w : World) :
    (Array.invokeCallback rt a s ptr m first w).allocs = w.allocs := by
  unfold Array.invokeCallback World.allocs
  split
  · rfl
  · split_ifs <;> simp [List.countP_append, Call.isAlloc]

theorem invokeCallback_null (rt : Runtime) (a : Array) (s : ArrayStream) (m : Nat)
    (first : Bool) (w : World) : Array.invokeCallback rt a s 0 m first w = w := by
  unfold Array.invokeCallback
  split
  · rfl
  · simp

theorem record_allocs (w : World) (c : Call) (h : c.isAlloc = true) :
    (w.record c).allocs = w.allocs + 1 := by
  simp [World.record, World.allocs, List.countP_append, h]

theorem setupStream_host_succeeds (K : Constants) (rt : Runtime) (a : Array) (m : Nat)
    (s : ArrayStream) (w : World) (hd : bitTest m K.MAP_DEVICE = false)
    (hh : bitTest m K.MAP_HOST = true) (hsrc : a.sourceData ≠ 0)
    (hcopy : ∀ c mem, c.isCopy = true → rt.memcpy c mem ≠ none) :
    (Array.setupStream K rt a m s w).1 = true := by
  have h0 : (a.sourceData == 0) = false := by simpa using hsrc
  unfold Array.setupStream
  simp only [hd, hh, h0, Bool.false_eq_true, if_false, if_true]
  cases hmem : rt.memcpy (a.setupHostCall s) w.mem with
  | none => exact absurd hmem (hcopy _ _ (setupHostCall_isCopy a s))
  | some m' => rfl

theorem setupStream_device_succeeds (K : Constants) (rt : Runtime) (a : Array) (m : Nat)
    (s : ArrayStream) (w : World) (hd : bitTest m K.MAP_DEVICE = true)
    (hsrc : a.sourceData ≠ 0)
    (hcopy : ∀ c mem, c.isCopy = true → rt.memcpy c mem ≠ none) :
    (Array.setupStream K rt a m s w).1 = true := by
  have h0 : (a.sourceData == 0) = false := by simpa using hsrc
  unfold Array.setupStream
  simp only [hd, h0, Bool.false_eq_true, if_false, if_true]
  cases hmem : rt.memcpy (a.setupDeviceCall s) w.mem with
  | none => exact absurd hmem (hcopy _ _ (setupDeviceCall_isCopy a s))
  | some m' => rfl

/-- The re-entrant path of `mapStream` on a stream without a host pointer: null is returned,
only the mapping is stored, and the world is untouched. -/
theorem mapStream_fast_null (K : Constants) (rt : Runtime) (a : Array) (t : ArrayStream)
    (m : Nat) (w : World) (hfast : Array.hostFast K a t m = true) (h0 : t._hostPtr = 0) :
    a.mapStream K rt t m w = (0, { t with _mapping := m }, w) := by
  unfold Array.hostFast at hfast
  unfold Array.mapStream
  simp only []
  rw [if_pos hfast, h0, invokeCallback_null]

/-- The re-entrant path of `mapArrayStream` on a stream without a device array. -/
theorem mapArrayStream_fast_null (K : Constants) (rt : Runtime) (a : Array) (t : ArrayStream)
    (m : Nat) (w : World) (hfast : Array.deviceFast K a t m = true) (h0 : t._devArray = 0) :
    a.mapArrayStream K rt t m w = (0, { t with _mapping := m }, w) := by
  unfold Array.deviceFast at hfast
  unfold Array.mapArrayStream
  simp only []
  rw [if_pos hfast, h0, invokeCallback_null]

theorem allocStream_host_fails (K : Constants) (rt : Runtime) (a : Array) (m : Nat)
    (t : ArrayStream) (w : World) (hh : bitTest m K.MAP_HOST = true) (h0 : t._hostPtr = 0)
    (hfail : rt.malloc (Array.hostAllocCall K a t) = 0) :
    Array.allocStream K rt a m t w = (false, t, w.record (Array.hostAllocCall K a t)) := by
  have e : ({ t with _hostPtr := 0 } : ArrayStream) = t := by
    cases t; simp at h0; simp [h0]
  unfold Array.allocStream
  simp only [hh, h0, hfail, if_true, bne_self_eq_false, Bool.false_eq_true, if_false,
    beq_self_eq_true, e]

theorem allocStream_device_fails (K : Constants) (rt : Runtime) (a : Array) (m : Nat)
    (t : ArrayStream) (w : World) (hh : bitTest m K.MAP_HOST = false)
    (hd : bitTest m K.MAP_DEVICE = true) (h0 : t._devArray = 0)
    (hfail : a.noFormat = true ∨ rt.malloc a.deviceAllocCall = 0) :
    Array.allocStream K rt a m t w =
      (false, t, if a.noFormat then w else w.record a.deviceAllocCall) := by
  have e : ({ t with _devArray := 0 } : ArrayStream) = t := by
    cases t; simp at h0; simp [h0]
  unfold Array.allocStream
  simp only [hh, hd, h0, if_true, bne_self_eq_false, Bool.false_eq_true, if_false]
  by_cases hf : a.noFormat = true
  · have hf' := hf
    unfold Array.noFormat at hf'
    simp only [hf', hf, if_true]
  · have hm : rt.malloc a.deviceAllocCall = 0 := by
      rcases hfail with h | h
      · exact absurd h hf
      · exact h
    have hf2 : a.noFormat = false := by simpa using hf
    have hf' := hf2
    unfold Array.noFormat at hf'
    simp only [hf', hf2, hm, Bool.false_eq_true, if_false, beq_self_eq_true, if_true, e]

/-- A host-side map of an unmapped stream without a host pointer, when the host allocation
fails: null is returned and only the mapping of the stream changes. -/
theorem mapStream_alloc_fails (K : Constants) (rt : Runtime) (a : Array) (s : ArrayStream)
    (m : Nat) (w : World) (hun : s._mapping = K.UNMAPPED)
    (hu : bitTest K.UNMAPPED K.MAP_HOST = false) (hh : bitTest m K.MAP_HOST = true)
    (h0 : s._hostPtr = 0) (hfail : rt.malloc (Array.hostAllocCall K a s) = 0) :
    a.mapStream K rt s m w =
      (0, { s with _mapping := m }, w.record (Array.hostAllocCall K a s)) := by
  have hfast : Array.hostFast K a s m = false := by simp [Array.hostFast, hun, hu]
  have hum : Array.unmapIfMapped K s = s := by simp [Array.unmapIfMapped, hun]
  have hA : Array.hostAllocated K rt a s m w =
      (false, { s with _mapping := m }, w.record (Array.hostAllocCall K a s)) := by
    unfold Array.hostAllocated Array.allocHostIfNull
    rw [hum]
    have h1 : (({ s with _mapping := m } : ArrayStream)._hostPtr == 0) = true := by
      simpa using h0
    rw [if_pos h1]
    exact allocStream_host_fails K rt a m { s with _mapping := m } w hh h0 hfail
  rw [mapStream_slow K rt a s m w hfast hh, hA]
  rfl

/-- A device-side map of an unmapped stream without a device array, when the format
descriptor is the sentinel or the device allocation fails: null is returned and only the
mapping of the stream changes. -/
theorem mapArrayStream_alloc_fails (K : Constants) (rt : Runtime) (a : Array)
    (s : ArrayStream) (m : Nat) (w : World) (hun : s._mapping = K.UNMAPPED)
    (hu : bitTest K.UNMAPPED K.MAP_DEVICE = false) (hd : bitTest m K.MAP_DEVICE = true)
    (hh : bitTest m K.MAP_HOST = false) (h0 : s._devArray = 0)
    (hfail : a.noFormat = true ∨ rt.malloc a.deviceAllocCall = 0) :
    a.mapArrayStream K rt s m w =
      (0, { s with _mapping := m },
        if a.noFormat then w else w.record a.deviceAllocCall) := by
  have hfast : Array.deviceFast K a s m = false := by simp [Array.deviceFast, hun, hu]
  have hum : Array.unmapIfMapped K s = s := by simp [Array.unmapIfMapped, hun]
  have hA : Array.deviceAllocated K rt a s m w =
      (false, { s with _mapping := m },
        if a.noFormat then w else w.record a.deviceAllocCall) := by
    unfold Array.deviceAllocated Array.allocDeviceIfNull
    rw [hum]
    have h1 : (({ s with _mapping := m } : ArrayStream)._devArray == 0) = true := by
      simpa using h0
    rw [if_pos h1]
    exact allocStream_device_fails K rt a m { s with _mapping := m } w hh hd h0 hfail
  rw [mapArrayStream_slow K rt a s m w hfast hd, hA]
  rfl

end osgCuda

namespace osgCuda

open osgCompute

theorem unmapStream_keeps (K : Constants) (s : ArrayStream) :
    (Array.unmapStream K s)._mapping = K.UNMAPPED ∧
    (Array.unmapStream K s)._hostPtr = s._hostPtr ∧
    (Array.unmapStream K s)._devArray = s._devArray ∧
    (Array.unmapStream K s)._modifyCount = s._modifyCount := by
  unfold Array.unmapStream
  split_ifs <;> simp

theorem needsSetup_congr (a : Array) (s t : ArrayStream) (h : t._modifyCount = s._modifyCount) :
    a.needsSetup t = a.needsSetup s := by
  unfold Array.needsSetup
  rw [h]

theorem setupIfNeeded_host_ok (K : Constants) (rt : Runtime) (a : Array) (m : Nat) (n : Bool)
    (t : ArrayStream) (w : World) (hd : bitTest m K.MAP_DEVICE = false)
    (hh : bitTest m K.MAP_HOST = true) (hsrc : n = true → a.sourceData ≠ 0)
    (hcopy : ∀ c mem, c.isCopy = true → rt.memcpy c mem ≠ none) :
    (Array.setupIfNeeded K rt a m n t w).1 = true ∧
    (Array.setupIfNeeded K rt a m n t w).2.1._hostPtr = t._hostPtr ∧
    (Array.setupIfNeeded K rt a m n t w).2.1._devArray = t._devArray ∧
    (Array.setupIfNeeded K rt a m n t w).2.2.allocs = w.allocs := by
  unfold Array.setupIfNeeded
  cases n with
  | false => exact ⟨rfl, rfl, rfl, rfl⟩
  | true =>
    simp only [if_true]
    exact ⟨setupStream_host_succeeds K rt a m t w hd hh (hsrc rfl) hcopy,
      (setupStream_keeps K rt a m t w).2.1, (setupStream_keeps K rt a m t w).2.2,
      setupStream_allocs K rt a m t w⟩

theorem setupIfNeeded_device_ok (K : Constants) (rt : Runtime) (a : Array) (m : Nat) (n : Bool)
    (t : ArrayStream) (w : World) (hd : bitTest m K.MAP_DEVICE = true)
    (hsrc : n = true → a.sourceData ≠ 0)
    (hcopy : ∀ c mem, c.isCopy = true → rt.memcpy c mem ≠ none) :
    (Array.setupIfNeeded K rt a m n t w).1 = true ∧
    (Array.setupIfNeeded K rt a m n t w).2.1._hostPtr = t._hostPtr ∧
    (Array.setupIfNeeded K rt a m n t w).2.1._devArray = t._devArray ∧
    (Array.setupIfNeeded K rt a m n t w).2.2.allocs = w.allocs := by
  unfold Array.setupIfNeeded
  cases n with
  | false => exact ⟨rfl, rfl, rfl, rfl⟩
  | true =>
    simp only [if_true]
    exact ⟨setupStream_device_succeeds K rt a m t w hd (hsrc rfl) hcopy,
      (setupStream_keeps K rt a m t w).2.1, (setupStream_keeps K rt a m t w).2.2,
      setupStream_allocs K rt a m t w⟩

theorem syncHostIfPending_ok (K : Constants) (rt : Runtime) (a : Array) (m : Nat)
    (t : ArrayStream) (w : World) (hd : bitTest m K.MAP_DEVICE = false)
    (hh : bitTest m K.MAP_HOST = true)
    (hcopy : ∀ c mem, c.isCopy = true → rt.memcpy c mem ≠ none) :
    (Array.syncHostIfPending K rt a m t w).1 = true ∧
    (Array.syncHostIfPending K rt a m t w).2.1._hostPtr = t._hostPtr ∧
    (Array.syncHostIfPending K rt a m t w).2.2.allocs = w.allocs := by
  unfold Array.syncHostIfPending
  split_ifs
  · exact ⟨(syncStream_host_ok K rt a m t w hd hh hcopy).1,
      (syncStream_keeps K rt a m t w).2.1, syncStream_allocs K rt a m t w⟩
  · exact ⟨rfl, rfl, rfl⟩

theorem syncDeviceIfPending_ok (K : Constants) (rt : Runtime) (a : Array) (m : Nat)
    (t : ArrayStream) (w : World) (hd : bitTest m K.MAP_DEVICE = true)
    (hcopy : ∀ c mem, c.isCopy = true → rt.memcpy c mem ≠ none) :
    (Array.syncDeviceIfPending K rt a m t w).1 = true ∧
    (Array.syncDeviceIfPending K rt a m t w).2.1._devArray = t._devArray ∧
    (Array.syncDeviceIfPending K rt a m t w).2.2.allocs = w.allocs := by
  unfold Array.syncDeviceIfPending
  split_ifs
  · exact ⟨(syncStream_device_ok K rt a m t w hd hcopy).1,
      (syncStream_keeps K rt a m t w).2.2.1, syncStream_allocs K rt a m t w⟩
  · exact ⟨rfl, rfl, rfl⟩

/-- A host-side map that takes the slow path on a stream without a host pointer, with
allocations and copies succeeding and a source to set up from when setup is needed: the
host memory is allocated (one allocation call) and a pointer is returned. -/
theorem mapStream_retry (K : Constants) (rt : Runtime) (a : Array) (t : ArrayStream)
    (m : Nat) (w : World) (hfast : Array.hostFast K a t m = false)
    (hh : bitTest m K.MAP_HOST = true) (hd : bitTest m K.MAP_DEVICE = false)
    (h0 : t._hostPtr = 0) (hsrc : a.needsSetup t = true → a.sourceData ≠ 0)
    (hmalloc : ∀ c, c.isAlloc = true → rt.malloc c ≠ 0)
    (hcopy : ∀ c mem, c.isCopy = true → rt.memcpy c mem ≠ none) :
    (a.mapStream K rt t m w).1 ≠ 0 ∧ (a.mapStream K rt t m w).2.2.allocs = w.allocs + 1 := by
  have hu0 : ({ Array.unmapIfMapped K t with _mapping := m } : ArrayStream)._hostPtr = 0 := by
    show (Array.unmapIfMapped K t)._hostPtr = 0
    rw [(unmapIfMapped_keeps K t).1]; exact h0
  have hA : Array.hostAllocated K rt a t m w =
      Array.allocStream K rt a m { Array.unmapIfMapped K t with _mapping := m } w := by
    unfold Array.hostAllocated Array.allocHostIfNull
    have h1 : (({ Array.unmapIfMapped K t with _mapping := m } : ArrayStream)._hostPtr == 0)
        = true := by simpa using hu0
    rw [if_pos h1]
  obtain ⟨a1, a2, _, _, _, a6⟩ := allocStream_host_ok K rt a m
    { Array.unmapIfMapped K t with _mapping := m } w hh hu0
    (hmalloc _ (hostAllocCall_isAlloc K a _))
  rw [← hA] at a1 a2 a6
  have a2' : (Array.hostAllocated K rt a t m w).2.1._hostPtr ≠ 0 := by
    rw [a2]; exact hmalloc _ (hostAllocCall_isAlloc K a _)
  have a6' : (Array.hostAllocated K rt a t m w).2.2.allocs = w.allocs + 1 := by
    rw [a6]; exact record_allocs w _ (hostAllocCall_isAlloc K a _)
  obtain ⟨s1, s2, _, s4⟩ := setupIfNeeded_host_ok K rt a m (a.needsSetup t)
    (Array.hostAllocated K rt a t m w).2.1 (Array.hostAllocated K rt a t m w).2.2 hd hh hsrc
    hcopy
  have s1' : (Array.hostSetUp K rt a t m w).1 = true := s1
  have s2' : (Array.hostSetUp K rt a t m w).2.1._hostPtr ≠ 0 := by
    show (Array.setupIfNeeded K rt a m (a.needsSetup t)
      (Array.hostAllocated K rt a t m w).2.1 (Array.hostAllocated K rt a t m w).2.2).2.1._hostPtr
        ≠ 0
    rw [s2]; exact a2'
  have s4' : (Array.hostSetUp K rt a t m w).2.2.allocs = w.allocs + 1 := by
    show (Array.setupIfNeeded K rt a m (a.needsSetup t)
      (Array.hostAllocated K rt a t m w).2.1 (Array.hostAllocated K rt a t m w).2.2).2.2.allocs
        = w.allocs + 1
    rw [s4]; exact a6'
  obtain ⟨y1, y2, y3⟩ := syncHostIfPending_ok K rt a m
    (Array.hostSetUp K rt a t m w).2.1 (Array.hostSetUp K rt a t m w).2.2 hd hh hcopy
  have y1' : (Array.hostSynced K rt a t m w).1 = true := y1
  have y2' : (Array.hostSynced K rt a t m w).2.1._hostPtr ≠ 0 := by
    show (Array.syncHostIfPending K rt a m (Array.hostSetUp K rt a t m w).2.1
      (Array.hostSetUp K rt a t m w).2.2).2.1._hostPtr ≠ 0
    rw [y2]; exact s2'
  have y3' : (Array.hostSynced K rt a t m w).2.2.allocs = w.allocs + 1 := by
    show (Array.syncHostIfPending K rt a m (Array.hostSetUp K rt a t m w).2.1
      (Array.hostSetUp K rt a t m w).2.2).2.2.allocs = w.allocs + 1
    rw [y3]; exact s4'
  rw [mapStream_slow K rt a t m w hfast hh]
  simp only [a1, s1', y1', Bool.not_true, Bool.false_eq_true, if_false]
  exact ⟨y2', by rw [invokeCallback_allocs]; exact y3'⟩

/-- A device-side map that takes the slow path on a stream without a device array, with a
format descriptor set, allocations and copies succeeding and a source to set up from when
setup is needed: the device array is allocated (one allocation call) and a handle is
returned. -/
theorem mapArrayStream_retry (K : Constants) (rt : Runtime) (a : Array) (t : ArrayStream)
    (m : Nat) (w : World) (hfast : Array.deviceFast K a t m = false)
    (hd : bitTest m K.MAP_DEVICE = true) (hh : bitTest m K.MAP_HOST = false)
    (h0 : t._devArray = 0) (hfmt : a.noFormat = false)
    (hsrc : a.needsSetup t = true → a.sourceData ≠ 0)
    (hmalloc : ∀ c, c.isAlloc = true → rt.malloc c ≠ 0)
    (hcopy : ∀ c mem, c.isCopy = true → rt.memcpy c mem ≠ none) :
    (a.mapArrayStream K rt t m w).1 ≠ 0 ∧
    (a.mapArrayStream K rt t m w).2.2.allocs = w.allocs + 1 := by
  have hu0 : ({ Array.unmapIfMapped K t with _mapping := m } : ArrayStream)._devArray = 0 := by
    show (Array.unmapIfMapped K t)._devArray = 0
    rw [(unmapIfMapped_keeps K t).2.1]; exact h0
  have hA : Array.deviceAllocated K rt a t m w =
      Array.allocStream K rt a m { Array.unmapIfMapped K t with _mapping := m } w := by
    unfold Array.deviceAllocated Array.allocDeviceIfNull
    have h1 : (({ Array.unmapIfMapped K t with _mapping := m } : ArrayStream)._devArray == 0)
        = true := by simpa using hu0
    rw [if_pos h1]
  obtain ⟨a1, a2, _, _, _, a6⟩ := allocStream_device_ok K rt a m
    { Array.unmapIfMapped K t with _mapping := m } w hh hd hu0 hfmt
    (hmalloc _ (deviceAllocCall_isAlloc a))
  rw [← hA] at a1 a2 a6
  have a2' : (Array.deviceAllocated K rt a t m w).2.1._devArray ≠ 0 := by
    rw [a2]; exact hmalloc _ (deviceAllocCall_isAlloc a)
  have a6' : (Array.deviceAllocated K rt a t m w).2.2.allocs = w.allocs + 1 := by
    rw [a6]; exact record_allocs w _ (deviceAllocCall_isAlloc a)
  obtain ⟨s1, _, s3, s4⟩ := setupIfNeeded_device_ok K rt a m (a.needsSetup t)
    (Array.deviceAllocated K rt a t m w).2.1 (Array.deviceAllocated K rt a t m w).2.2 hd hsrc
    hcopy
  have s1' : (Array.deviceSetUp K rt a t m w).1 = true := s1
  have s3' : (Array.deviceSetUp K rt a t m w).2.1._devArray ≠ 0 := by
    show (Array.setupIfNeeded K rt a m (a.needsSetup t)
      (Array.deviceAllocated K rt a t m w).2.1
      (Array.deviceAllocated K rt a t m w).2.2).2.1._devArray ≠ 0
    rw [s3]; exact a2'
  have s4' : (Array.deviceSetUp K rt a t m w).2.2.allocs = w.allocs + 1 := by
    show (Array.setupIfNeeded K rt a m (a.needsSetup t)
      (Array.deviceAllocated K rt a t m w).2.1
      (Array.deviceAllocated K rt a t m w).2.2).2.2.allocs = w.allocs + 1
    rw [s4]; exact a6'
  obtain ⟨y1, y2, y3⟩ := syncDeviceIfPending_ok K rt a m
    (Array.deviceSetUp K rt a t m w).2.1 (Array.deviceSetUp K rt a t m w).2.2 hd hcopy
  have y1' : (Array.deviceSynced K rt a t m w).1 = true := y1
  have y2' : (Array.deviceSynced K rt a t m w).2.1._devArray ≠ 0 := by
    show (Array.syncDeviceIfPending K rt a m (Array.deviceSetUp K rt a t m w).2.1
      (Array.deviceSetUp K rt a t m w).2.2).2.1._devArray ≠ 0
    rw [y2]; exact s3'
  have y3' : (Array.deviceSynced K rt a t m w).2.2.allocs = w.allocs + 1 := by
    show (Array.syncDeviceIfPending K rt a m (Array.deviceSetUp K rt a t m w).2.1
      (Array.deviceSetUp K rt a t m w).2.2).2.2.allocs = w.allocs + 1
    rw [y3]; exact s4'
  rw [mapArrayStream_slow K rt a t m w hfast hd]
  simp only [a1, s1', y1', Bool.not_true, Bool.false_eq_true, if_false]
  exact ⟨y2', by rw [invokeCallback_allocs]; exact y3'⟩

end osgCuda

namespace osgCuda

open osgCompute

theorem mapArray_of_some (K : Constants) (rt : Runtime) (a : Array) (context : Context)
    (mapping : Nat) (w : World) (s : ArrayStream) (hclear : a.isClear = false)
    (hthread : context.getAssignedThread = rt.currentThread)
    (hside : bitTest mapping K.MAP_HOST = false) (hm : mapping ≠ K.UNMAPPED)
    (hs : a.slot context = some s) :
    a.mapArray K rt context mapping w =
      ((a.mapArrayStream K rt s mapping w).1,
        a.setStream context (a.mapArrayStream K rt s mapping w).2.1,
        (a.mapArrayStream K rt s mapping w).2.2) := by
  have hl := lookupStream_of_some (Array.newStream K) a.toBuffer context w s hs
  unfold Array.mapArray
  simp only [hclear, hthread, hside, hl, Bool.false_eq_true, if_false, bne_self_eq_false]
  simp [hm]

/-- C12: the allocation failure policy. For an initialised array, a context on its thread
and the UNMAPPED stream of that context: when the mapping names the host side, the stream
has no host pointer and the host allocation returns null, or when the mapping names the
device side, the stream has no device array and the device allocation returns null (or the
format descriptor is the sentinel), `map` (and `mapArray` on the device side) returns null
and the stream is the stream before the call with its mapping set to the requested one:
host pointer, device array, ownership flags, pending-sync flags and modifyCount are
unchanged. -/
theorem C12_allocation_failure (K : Constants) (rt : Runtime) (a : Array) (context : Context)
    (s : ArrayStream) (m : Nat) (w : World) (hclear : a.isClear = false)
    (hthread : context.getAssignedThread = rt.currentThread) (hslot : a.slot context = some s)
    (hun : s._mapping = K.UNMAPPED)
    (hu : bitTest K.UNMAPPED K.MAP_HOST = false ∧ bitTest K.UNMAPPED K.MAP_DEVICE = false) :
    (bitTest m K.MAP_HOST = true → bitTest m K.MAP_DEVICE = false → s._hostPtr = 0 →
      rt.malloc (Array.hostAllocCall K a s) = 0 →
      (a.map K rt context m w).1 = 0 ∧
      (a.map K rt context m w).2.1 = a.setStream context { s with _mapping := m } ∧
      (a.map K rt context m w).2.1.slot context = some { s with _mapping := m } ∧
      (a.map K rt context m w).2.2 = w.record (Array.hostAllocCall K a s)) ∧
    (bitTest m K.MAP_DEVICE = true → bitTest m K.MAP_HOST = false → s._devArray = 0 →
      (a.noFormat = true ∨ rt.malloc a.deviceAllocCall = 0) →
      (a.map K rt context m w).1 = 0 ∧
      (a.map K rt context m w).2.1 = a.setStream context { s with _mapping := m } ∧
      (a.map K rt context m w).2.1.slot context = some { s with _mapping := m } ∧
      (a.map K rt context m w).2.2 = (if a.noFormat then w else w.record a.deviceAllocCall) ∧
      a.mapArray K rt context m w = a.map K rt context m w) := by
  constructor
  · intro hh hd h0 hfail
    have hm := mapStream_alloc_fails K rt a s m w hun hu.1 hh h0 hfail
    rw [map_of_some K rt a context m w s hclear hthread hslot]
    simp only [hd, hh, hm, Bool.false_eq_true, if_false, if_true]
    exact ⟨trivial, trivial, slot_setStream a context s _ hslot, trivial⟩
  · intro hd hh h0 hfail
    have hm := mapArrayStream_alloc_fails K rt a s m w hun hu.2 hd hh h0 hfail
    have hne : m ≠ K.UNMAPPED := by
      intro h
      rw [h, hu.2] at hd
      exact Bool.false_ne_true hd
    rw [mapArray_of_some K rt a context m w s hclear hthread hh hne hslot,
      map_of_some K rt a context m w s hclear hthread hslot]
    simp only [hd, hm, if_true]
    exact ⟨trivial, trivial, slot_setStream a context s _ hslot, trivial, trivial⟩

end osgCuda

namespace osgCuda

open osgCompute

/-- C13 counterexample: on the initialised scenario buffer (no external source), the first
`map(ctx, HOST_TARGET)` is made while the host allocation fails and returns null; the
following `map(ctx, HOST_TARGET)` and `map(ctx, HOST_SOURCE)`, made while every allocation
would succeed, return null as well and call no allocation primitive. -/
theorem C13_second_map_returns_null :
    Scenario.afterFailedMap.1 = 0 ∧
    Scenario.afterFailedMap.2.2.log = [Call.newStream 0, Call.mallocHostMemory 64] ∧
    Scenario.runtime.malloc (Call.mallocHostMemory 64) = 100 ∧
    (Scenario.afterFailedMap.2.1.map Scenario.K Scenario.runtime Scenario.context
      Scenario.K.MAP_HOST_TARGET Scenario.afterFailedMap.2.2).1 = 0 ∧
    (Scenario.afterFailedMap.2.1.map Scenario.K Scenario.runtime Scenario.context
      Scenario.K.MAP_HOST_TARGET Scenario.afterFailedMap.2.2).2.2.log
        = [Call.newStream 0, Call.mallocHostMemory 64] ∧
    (Scenario.afterFailedMap.2.1.map Scenario.K Scenario.runtime Scenario.context
      Scenario.K.MAP_HOST_SOURCE Scenario.afterFailedMap.2.2).1 = 0 ∧
    (Scenario.afterFailedMap.2.1.map Scenario.K Scenario.runtime Scenario.context
      Scenario.K.MAP_HOST_SOURCE Scenario.afterFailedMap.2.2).2.2.log
        = [Call.newStream 0, Call.mallocHostMemory 64] := by
  decide

theorem setStream_isClear (a : Array) (context : Context) (t : ArrayStream) :
    (a.setStream context t).isClear = a.isClear := rfl

/-- The host side of the retry behaviour, on the array as `map` leaves it. -/
theorem host_retry (K : Constants) (rt1 rt2 : Runtime) (a : Array) (context : Context)
    (s : ArrayStream) (m m' : Nat) (w : World) (hclear : a.isClear = false)
    (hthread1 : context.getAssignedThread = rt1.currentThread)
    (hthread2 : context.getAssignedThread = rt2.currentThread)
    (hslot : a.slot context = some s) (hun : s._mapping = K.UNMAPPED)
    (hu : bitTest K.UNMAPPED K.MAP_HOST = false)
    (hmalloc : ∀ c, c.isAlloc = true → rt2.malloc c ≠ 0)
    (hcopy : ∀ c mem, c.isCopy = true → rt2.memcpy c mem ≠ none)
    (hh : bitTest m K.MAP_HOST = true) (hd : bitTest m K.MAP_DEVICE = false)
    (hh' : bitTest m' K.MAP_HOST = true) (hd' : bitTest m' K.MAP_DEVICE = false)
    (h0 : s._hostPtr = 0) (hfail : rt1.malloc (Array.hostAllocCall K a s) = 0) :
    (a.map K rt1 context m w).1 = 0 ∧
    (a.needsSetup s = false →
      ((a.map K rt1 context m w).2.1.map K rt2 context m' (a.map K rt1 context m w).2.2).1 = 0 ∧
      ((a.map K rt1 context m w).2.1.map K rt2 context m'
        (a.map K rt1 context m w).2.2).2.1.slot context = some { s with _mapping := m' } ∧
      ((a.map K rt1 context m w).2.1.map K rt2 context m' (a.map K rt1 context m w).2.2).2.2
        = (a.map K rt1 context m w).2.2) ∧
    (a.needsSetup s = false →
      ((((a.map K rt1 context m w).2.1.unmap K rt2 context (a.map K rt1 context m w).2.2).1).map
        K rt2 context m'
        ((a.map K rt1 context m w).2.1.unmap K rt2 context (a.map K rt1 context m w).2.2).2).1
          ≠ 0 ∧
      ((((a.map K rt1 context m w).2.1.unmap K rt2 context (a.map K rt1 context m w).2.2).1).map
        K rt2 context m'
        ((a.map K rt1 context m w).2.1.unmap K rt2 context
          (a.map K rt1 context m w).2.2).2).2.2.allocs
          = (a.map K rt1 context m w).2.2.allocs + 1) ∧
    (a.needsSetup s = true → a.sourceData ≠ 0 →
      ((a.map K rt1 context m w).2.1.map K rt2 context m' (a.map K rt1 context m w).2.2).1
        ≠ 0 ∧
      ((a.map K rt1 context m w).2.1.map K rt2 context m'
        (a.map K rt1 context m w).2.2).2.2.allocs = (a.map K rt1 context m w).2.2.allocs + 1) := by
  have hm := mapStream_alloc_fails K rt1 a s m w hun hu hh h0 hfail
  have h1 : a.map K rt1 context m w =
      (0, a.setStream context { s with _mapping := m },
        w.record (Array.hostAllocCall K a s)) := by
    rw [map_of_some K rt1 a context m w s hclear hthread1 hslot]
    simp only [hd, hh, hm, Bool.false_eq_true, if_false, if_true]
  have hslot1 : (a.setStream context { s with _mapping := m }).slot context =
      some { s with _mapping := m } := slot_setStream a context s _ hslot
  have hclear1 : (a.setStream context { s with _mapping := m }).isClear = false := hclear
  rw [h1]
  refine ⟨rfl, ?_, ?_, ?_⟩
  · intro hns
    have hfast : Array.hostFast K (a.setStream context { s with _mapping := m })
        { s with _mapping := m } m' = true := by
      have e : (a.setStream context { s with _mapping := m }).needsSetup
          { s with _mapping := m } = a.needsSetup s := rfl
      unfold Array.hostFast
      rw [e, hns]
      simp [hh, hh']
    have hf := mapStream_fast_null K rt2 (a.setStream context { s with _mapping := m })
      { s with _mapping := m } m' (w.record (Array.hostAllocCall K a s)) hfast h0
    simp only []
    rw [map_of_some K rt2 _ context m' _ _ hclear1 hthread2 hslot1]
    simp only [hd', hh', hf, Bool.false_eq_true, if_false, if_true]
    exact ⟨trivial, slot_setStream _ context _ _ hslot1, trivial⟩
  · intro hns
    simp only []
    rw [unmap_of_some K rt2 _ context _ _ hclear1 hthread2 hslot1]
    have hslot2 := slot_setStream (a.setStream context { s with _mapping := m }) context
      { s with _mapping := m } (Array.unmapStream K { s with _mapping := m }) hslot1
    obtain ⟨k1, k2, _, k4⟩ := unmapStream_keeps K ({ s with _mapping := m } : ArrayStream)
    have hfast : Array.hostFast K
        ((a.setStream context { s with _mapping := m }).setStream context
          (Array.unmapStream K { s with _mapping := m }))
        (Array.unmapStream K { s with _mapping := m }) m' = false := by
      unfold Array.hostFast
      rw [k1, hu]; rfl
    have hr := mapStream_retry K rt2
      ((a.setStream context { s with _mapping := m }).setStream context
        (Array.unmapStream K { s with _mapping := m }))
      (Array.unmapStream K { s with _mapping := m }) m'
      (w.record (Array.hostAllocCall K a s)) hfast hh' hd' (by rw [k2]; exact h0)
      (by
        intro hn
        have e : ((a.setStream context { s with _mapping := m }).setStream context
            (Array.unmapStream K { s with _mapping := m })).needsSetup
            (Array.unmapStream K { s with _mapping := m }) = a.needsSetup s :=
          needsSetup_congr _ _ _ k4
        rw [e, hns] at hn
        exact absurd hn Bool.false_ne_true) hmalloc hcopy
    rw [map_of_some K rt2 _ context m' _ _ (by exact hclear) hthread2 hslot2]
    simp only [hd', hh', Bool.false_eq_true, if_false, if_true]
    exact hr
  · intro hns hsrc
    have hfast : Array.hostFast K (a.setStream context { s with _mapping := m })
        { s with _mapping := m } m' = false := by
      have e : (a.setStream context { s with _mapping := m }).needsSetup
          { s with _mapping := m } = a.needsSetup s := rfl
      unfold Array.hostFast
      rw [e, hns]
      simp
    have hr := mapStream_retry K rt2 (a.setStream context { s with _mapping := m })
      { s with _mapping := m } m' (w.record (Array.hostAllocCall K a s)) hfast hh' hd' h0
      (fun _ => hsrc) hmalloc hcopy
    simp only []
    rw [map_of_some K rt2 _ context m' _ _ hclear1 hthread2 hslot1]
    simp only [hd', hh', Bool.false_eq_true, if_false, if_true]
    exact hr

end osgCuda

namespace osgCuda

open osgCompute

/-- The device side of the retry behaviour, on the array as `map` leaves it. -/
theorem device_retry (K : Constants) (rt1 rt2 : Runtime) (a : Array) (context : Context)
    (s : ArrayStream) (m m' : Nat) (w : World) (hclear : a.isClear = false)
    (hthread1 : context.getAssignedThread = rt1.currentThread)
    (hthread2 : context.getAssignedThread = rt2.currentThread)
    (hslot : a.slot context = some s) (hun : s._mapping = K.UNMAPPED)
    (hu : bitTest K.UNMAPPED K.MAP_DEVICE = false)
    (hmalloc : ∀ c, c.isAlloc = true → rt2.malloc c ≠ 0)
    (hcopy : ∀ c mem, c.isCopy = true → rt2.memcpy c mem ≠ none)
    (hd : bitTest m K.MAP_DEVICE = true) (hh : bitTest m K.MAP_HOST = false)
    (hd' : bitTest m' K.MAP_DEVICE = true) (hh' : bitTest m' K.MAP_HOST = false)
    (h0 : s._devArray = 0) (hfmt : a.noFormat = false)
    (hfail : rt1.malloc a.deviceAllocCall = 0) :
    (a.map K rt1 context m w).1 = 0 ∧
    (a.needsSetup s = false →
      ((a.map K rt1 context m w).2.1.map K rt2 context m' (a.map K rt1 context m w).2.2).1 = 0 ∧
      ((a.map K rt1 context m w).2.1.map K rt2 context m'
        (a.map K rt1 context m w).2.2).2.1.slot context = some { s with _mapping := m' } ∧
      ((a.map K rt1 context m w).2.1.map K rt2 context m' (a.map K rt1 context m w).2.2).2.2
        = (a.map K rt1 context m w).2.2) ∧
    (a.needsSetup s = false →
      ((((a.map K rt1 context m w).2.1.unmap K rt2 context (a.map K rt1 context m w).2.2).1).map
        K rt2 context m'
        ((a.map K rt1 context m w).2.1.unmap K rt2 context (a.map K rt1 context m w).2.2).2).1
          ≠ 0 ∧
      ((((a.map K rt1 context m w).2.1.unmap K rt2 context (a.map K rt1 context m w).2.2).1).map
        K rt2 context m'
        ((a.map K rt1 context m w).2.1.unmap K rt2 context
          (a.map K rt1 context m w).2.2).2).2.2.allocs
          = (a.map K rt1 context m w).2.2.allocs + 1) ∧
    (a.needsSetup s = true → a.sourceData ≠ 0 →
      ((a.map K rt1 context m w).2.1.map K rt2 context m' (a.map K rt1 context m w).2.2).1
        ≠ 0 ∧
      ((a.map K rt1 context m w).2.1.map K rt2 context m'
        (a.map K rt1 context m w).2.2).2.2.allocs = (a.map K rt1 context m w).2.2.allocs + 1) := by
  have hm := mapArrayStream_alloc_fails K rt1 a s m w hun hu hd hh h0 (Or.inr hfail)
  simp only [hfmt, Bool.false_eq_true, if_false] at hm
  have h1 : a.map K rt1 context m w =
      (0, a.setStream context { s with _mapping := m }, w.record a.deviceAllocCall) := by
    rw [map_of_some K rt1 a context m w s hclear hthread1 hslot]
    simp only [hd, hm, if_true]
  have hslot1 : (a.setStream context { s with _mapping := m }).slot context =
      some { s with _mapping := m } := slot_setStream a context s _ hslot
  have hclear1 : (a.setStream context { s with _mapping := m }).isClear = false := hclear
  rw [h1]
  refine ⟨rfl, ?_, ?_, ?_⟩
  · intro hns
    have hfast : Array.deviceFast K (a.setStream context { s with _mapping := m })
        { s with _mapping := m } m' = true := by
      have e : (a.setStream context { s with _mapping := m }).needsSetup
          { s with _mapping := m } = a.needsSetup s := rfl
      unfold Array.deviceFast
      rw [e, hns]
      simp [hd, hd']
    have hf := mapArrayStream_fast_null K rt2 (a.setStream context { s with _mapping := m })
      { s with _mapping := m } m' (w.record a.deviceAllocCall) hfast h0
    simp only []
    rw [map_of_some K rt2 _ context m' _ _ hclear1 hthread2 hslot1]
    simp only [hd', hf, if_true]
    exact ⟨trivial, slot_setStream _ context _ _ hslot1, trivial⟩
  · intro hns
    simp only []
    rw [unmap_of_some K rt2 _ context _ _ hclear1 hthread2 hslot1]
    have hslot2 := slot_setStream (a.setStream context { s with _mapping := m }) context
      { s with _mapping := m } (Array.unmapStream K { s with _mapping := m }) hslot1
    obtain ⟨k1, _, k3, k4⟩ := unmapStream_keeps K ({ s with _mapping := m } : ArrayStream)
    have hfast : Array.deviceFast K
        ((a.setStream context { s with _mapping := m }).setStream context
          (Array.unmapStream K { s with _mapping := m }))
        (Array.unmapStream K { s with _mapping := m }) m' = false := by
      unfold Array.deviceFast
      rw [k1, hu]; rfl
    have hr := mapArrayStream_retry K rt2
      ((a.setStream context { s with _mapping := m }).setStream context
        (Array.unmapStream K { s with _mapping := m }))
      (Array.unmapStream K { s with _mapping := m }) m'
      (w.record a.deviceAllocCall) hfast hd' hh' (by rw [k3]; exact h0) (by exact hfmt)
      (by
        intro hn
        have e : ((a.setStream context { s with _mapping := m }).setStream context
            (Array.unmapStream K { s with _mapping := m })).needsSetup
            (Array.unmapStream K { s with _mapping := m }) = a.needsSetup s :=
          needsSetup_congr _ _ _ k4
        rw [e, hns] at hn
        exact absurd hn Bool.false_ne_true) hmalloc hcopy
    rw [map_of_some K rt2 _ context m' _ _ (by exact hclear) hthread2 hslot2]
    simp only [hd', if_true]
    exact hr
  · intro hns hsrc
    have hfast : Array.deviceFast K (a.setStream context { s with _mapping := m })
        { s with _mapping := m } m' = false := by
      have e : (a.setStream context { s with _mapping := m }).needsSetup
          { s with _mapping := m } = a.needsSetup s := rfl
      unfold Array.deviceFast
      rw [e, hns]
      simp
    have hr := mapArrayStream_retry K rt2 (a.setStream context { s with _mapping := m })
      { s with _mapping := m } m' (w.record a.deviceAllocCall) hfast hd' hh' h0
      (by exact hfmt) (fun _ => hsrc) hmalloc hcopy
    simp only []
    rw [map_of_some K rt2 _ context m' _ _ hclear1 hthread2 hslot1]
    simp only [hd', if_true]
    exact hr

/-- C13 (amended): after `map(ctx, m)` returned null because the allocation for the
requested side failed on an UNMAPPED stream, the stream stays mapped in name. A following
`map(ctx, m')` for the same side, made when allocations and copies would succeed: (1) when
no setup from an external source is pending, takes the re-entrant path: it returns null
again, calls no allocation primitive and only stores m'; (2) after an `unmap(ctx)` in
between, performs the allocation again (one allocation call) and returns a non-null
pointer; (3) when setup from an external source is pending, performs the allocation again
and returns a non-null pointer. Stated for the host side and for the device side (there a
format descriptor is set). -/
theorem C13_retry_after_failed_map (K : Constants) (rt1 rt2 : Runtime) (a : Array)
    (context : Context) (s : ArrayStream) (m m' : Nat) (w : World)
    (hclear : a.isClear = false)
    (hthread1 : context.getAssignedThread = rt1.currentThread)
    (hthread2 : context.getAssignedThread = rt2.currentThread)
    (hslot : a.slot context = some s) (hun : s._mapping = K.UNMAPPED)
    (hu : bitTest K.UNMAPPED K.MAP_HOST = false ∧ bitTest K.UNMAPPED K.MAP_DEVICE = false)
    (hmalloc : ∀ c, c.isAlloc = true → rt2.malloc c ≠ 0)
    (hcopy : ∀ c mem, c.isCopy = true → rt2.memcpy c mem ≠ none)
    (hside : (bitTest m K.MAP_HOST = true ∧ bitTest m K.MAP_DEVICE = false ∧
        bitTest m' K.MAP_HOST = true ∧ bitTest m' K.MAP_DEVICE = false ∧
        s._hostPtr = 0 ∧ rt1.malloc (Array.hostAllocCall K a s) = 0) ∨
      (bitTest m K.MAP_DEVICE = true ∧ bitTest m K.MAP_HOST = false ∧
        bitTest m' K.MAP_DEVICE = true ∧ bitTest m' K.MAP_HOST = false ∧
        s._devArray = 0 ∧ a.noFormat = false ∧ rt1.malloc a.deviceAllocCall = 0)) :
    (a.map K rt1 context m w).1 = 0 ∧
    (a.needsSetup s = false →
      ((a.map K rt1 context m w).2.1.map K rt2 context m' (a.map K rt1 context m w).2.2).1 = 0 ∧
      ((a.map K rt1 context m w).2.1.map K rt2 context m'
        (a.map K rt1 context m w).2.2).2.1.slot context = some { s with _mapping := m' } ∧
      ((a.map K rt1 context m w).2.1.map K rt2 context m' (a.map K rt1 context m w).2.2).2.2
        = (a.map K rt1 context m w).2.2) ∧
    (a.needsSetup s = false →
      ((((a.map K rt1 context m w).2.1.unmap K rt2 context (a.map K rt1 context m w).2.2).1).map
        K rt2 context m'
        ((a.map K rt1 context m w).2.1.unmap K rt2 context (a.map K rt1 context m w).2.2).2).1
          ≠ 0 ∧
      ((((a.map K rt1 context m w).2.1.unmap K rt2 context (a.map K rt1 context m w).2.2).1).map
        K rt2 context m'
        ((a.map K rt1 context m w).2.1.unmap K rt2 context
          (a.map K rt1 context m w).2.2).2).2.2.allocs
          = (a.map K rt1 context m w).2.2.allocs + 1) ∧
    (a.needsSetup s = true → a.sourceData ≠ 0 →
      ((a.map K rt1 context m w).2.1.map K rt2 context m' (a.map K rt1 context m w).2.2).1
        ≠ 0 ∧
      ((a.map K rt1 context m w).2.1.map K rt2 context m'
        (a.map K rt1 context m w).2.2).2.2.allocs = (a.map K rt1 context m w).2.2.allocs + 1) := by
  rcases hside with ⟨hh, hd, hh', hd', h0, hfail⟩ | ⟨hd, hh, hd', hh', h0, hfmt, hfail⟩
  · exact host_retry K rt1 rt2 a context s m m' w hclear hthread1 hthread2 hslot hun hu.1
      hmalloc hcopy hh hd hh' hd' h0 hfail
  · exact device_retry K rt1 rt2 a context s m m' w hclear hthread1 hthread2 hslot hun hu.2
      hmalloc hcopy hd hh hd' hh' h0 hfmt hfail

end osgCuda

namespace osgCuda

open osgCompute

theorem setDimension_length_lt (b : Buffer) (i n : Nat)
    (hl : b._dimensions.length < UINT_SIZE) :
    (b.setDimension i n)._dimensions.length < UINT_SIZE := by
  have hM : 0 < UINT_SIZE := by decide
  have hmod : (i + 1) % UINT_SIZE < UINT_SIZE := Nat.mod_lt _ hM
  unfold Buffer.setDimension
  split_ifs
  · exact hl
  · simp only [List.length_set, resize, List.length_append, List.length_take,
      List.length_replicate]
    omega
  · simp only [List.length_set]
    exact hl

theorem setDimension_source (a : Array) (i n : Nat) (h : a.SourceInvariant) :
    ({ a with toBuffer := a.toBuffer.setDimension i n } : Array).SourceInvariant := by
  by_cases hc : a.isClear = true
  · have hc' : a.toBuffer.isClear = true := hc
    refine ⟨h.1, ?_⟩
    intro hn
    have : (a.toBuffer.setDimension i n).isClear = true := setDimension_clear _ _ _ hc'
    have hn' : (a.toBuffer.setDimension i n).isClear = false := hn
    rw [this] at hn'
    exact absurd hn' (by decide)
  · have hc' : a.toBuffer.isClear = false := by simpa using hc
    have e : a.toBuffer.setDimension i n = a.toBuffer := by
      simp [Buffer.setDimension, hc']
    rw [e]
    exact h

theorem setElementSize_source (a : Array) (e : Nat) (h : a.SourceInvariant) :
    ({ a with toBuffer := a.toBuffer.setElementSize e } : Array).SourceInvariant := by
  by_cases hc : a.isClear = true
  · have hc' : a.toBuffer.isClear = true := hc
    refine ⟨h.1, ?_⟩
    intro hn
    have hn' : (a.toBuffer.setElementSize e).isClear = false := hn
    simp [Buffer.setElementSize, hc'] at hn'
  · have hc' : a.toBuffer.isClear = false := by simpa using hc
    have e' : a.toBuffer.setElementSize e = a.toBuffer := by
      simp [Buffer.setElementSize, hc']
    rw [e']
    exact h

theorem setAllocHint_source (a : Array) (e : Nat) (h : a.SourceInvariant) :
    ({ a with toBuffer := a.toBuffer.setAllocHint e } : Array).SourceInvariant := by
  by_cases hc : a.isClear = true
  · have hc' : a.toBuffer.isClear = true := hc
    refine ⟨h.1, ?_⟩
    intro hn
    have hn' : (a.toBuffer.setAllocHint e).isClear = false := hn
    simp [Buffer.setAllocHint, hc'] at hn'
  · have hc' : a.toBuffer.isClear = false := by simpa using hc
    have e' : a.toBuffer.setAllocHint e = a.toBuffer := by
      simp [Buffer.setAllocHint, hc']
    rw [e']
    exact h

theorem setImage_cases (a : Array) (image : Option osg.Image) :
    a.setImage image = a ∨
    (a.setImage image = { a with _image := image, _array := none } ∧
      (a.isClear = false → ∀ i, image = some i → i.getTotalSizeInBytes = a.getByteSize)) := by
  unfold Array.setImage
  cases image with
  | none =>
    right
    exact ⟨rfl, fun _ i hi => by simp at hi⟩
  | some i =>
    simp only []
    by_cases hc : a.isClear = true
    · right
      simp [hc]
    · have hc' : a.isClear = false := by simpa using hc
      by_cases h1 : i.getNumMipmapLevels > 1
      · left; simp [hc', h1]
      · by_cases h2 : i.getTotalSizeInBytes = a.getByteSize
        · right
          simp [hc', h1, h2]
        · left
          simp [hc', h1, h2]

theorem setArray_cases (a : Array) (array : Option osg.Array) :
    a.setArray array = a ∨
    (a.setArray array = { a with _array := array, _image := none } ∧
      (a.isClear = false → ∀ r, array = some r → r.getTotalDataSize = a.getByteSize)) := by
  unfold Array.setArray
  cases array with
  | none =>
    right
    exact ⟨rfl, fun _ i hi => by simp at hi⟩
  | some r =>
    simp only []
    by_cases hc : a.isClear = true
    · right
      simp [hc]
    · have hc' : a.isClear = false := by simpa using hc
      by_cases h2 : r.getTotalDataSize = a.getByteSize
      · right
        simp [hc', h2]
      · left
        simp [hc', h2]

theorem setImage_source (a : Array) (image : Option osg.Image) (h : a.SourceInvariant) :
    (a.setImage image).SourceInvariant := by
  rcases setImage_cases a image with e | ⟨e, hsz⟩
  · rw [e]; exact h
  · rw [e]
    refine ⟨Or.inr rfl, fun hn => ⟨fun i hi => hsz hn i hi, fun r hr => ?_⟩⟩
    simp at hr

theorem setArray_source (a : Array) (array : Option osg.Array) (h : a.SourceInvariant) :
    (a.setArray array).SourceInvariant := by
  rcases setArray_cases a array with e | ⟨e, hsz⟩
  · rw [e]; exact h
  · rw [e]
    refine ⟨Or.inl rfl, fun hn => ⟨fun i hi => ?_, fun r hr => hsz hn r hr⟩⟩
    simp at hi

theorem new_source (K : Constants) : (Array.new K).SourceInvariant :=
  ⟨Or.inl rfl, fun h => absurd (show true = false from h) (by decide)⟩

end osgCuda

namespace osgCuda

open osgCompute

theorem new_length_lt (K : Constants) : (Array.new K)._dimensions.length < UINT_SIZE := by
  show 0 < UINT_SIZE
  decide

theorem init_cases (K : Constants) (a : Array) :
    (a.init K).2 = Array.new K ∨
    ((a.init K).2 = { a with toBuffer := a.toBuffer.init.2 } ∧
      (∀ i, a._image = some i → i.getTotalSizeInBytes = a.initByteSize) ∧
      (∀ r, a._array = some r → r.getTotalDataSize = a.initByteSize)) := by
  unfold Array.init
  simp only []
  split_ifs with h1 h2 h3 h4
  · exact Or.inl rfl
  · exact Or.inl rfl
  · exact Or.inl rfl
  · exact Or.inl rfl
  · right
    refine ⟨rfl, ?_, ?_⟩
    · intro i hi
      rw [hi] at h3
      simpa using h3
    · intro r hr
      rw [hr] at h4
      simpa using h4

theorem buffer_init_cases (b : Buffer) :
    b.init.2 = b ∨
    (b.isClear = true ∧
      b.init.2 = { b with _numElements := Buffer.computeNumElements b._dimensions,
                          _clear := false }) := by
  unfold Buffer.init
  split_ifs with h1 h2 h3
  · exact Or.inl rfl
  · exact Or.inl rfl
  · exact Or.inl rfl
  · right
    refine ⟨by simpa using h1, ?_⟩
    simp [Resource.init]

theorem init_source (K : Constants) (a : Array) (h : a.SourceInvariant)
    (hl : a._dimensions.length < UINT_SIZE) : (a.init K).2.SourceInvariant := by
  rcases init_cases K a with e | ⟨e, hi, hr⟩
  · rw [e]; exact new_source K
  · rw [e]
    rcases buffer_init_cases a.toBuffer with eb | ⟨_, eb⟩
    · rw [eb]; exact h
    · rw [eb]
      have hbs : ({ a with toBuffer :=
          { a.toBuffer with _numElements := Buffer.computeNumElements a._dimensions,
                            _clear := false } } : Array).getByteSize = a.initByteSize := by
        rw [initByteSize_eq a hl]
        simp [Buffer.getByteSize, Buffer.getElementSize, Buffer.getNumElements,
          computeNumElements_eq, Nat.mul_mod]
      refine ⟨h.1, fun _ => ⟨fun i hi' => ?_, fun r hr' => ?_⟩⟩
      · rw [hbs]; exact hi i hi'
      · rw [hbs]; exact hr r hr'

theorem init_length_lt (K : Constants) (a : Array) (hl : a._dimensions.length < UINT_SIZE) :
    (a.init K).2._dimensions.length < UINT_SIZE := by
  rcases init_cases K a with e | ⟨e, _, _⟩
  · rw [e]; exact new_length_lt K
  · rw [e]
    rcases buffer_init_cases a.toBuffer with eb | ⟨_, eb⟩
    · rw [eb]; exact hl
    · rw [eb]; exact hl

theorem configure_source (K : Constants) (a : Array) (op : ConfigOp)
    (h : a.SourceInvariant) (hl : a._dimensions.length < UINT_SIZE) :
    (a.configure K op).SourceInvariant ∧ (a.configure K op)._dimensions.length < UINT_SIZE := by
  cases op with
  | setDimension i n => exact ⟨setDimension_source a i n h, setDimension_length_lt _ i n hl⟩
  | setElementSize e =>
    refine ⟨setElementSize_source a e h, ?_⟩
    show (a.toBuffer.setElementSize e)._dimensions.length < UINT_SIZE
    unfold Buffer.setElementSize
    split_ifs <;> exact hl
  | setAllocHint e =>
    refine ⟨setAllocHint_source a e h, ?_⟩
    show (a.toBuffer.setAllocHint e)._dimensions.length < UINT_SIZE
    unfold Buffer.setAllocHint
    split_ifs <;> exact hl
  | setImage i =>
    refine ⟨setImage_source a i h, ?_⟩
    show (a.setImage i)._dimensions.length < UINT_SIZE
    rcases setImage_cases a i with e | ⟨e, _⟩ <;> rw [e] <;> exact hl
  | setArray i =>
    refine ⟨setArray_source a i h, ?_⟩
    show (a.setArray i)._dimensions.length < UINT_SIZE
    rcases setArray_cases a i with e | ⟨e, _⟩ <;> rw [e] <;> exact hl
  | init => exact ⟨init_source K a h hl, init_length_lt K a hl⟩
  | clear =>
    refine ⟨?_, ?_⟩
    · show (a.clear K).SourceInvariant
      rw [clear_eq_new]; exact new_source K
    · show (a.clear K)._dimensions.length < UINT_SIZE
      rw [clear_eq_new]; exact new_length_lt K

theorem configureAll_source (K : Constants) (ops : List ConfigOp) (a : Array)
    (h : a.SourceInvariant) (hl : a._dimensions.length < UINT_SIZE) :
    (a.configureAll K ops).SourceInvariant := by
  induction ops generalizing a with
  | nil => exact h
  | cons op ops ih =>
    exact ih _ (configure_source K a op h hl).1 (configure_source K a op h hl).2

/-- C19: the external-source invariant. In every Array state reached from a new Array by
setDimension, setElementSize, setAllocHint, setImage, setArray, init and clear calls, at
most one of the image and array references is set, and when the Array is initialised a
source that is set has the byte size getByteSize(); a setter either changes nothing (the
source was rejected) or stores its argument and clears the other reference. The sizes are
those the source reported when it was checked. -/
theorem C19_external_source_invariant (K : Constants) (ops : List ConfigOp) :
    ((Array.new K).configureAll K ops).SourceInvariant ∧
    (((Array.new K).configureAll K ops)._image = none ∨
      ((Array.new K).configureAll K ops)._array = none) ∧
    (((Array.new K).configureAll K ops).isClear = false →
      (∀ image, ((Array.new K).configureAll K ops)._image = some image →
        image.getTotalSizeInBytes = ((Array.new K).configureAll K ops).getByteSize) ∧
      (∀ array, ((Array.new K).configureAll K ops)._array = some array →
        array.getTotalDataSize = ((Array.new K).configureAll K ops).getByteSize)) ∧
    (∀ (a : Array) (image : Option osg.Image), a.setImage image = a ∨
      ((a.setImage image)._image = image ∧ (a.setImage image)._array = none)) ∧
    (∀ (a : Array) (array : Option osg.Array), a.setArray array = a ∨
      ((a.setArray array)._array = array ∧ (a.setArray array)._image = none)) := by
  have h := configureAll_source K ops (Array.new K) (new_source K) (new_length_lt K)
  refine ⟨h, h.1, h.2, ?_, ?_⟩
  · intro a image
    rcases setImage_cases a image with e | ⟨e, _⟩
    · exact Or.inl e
    · right; rw [e]; exact ⟨rfl, rfl⟩
  · intro a array
    rcases setArray_cases a array with e | ⟨e, _⟩
    · exact Or.inl e
    · right; rw [e]; exact ⟨rfl, rfl⟩

/-- Witness for C19: the scenario configuration with the 64-byte image set before `init()`,
and the array source of 32 bytes offered afterwards (rejected). -/
theorem C19_external_source_invariant_witness :
    ((Array.new Scenario.K).configureAll Scenario.K
      [ConfigOp.setDimension 0 4, ConfigOp.setDimension 1 4, ConfigOp.setElementSize 4,
        ConfigOp.setImage (some Scenario.image), ConfigOp.init,
        ConfigOp.setArray
          (some { getTotalDataSize := 32, getModifiedCount := 0, getDataPointer := 7 })]).isClear
      = false ∧
    ((Array.new Scenario.K).configureAll Scenario.K
      [ConfigOp.setDimension 0 4, ConfigOp.setDimension 1 4, ConfigOp.setElementSize 4,
        ConfigOp.setImage (some Scenario.image), ConfigOp.init,
        ConfigOp.setArray
          (some { getTotalDataSize := 32, getModifiedCount := 0, getDataPointer := 7 })])._image
      = some Scenario.image ∧
    Scenario.image.getTotalSizeInBytes =
      ((Array.new Scenario.K).configureAll Scenario.K
        [ConfigOp.setDimension 0 4, ConfigOp.setDimension 1 4, ConfigOp.setElementSize 4,
          ConfigOp.setImage (some Scenario.image), ConfigOp.init,
          ConfigOp.setArray
            (some { getTotalDataSize := 32, getModifiedCount := 0,
                    getDataPointer := 7 })]).getByteSize :=
  ⟨by decide, by decide,
   ((C19_external_source_invariant Scenario.K
      [ConfigOp.setDimension 0 4, ConfigOp.setDimension 1 4, ConfigOp.setElementSize 4,
        ConfigOp.setImage (some Scenario.image), ConfigOp.init,
        ConfigOp.setArray
          (some { getTotalDataSize := 32, getModifiedCount := 0,
                  getDataPointer := 7 })]).2.2.1 (by decide)).1 Scenario.image (by decide)⟩

end osgCuda

namespace osgCuda

open osgCompute

/-- Witness for C12: the scenario buffer whose stream exists and is UNMAPPED, mapped for
HOST_TARGET and for DEVICE_SOURCE while no memory can be allocated. -/
theorem C12_allocation_failure_witness :
    (Scenario.afterLookup.2.1.map Scenario.K Scenario.noMemory Scenario.context 0x10
      Scenario.afterLookup.2.2).1 = 0 ∧
    (Scenario.afterLookup.2.1.map Scenario.K Scenario.noMemory Scenario.context 0x10
      Scenario.afterLookup.2.2).2.1.slot Scenario.context =
      some { freshStream Scenario.K Scenario.array44.toBuffer Scenario.context with
        _mapping := 0x10 } ∧
    (Scenario.afterLookup.2.1.map Scenario.K Scenario.noMemory Scenario.context 0x0100
      Scenario.afterLookup.2.2).1 = 0 ∧
    (Scenario.afterLookup.2.1.map Scenario.K Scenario.noMemory Scenario.context 0x0100
      Scenario.afterLookup.2.2).2.1.slot Scenario.context =
      some { freshStream Scenario.K Scenario.array44.toBuffer Scenario.context with
        _mapping := 0x0100 } :=
  let h := C12_allocation_failure Scenario.K Scenario.noMemory Scenario.afterLookup.2.1
    Scenario.context (freshStream Scenario.K Scenario.array44.toBuffer Scenario.context) 0x10
    Scenario.afterLookup.2.2 (by decide) (by decide) (by decide) (by decide) (by decide)
  let g := C12_allocation_failure Scenario.K Scenario.noMemory Scenario.afterLookup.2.1
    Scenario.context (freshStream Scenario.K Scenario.array44.toBuffer Scenario.context) 0x0100
    Scenario.afterLookup.2.2 (by decide) (by decide) (by decide) (by decide) (by decide)
  ⟨(h.1 (by decide) (by decide) (by decide) (by decide)).1,
   (h.1 (by decide) (by decide) (by decide) (by decide)).2.2.1,
   (g.2 (by decide) (by decide) (by decide) (Or.inr (by decide))).1,
   (g.2 (by decide) (by decide) (by decide) (Or.inr (by decide))).2.2.1⟩

/-- Witness for C13: on the scenario buffer the first `map(ctx, HOST_TARGET)` fails for lack
of memory; the next `map(ctx, HOST_SOURCE)` returns null, the one after an `unmap(ctx)`
returns a pointer. -/
theorem C13_retry_after_failed_map_witness :
    (Scenario.afterLookup.2.1.map Scenario.K Scenario.noMemory Scenario.context 0x10
      Scenario.afterLookup.2.2).1 = 0 ∧
    ((Scenario.afterLookup.2.1.map Scenario.K Scenario.noMemory Scenario.context 0x10
      Scenario.afterLookup.2.2).2.1.map Scenario.K Scenario.runtime Scenario.context 0x01
      (Scenario.afterLookup.2.1.map Scenario.K Scenario.noMemory Scenario.context 0x10
        Scenario.afterLookup.2.2).2.2).1 = 0 ∧
    ((((Scenario.afterLookup.2.1.map Scenario.K Scenario.noMemory Scenario.context 0x10
      Scenario.afterLookup.2.2).2.1.unmap Scenario.K Scenario.runtime Scenario.context
      (Scenario.afterLookup.2.1.map Scenario.K Scenario.noMemory Scenario.context 0x10
        Scenario.afterLookup.2.2).2.2).1).map Scenario.K Scenario.runtime Scenario.context 0x01
      ((Scenario.afterLookup.2.1.map Scenario.K Scenario.noMemory Scenario.context 0x10
      Scenario.afterLookup.2.2).2.1.unmap Scenario.K Scenario.runtime Scenario.context
      (Scenario.afterLookup.2.1.map Scenario.K Scenario.noMemory Scenario.context 0x10
        Scenario.afterLookup.2.2).2.2).2).1 ≠ 0 :=
  let h := C13_retry_after_failed_map Scenario.K Scenario.noMemory Scenario.runtime
    Scenario.afterLookup.2.1 Scenario.context
    (freshStream Scenario.K Scenario.array44.toBuffer Scenario.context) 0x10 0x01
    Scenario.afterLookup.2.2 (by decide) (by decide) (by decide) (by decide) (by decide)
    (by decide) scenario_malloc scenario_memcpy
    (Or.inl ⟨by decide, by decide, by decide, by decide, by decide, by decide⟩)
  ⟨h.1, (h.2.1 (by decide)).1, (h.2.2.1 (by decide)).1⟩

/-- Witness for C16: on the scenario buffer mapped to the host in contexts 0 and 1,
`clear(context 1)` empties slot 1, frees its host memory and leaves slot 0 as it was. -/
theorem C16_clear_context_witness :
    (Scenario.twoContexts.2.1.slot Scenario.context1).isSome = true ∧
    ((Scenario.twoContexts.2.1.toBuffer.clearContext Scenario.context1
      Scenario.twoContexts.2.2).1._streams.getD 1 none) = none ∧
    ((Scenario.twoContexts.2.1.toBuffer.clearContext Scenario.context1
      Scenario.twoContexts.2.2).1._streams.getD 0 none) =
        Scenario.twoContexts.2.1._streams.getD 0 none ∧
    (Scenario.twoContexts.2.1._streams.getD 0 none).isSome = true ∧
    (Scenario.twoContexts.2.1.toBuffer.clearContext Scenario.context1
      Scenario.twoContexts.2.2).2.log =
        Scenario.twoContexts.2.2.log ++ [Call.freeMemory 100] :=
  let h := C16_clear_context Scenario.twoContexts.2.1.toBuffer Scenario.context1
    Scenario.twoContexts.2.2
  ⟨by decide, h.1, h.2.1 0 (by decide), by decide, by decide⟩

end osgCuda

namespace osgCompute

theorem memory_setDimension_numElements (m : Memory) (i n : Nat) (h : m.isClear = true) :
    (m.setDimension i n)._numElements =
      Buffer.computeNumElements (m.setDimension i n)._dimensions := by
  simp [Memory.setDimension, h]

theorem memory_setDimension_consistent (m : Memory) (i n : Nat) (h : m.Consistent) :
    (m.setDimension i n).Consistent := by
  by_cases hc : m.isClear = true
  · refine ⟨fun _ => memory_setDimension_numElements m i n hc, fun hn => ?_⟩
    simp [Memory.setDimension, hc] at hn
  · have e : m.setDimension i n = m := by simp [Memory.setDimension, hc]
    rw [e]; exact h

theorem memory_setElementSize_consistent (m : Memory) (e : Nat) (h : m.Consistent) :
    (m.setElementSize e).Consistent := by
  unfold Memory.setElementSize
  split_ifs
  · exact h
  · exact ⟨h.1, fun hn => h.2 hn⟩

theorem memory_setAllocHint_consistent (m : Memory) (e : Nat) (h : m.Consistent) :
    (m.setAllocHint e).Consistent := by
  unfold Memory.setAllocHint
  split_ifs
  · exact h
  · exact ⟨h.1, fun hn => h.2 hn⟩

theorem memory_init_consistent (m : Memory) (h : m.Consistent) : m.init.2.Consistent := by
  unfold Memory.init
  split_ifs with h1 h2 h3
  · exact h
  · exact h
  · exact h
  · exact ⟨h.1, fun _ => by simpa using h2⟩

theorem memory_new_consistent : Memory.new.Consistent :=
  ⟨fun h => absurd rfl h, fun h => absurd (show true = false from h) (by decide)⟩

theorem memory_clear_eq_new (m : Memory) : m.clear = Memory.new := rfl

theorem memory_configure_consistent (m : Memory) (op : MemoryOp) (h : m.Consistent) :
    (m.configure op).Consistent := by
  cases op with
  | setDimension i n => exact memory_setDimension_consistent m i n h
  | setElementSize e => exact memory_setElementSize_consistent m e h
  | setAllocHint e => exact memory_setAllocHint_consistent m e h
  | init => exact memory_init_consistent m h
  | clear => exact memory_new_consistent

theorem memory_configureAll_consistent (ops : List MemoryOp) (m : Memory) (h : m.Consistent) :
    (m.configureAll ops).Consistent := by
  induction ops generalizing m with
  | nil => exact h
  | cons op ops ih => exact ih _ (memory_configure_consistent m op h)

/-- C21: for the Memory resource, after any sequence of setDimension, setElementSize,
setAllocHint, init and clear calls on a newly constructed Memory (indices below UINT_MAX),
an initialised Memory has at least one dimension and getNumElements() is the product of its
dimensions in unsigned 32-bit arithmetic; `clear()` gives the state of a new Memory, so the
same holds when the sequence starts from any cleared Memory. The bound on the indices keeps
the store of `setDimension` inside the vector. -/
theorem C21_memory_numElements (ops : List MemoryOp) (m0 : Memory)
    (_hidx : ∀ op ∈ ops, op.inRange = true)
    (hinit : (Memory.new.configureAll ops).isClear = false) :
    (Memory.new.configureAll ops).getNumElements =
      (Memory.new.configureAll ops)._dimensions.prod % UINT_SIZE ∧
    (Memory.new.configureAll ops)._dimensions ≠ [] ∧
    m0.clear = Memory.new ∧
    (m0.clear.configureAll ops).getNumElements =
      (m0.clear.configureAll ops)._dimensions.prod % UINT_SIZE := by
  have h := memory_configureAll_consistent ops Memory.new memory_new_consistent
  have hd := h.2 hinit
  have hn : (Memory.new.configureAll ops).getNumElements =
      (Memory.new.configureAll ops)._dimensions.prod % UINT_SIZE := by
    show (Memory.new.configureAll ops)._numElements = _
    rw [h.1 hd, computeNumElements_eq]
  exact ⟨hn, hd, rfl, hn⟩

/-- Witness for C21: dimensions (4,4), element size 4 and a hint, `init()`, then `clear()`,
dimensions (2,3,5), element size 2 and `init()` again. -/
theorem C21_memory_numElements_witness :
    (Memory.new.configureAll
      [MemoryOp.setDimension 0 4, MemoryOp.setDimension 1 4, MemoryOp.setElementSize 4,
        MemoryOp.setAllocHint 1, MemoryOp.init, MemoryOp.clear, MemoryOp.setDimension 2 5,
        MemoryOp.setDimension 0 2, MemoryOp.setDimension 1 3, MemoryOp.setElementSize 2,
        MemoryOp.init]).getNumElements = 30 ∧
    (Memory.new.configureAll
      [MemoryOp.setDimension 0 4, MemoryOp.setDimension 1 4, MemoryOp.setElementSize 4,
        MemoryOp.setAllocHint 1, MemoryOp.init]).getNumElements = 16 :=
  ⟨(C21_memory_numElements
      [MemoryOp.setDimension 0 4, MemoryOp.setDimension 1 4, MemoryOp.setElementSize 4,
        MemoryOp.setAllocHint 1, MemoryOp.init, MemoryOp.clear, MemoryOp.setDimension 2 5,
        MemoryOp.setDimension 0 2, MemoryOp.setDimension 1 3, MemoryOp.setElementSize 2,
        MemoryOp.init] Memory.new (by decide) (by decide)).1,
   by decide⟩

end osgCompute

namespace osgCompute

theorem lor_idem (a h : Nat) : (a ||| h) ||| h = a ||| h := by
  rw [Nat.lor_assoc, Nat.or_self]

theorem lor_swap (a h1 h2 : Nat) : (a ||| h1) ||| h2 = (a ||| h2) ||| h1 := by
  rw [Nat.lor_assoc, Nat.lor_comm h1 h2, ← Nat.lor_assoc]

theorem lor_keeps_bit (a h i : Nat) (hb : a.testBit i = true) : (a ||| h).testBit i = true := by
  rw [Nat.testBit_or, hb]; rfl

/-- C22: allocation hints accumulate by bitwise OR, for Buffer and for Memory alike. On a
clear resource `setAllocHint(h)` makes `getAllocHint()` the previous hint OR h; the call is
idempotent, two calls commute, and a bit that is set stays set. `setDimension`,
`setElementSize` and `init()` leave the hint as it is; `clear()` resets it to the no-hint
value (0 for Memory). -/
theorem C22_allocHint_accumulates (K : Constants) (b : Buffer) (m : Memory) (h h' : Nat)
    (hb : b.isClear = true) (hm : m.isClear = true) :
    ((b.setAllocHint h).getAllocHint = b.getAllocHint ||| h ∧
      (b.setAllocHint h).setAllocHint h = b.setAllocHint h ∧
      (b.setAllocHint h).setAllocHint h' = (b.setAllocHint h').setAllocHint h ∧
      (∀ i, b.getAllocHint.testBit i = true → (b.setAllocHint h).getAllocHint.testBit i = true) ∧
      (∀ i n, (b.setDimension i n).getAllocHint = b.getAllocHint) ∧
      (∀ e, (b.setElementSize e).getAllocHint = b.getAllocHint) ∧
      b.init.2.getAllocHint = b.getAllocHint ∧
      (b.clear K).getAllocHint = K.NO_ALLOC_HINT) ∧
    ((m.setAllocHint h).getAllocHint = m.getAllocHint ||| h ∧
      (m.setAllocHint h).setAllocHint h = m.setAllocHint h ∧
      (m.setAllocHint h).setAllocHint h' = (m.setAllocHint h').setAllocHint h ∧
      (∀ i, m.getAllocHint.testBit i = true → (m.setAllocHint h).getAllocHint.testBit i = true) ∧
      (∀ i n, (m.setDimension i n).getAllocHint = m.getAllocHint) ∧
      (∀ e, (m.setElementSize e).getAllocHint = m.getAllocHint) ∧
      m.init.2.getAllocHint = m.getAllocHint ∧
      m.clear.getAllocHint = 0) := by
  have sb : ∀ x, b.setAllocHint x = { b with _allocHint := b._allocHint ||| x } := by
    intro x; simp [Buffer.setAllocHint, hb]
  have sm : ∀ x, m.setAllocHint x = { m with _allocHint := m._allocHint ||| x } := by
    intro x; simp [Memory.setAllocHint, hm]
  have cb : ∀ x, (b.setAllocHint x).isClear = true := by
    intro x; rw [sb]; exact hb
  have cm : ∀ x, (m.setAllocHint x).isClear = true := by
    intro x; rw [sm]; exact hm
  refine ⟨⟨?_, ?_, ?_, ?_, ?_, ?_, ?_, rfl⟩, ⟨?_, ?_, ?_, ?_, ?_, ?_, ?_, rfl⟩⟩
  · rw [sb]; rfl
  · simp [Buffer.setAllocHint, hb, lor_idem]
  · simp [Buffer.setAllocHint, hb, lor_swap b._allocHint h h']
  · intro i hi
    rw [sb]
    exact lor_keeps_bit _ _ _ hi
  · intro i n
    simp [Buffer.setDimension, hb, Buffer.getAllocHint]
  · intro e
    simp [Buffer.setElementSize, hb, Buffer.getAllocHint]
  · unfold Buffer.init
    split_ifs <;> rfl
  · rw [sm]; rfl
  · simp [Memory.setAllocHint, hm, lor_idem]
  · simp [Memory.setAllocHint, hm, lor_swap m._allocHint h h']
  · intro i hi
    rw [sm]
    exact lor_keeps_bit _ _ _ hi
  · intro i n
    simp [Memory.setDimension, hm, Memory.getAllocHint]
  · intro e
    simp [Memory.setElementSize, hm, Memory.getAllocHint]
  · unfold Memory.init
    split_ifs <;> rfl

/-- Witness for C22: hints 1 and 4 on a new Buffer and a new Memory. -/
theorem C22_allocHint_accumulates_witness :
    (((Buffer.new Scenario.K).setAllocHint 1).setAllocHint 4).getAllocHint = 5 ∧
    ((Buffer.new Scenario.K).setAllocHint 1).setAllocHint 4 =
      ((Buffer.new Scenario.K).setAllocHint 4).setAllocHint 1 ∧
    ((Memory.new.setAllocHint 1).setAllocHint 4).getAllocHint = 5 ∧
    (Memory.new.setAllocHint 1).setAllocHint 4 = (Memory.new.setAllocHint 4).setAllocHint 1 :=
  ⟨by decide,
   (C22_allocHint_accumulates Scenario.K (Buffer.new Scenario.K) Memory.new 1 4
      (by decide) (by decide)).1.2.2.1,
   by decide,
   (C22_allocHint_accumulates Scenario.K (Buffer.new Scenario.K) Memory.new 1 4
      (by decide) (by decide)).2.2.2.1⟩

/-- C30: `Buffer::getDimension` on a buffer with no dimension set reads outside the
(empty) dimension list for every index an `unsigned int` can hold, because the bound
`_dimensions.size()-1` wraps; `Memory::getDimension` tests for the empty list first and
returns 0. On a buffer with a dimension set, `Buffer::getDimension(i)` returns the i-th
dimension for i below the number of dimensions and 0 for every other index. -/
theorem C30_getDimension_empty_reads_outside :
    (Buffer.new Scenario.K)._dimensions = [] ∧
    (Buffer.new Scenario.K).getDimension 0 = none ∧
    (∀ (b : Buffer) (i : Nat), b._dimensions = [] → i < UINT_SIZE → b.getDimension i = none) ∧
    (∀ (m : Memory) (i : Nat), m._dimensions = [] → m.getDimension i = some 0) ∧
    (∀ (b : Buffer) (i : Nat), b._dimensions ≠ [] → b._dimensions.length < SIZE_T_SIZE →
      (i < b._dimensions.length → b.getDimension i = some (b._dimensions.getD i 0)) ∧
      (b._dimensions.length ≤ i → b.getDimension i = some 0)) ∧
    (∀ (m : Memory) (i : Nat), m._dimensions.length < SIZE_T_SIZE →
      (i < m._dimensions.length → m.getDimension i = some (m._dimensions.getD i 0)) ∧
      (m._dimensions.length ≤ i → m.getDimension i = some 0)) := by
  have hS : SIZE_T_SIZE = 2 ^ 64 := rfl
  have hU : UINT_SIZE = 2 ^ 32 := rfl
  refine ⟨rfl, by decide, ?_, ?_, ?_, ?_⟩
  · intro b i hd hi
    unfold Buffer.getDimension
    rw [hd]
    have : ¬ i > (([] : List Nat).length + SIZE_T_SIZE - 1) % SIZE_T_SIZE := by
      simp only [List.length_nil, hS]
      rw [hU] at hi
      omega
    rw [if_neg this]
    rfl
  · intro m i hd
    simp [Memory.getDimension, hd]
  · intro b i hd hl
    have hpos : 0 < b._dimensions.length := List.length_pos.mpr hd
    have hbound : (b._dimensions.length + SIZE_T_SIZE - 1) % SIZE_T_SIZE =
        b._dimensions.length - 1 := by
      rw [hS] at hl ⊢
      omega
    unfold Buffer.getDimension
    rw [hbound]
    constructor
    · intro hi
      have : ¬ i > b._dimensions.length - 1 := by omega
      rw [if_neg this]
      simp [List.getD_eq_getElem?_getD, hi]
    · intro hi
      have : i > b._dimensions.length - 1 := by omega
      rw [if_pos this]
  · intro m i hl
    by_cases hd : m._dimensions = []
    · constructor
      · intro hi
        rw [hd] at hi
        simp at hi
      · intro _
        simp [Memory.getDimension, hd]
    · have hpos : 0 < m._dimensions.length := List.length_pos.mpr hd
      have hbound : (m._dimensions.length + SIZE_T_SIZE - 1) % SIZE_T_SIZE =
          m._dimensions.length - 1 := by
        rw [hS] at hl ⊢
        omega
      have he : m._dimensions.isEmpty = false := by
        cases hm : m._dimensions with
        | nil => exact absurd hm hd
        | cons x xs => rfl
      unfold Memory.getDimension
      rw [hbound, he]
      constructor
      · intro hi
        have : ¬ i > m._dimensions.length - 1 := by omega
        simp [this, List.getD_eq_getElem?_getD, hi]
      · intro hi
        have : i > m._dimensions.length - 1 := by omega
        simp [this]

end osgCompute

namespace osgCuda

open osgCompute

theorem copyCalls_record_other (w : World) (c : Call) (h : c.isCopy = false) :
    (w.record c).copyCalls = w.copyCalls := by
  simp [World.record, World.copyCalls, List.filter_append, h]

theorem copyCalls_append_copy (mem : Mem) (l : List Call) (c : Call) (h : c.isCopy = true) :
    ({ mem := mem, log := l ++ [c] } : World).copyCalls = l.filter Call.isCopy ++ [c] := by
  simp [World.copyCalls, List.filter_append, h]

theorem deviceAllocCall_not_copy (a : Array) : (Array.deviceAllocCall a).isCopy = false := by
  unfold Array.deviceAllocCall; split_ifs <;> rfl

theorem invokeCallback_copyCalls (rt : Runtime) (a : Array) (s : ArrayStream) (ptr m : Nat)
    (first : Bool) (w : World) :
    (Array.invokeCallback rt a s ptr m first w).copyCalls = w.copyCalls := by
  unfold Array.invokeCallback World.copyCalls
  split
  · rfl
  · split_ifs <;> simp [List.filter_append, Call.isCopy]

/-- The allocation block of `mapStream` when it succeeds: the device array is untouched,
the host flag is raised exactly when host memory is allocated next to an existing device
array, and no copy is made. -/
theorem allocHostIfNull_succ (K : Constants) (rt : Runtime) (a : Array) (m : Nat)
    (t : ArrayStream) (w : World) (hh : bitTest m K.MAP_HOST = true)
    (hok : (Array.allocHostIfNull K rt a m t w).1 = true) :
    (Array.allocHostIfNull K rt a m t w).2.1._devArray = t._devArray ∧
    (Array.allocHostIfNull K rt a m t w).2.1._syncHost =
      (t._syncHost || (t._hostPtr == 0 && t._devArray != 0)) ∧
    (Array.allocHostIfNull K rt a m t w).2.1._syncDevice = t._syncDevice ∧
    (Array.allocHostIfNull K rt a m t w).2.2.copyCalls = w.copyCalls := by
  have hc := hostAllocCall_not_copy K a t
  unfold Array.allocHostIfNull at hok ⊢
  by_cases h0 : t._hostPtr = 0
  · have h0' : (t._hostPtr == 0) = true := by simpa using h0
    have h0'' : (t._hostPtr != 0) = false := by simp [h0]
    simp only [h0', if_true] at hok ⊢
    unfold Array.allocStream at hok ⊢
    simp only [hh, h0'', if_true, Bool.false_eq_true, if_false] at hok ⊢
    by_cases hp : rt.malloc (Array.hostAllocCall K a t) = 0
    · simp [hp] at hok
    · have hp' : (rt.malloc (Array.hostAllocCall K a t) == 0) = false := by simpa using hp
      simp only [hp', Bool.false_eq_true, if_false]
      by_cases hdv : t._devArray = 0
      · simp [hdv, copyCalls_record_other _ _ hc]
      · have hdv' : (t._devArray != 0) = true := by simpa using hdv
        simp [hdv', copyCalls_record_other _ _ hc]
  · have h0' : (t._hostPtr == 0) = false := by simpa using h0
    simp [h0']

/-- The allocation block of `mapArrayStream` when it succeeds. -/
theorem allocDeviceIfNull_succ (K : Constants) (rt : Runtime) (a : Array) (m : Nat)
    (t : ArrayStream) (w : World) (hh : bitTest m K.MAP_HOST = false)
    (hd : bitTest m K.MAP_DEVICE = true)
    (hok : (Array.allocDeviceIfNull K rt a m t w).1 = true) :
    (Array.allocDeviceIfNull K rt a m t w).2.1._hostPtr = t._hostPtr ∧
    (Array.allocDeviceIfNull K rt a m t w).2.1._syncDevice =
      (t._syncDevice || (t._devArray == 0 && t._hostPtr != 0)) ∧
    (Array.allocDeviceIfNull K rt a m t w).2.1._syncHost = t._syncHost ∧
    (Array.allocDeviceIfNull K rt a m t w).2.2.copyCalls = w.copyCalls := by
  have hc := deviceAllocCall_not_copy a
  unfold Array.allocDeviceIfNull at hok ⊢
  by_cases h0 : t._devArray = 0
  · have h0' : (t._devArray == 0) = true := by simpa using h0
    have h0'' : (t._devArray != 0) = false := by simp [h0]
    simp only [h0', if_true] at hok ⊢
    unfold Array.allocStream at hok ⊢
    simp only [hh, hd, h0'', if_true, Bool.false_eq_true, if_false] at hok ⊢
    by_cases hf : (a.getChannelFormatDesc.x == INT_MAX && a.getChannelFormatDesc.y == INT_MAX
        && a.getChannelFormatDesc.z == INT_MAX) = true
    · simp [hf] at hok
    · simp only [hf, Bool.false_eq_true, if_false] at hok ⊢
      by_cases hp : rt.malloc (Array.deviceAllocCall a) = 0
      · simp [hp] at hok
      · have hp' : (rt.malloc (Array.deviceAllocCall a) == 0) = false := by simpa using hp
        simp only [hp', Bool.false_eq_true, if_false]
        by_cases hdv : t._hostPtr = 0
        · simp [hdv, copyCalls_record_other _ _ hc]
        · have hdv' : (t._hostPtr != 0) = true := by simpa using hdv
          simp [hdv', copyCalls_record_other _ _ hc]
  · have h0' : (t._devArray == 0) = false := by simpa using h0
    simp [h0']

/-- The setup block for a host-side mapping when it succeeds: one copy from the source
when setup is needed, pointers and the host flag untouched. -/
theorem setupIfNeeded_host_succ (K : Constants) (rt : Runtime) (a : Array) (m : Nat)
    (n : Bool) (t : ArrayStream) (w : World) (hd : bitTest m K.MAP_DEVICE = false)
    (hok : (Array.setupIfNeeded K rt a m n t w).1 = true) :
    (Array.setupIfNeeded K rt a m n t w).2.1._hostPtr = t._hostPtr ∧
    (Array.setupIfNeeded K rt a m n t w).2.1._devArray = t._devArray ∧
    (Array.setupIfNeeded K rt a m n t w).2.1._syncHost = t._syncHost ∧
    (Array.setupIfNeeded K rt a m n t w).2.2.copyCalls =
      w.copyCalls ++ (if n then [a.setupHostCall t] else []) := by
  unfold Array.setupIfNeeded at hok ⊢
  cases n with
  | false => simp
  | true =>
    simp only [if_true] at hok ⊢
    have hs := setupStream_host_ok K rt a m t w hd hok
    refine ⟨by rw [hs], by rw [hs], by rw [hs], ?_⟩
    unfold Array.setupStream at hok ⊢
    simp only [hd, Bool.false_eq_true, if_false] at hok ⊢
    by_cases hh : bitTest m K.MAP_HOST = true
    · by_cases h0 : (a.sourceData == 0) = true
      · simp [hh, h0] at hok
      · cases hmem : rt.memcpy (a.setupHostCall t) w.mem with
        | none => simp [hh, h0, hmem] at hok
        | some m' =>
          simp only [hh, h0, hmem, if_true, Bool.false_eq_true, if_false]
          exact copyCalls_append_copy _ _ _ (setupHostCall_isCopy a t)
    · simp [hh] at hok

/-- The setup block for a device-side mapping when it succeeds. -/
theorem setupIfNeeded_device_succ (K : Constants) (rt : Runtime) (a : Array) (m : Nat)
    (n : Bool) (t : ArrayStream) (w : World) (hd : bitTest m K.MAP_DEVICE = true)
    (hok : (Array.setupIfNeeded K rt a m n t w).1 = true) :
    (Array.setupIfNeeded K rt a m n t w).2.1._hostPtr = t._hostPtr ∧
    (Array.setupIfNeeded K rt a m n t w).2.1._devArray = t._devArray ∧
    (Array.setupIfNeeded K rt a m n t w).2.1._syncDevice = t._syncDevice ∧
    (Array.setupIfNeeded K rt a m n t w).2.2.copyCalls =
      w.copyCalls ++ (if n then [a.setupDeviceCall t] else []) := by
  unfold Array.setupIfNeeded at hok ⊢
  cases n with
  | false => simp
  | true =>
    simp only [if_true] at hok ⊢
    have hs := setupStream_device_ok K rt a m t w hd hok
    refine ⟨by rw [hs], by rw [hs], by rw [hs], ?_⟩
    unfold Array.setupStream at hok ⊢
    simp only [hd, if_true] at hok ⊢
    by_cases h0 : (a.sourceData == 0) = true
    · simp [h0] at hok
    · cases hmem : rt.memcpy (a.setupDeviceCall t) w.mem with
      | none => simp [h0, hmem] at hok
      | some m' =>
        simp only [h0, hmem, Bool.false_eq_true, if_false]
        exact copyCalls_append_copy _ _ _ (setupDeviceCall_isCopy a t)

/-- The sync block of `mapStream` when it succeeds: one copy from the device exactly when
the host flag is set and a device array exists. -/
theorem syncHostIfPending_succ (K : Constants) (rt : Runtime) (a : Array) (m : Nat)
    (t : ArrayStream) (w : World) (hd : bitTest m K.MAP_DEVICE = false)
    (hh : bitTest m K.MAP_HOST = true)
    (hok : (Array.syncHostIfPending K rt a m t w).1 = true) :
    (Array.syncHostIfPending K rt a m t w).2.2.copyCalls =
      w.copyCalls ++ (if t._syncHost && t._devArray != 0 then [a.syncHostCall t] else []) := by
  unfold Array.syncHostIfPending at hok ⊢
  by_cases hc : (t._syncHost && t._devArray != 0) = true
  · simp only [hc, if_true] at hok ⊢
    unfold Array.syncStream at hok ⊢
    simp only [hd, hh, Bool.false_eq_true, if_false, if_true] at hok ⊢
    cases hmem : rt.memcpy (a.syncHostCall t) w.mem with
    | none => simp [hmem] at hok
    | some m' =>
      simp only []
      exact copyCalls_append_copy _ _ _ (syncHostCall_isCopy a t)
  · simp [hc]

/-- The sync block of `mapArrayStream` when it succeeds. -/
theorem syncDeviceIfPending_succ (K : Constants) (rt : Runtime) (a : Array) (m : Nat)
    (t : ArrayStream) (w : World) (hd : bitTest m K.MAP_DEVICE = true)
    (hok : (Array.syncDeviceIfPending K rt a m t w).1 = true) :
    (Array.syncDeviceIfPending K rt a m t w).2.2.copyCalls =
      w.copyCalls ++
        (if t._syncDevice && t._hostPtr != 0 then [a.syncDeviceCall t] else []) := by
  unfold Array.syncDeviceIfPending at hok ⊢
  by_cases hc : (t._syncDevice && t._hostPtr != 0) = true
  · simp only [hc, if_true] at hok ⊢
    unfold Array.syncStream at hok ⊢
    simp only [hd, if_true] at hok ⊢
    cases hmem : rt.memcpy (a.syncDeviceCall t) w.mem with
    | none => simp [hmem] at hok
    | some m' =>
      simp only []
      exact copyCalls_append_copy _ _ _ (syncDeviceCall_isCopy a t)
  · simp [hc]

end osgCuda

namespace osgCuda

open osgCompute

theorem setupHostCall_congr (a : Array) (t t' : ArrayStream) (h : t._hostPtr = t'._hostPtr) :
    a.setupHostCall t = a.setupHostCall t' := by
  unfold Array.setupHostCall; rw [h]

theorem setupDeviceCall_congr (a : Array) (t t' : ArrayStream)
    (h : t._devArray = t'._devArray) : a.setupDeviceCall t = a.setupDeviceCall t' := by
  unfold Array.setupDeviceCall; rw [h]

theorem syncHostCall_congr (a : Array) (t t' : ArrayStream) (h1 : t._hostPtr = t'._hostPtr)
    (h2 : t._devArray = t'._devArray) : a.syncHostCall t = a.syncHostCall t' := by
  unfold Array.syncHostCall; rw [h1, h2]

theorem syncDeviceCall_congr (a : Array) (t t' : ArrayStream) (h1 : t._hostPtr = t'._hostPtr)
    (h2 : t._devArray = t'._devArray) : a.syncDeviceCall t = a.syncDeviceCall t' := by
  unfold Array.syncDeviceCall; rw [h1, h2]

theorem bool_due (p q r : Bool) : ((p || (q && r)) && r) = ((p || q) && r) := by
  cases p <;> cases q <;> cases r <;> rfl

/-- The copies of a successful host-side map on the slow path, in order: the copy from the
external source when setup is needed, then the copy from the device when the sync is due.
Both can happen in one map. -/
theorem mapStream_copyCalls (K : Constants) (rt : Runtime) (a : Array) (s : ArrayStream)
    (m : Nat) (w : World) (hfast : Array.hostFast K a s m = false)
    (hh : bitTest m K.MAP_HOST = true) (hd : bitTest m K.MAP_DEVICE = false)
    (hok : (a.mapStream K rt s m w).1 ≠ 0) :
    (a.mapStream K rt s m w).2.2.copyCalls =
      w.copyCalls ++
        (if a.needsSetup s then [a.setupHostCall (a.mapStream K rt s m w).2.1] else []) ++
        (if Array.hostSyncDue K s then [a.syncHostCall (a.mapStream K rt s m w).2.1]
          else []) := by
  obtain ⟨A1, S1, Y1, hr, _, _⟩ := mapStream_ok K rt a s m w hfast hh hok
  have hw : (a.mapStream K rt s m w).2.2.copyCalls =
      (Array.hostSynced K rt a s m w).2.2.copyCalls := by
    rw [mapStream_slow K rt a s m w hfast hh]
    simp only [A1, S1, Y1, Bool.not_true, Bool.false_eq_true, if_false]
    rw [invokeCallback_copyCalls]
  obtain ⟨u1, u2, _, _, _⟩ := unmapIfMapped_keeps K s
  obtain ⟨a1, a2, _, a4⟩ := allocHostIfNull_succ K rt a m
    { Array.unmapIfMapped K s with _mapping := m } w hh A1
  obtain ⟨s1, s2, s3, s4⟩ := setupIfNeeded_host_succ K rt a m (a.needsSetup s)
    (Array.hostAllocated K rt a s m w).2.1 (Array.hostAllocated K rt a s m w).2.2 hd S1
  have y4 := syncHostIfPending_succ K rt a m
    (Array.hostSetUp K rt a s m w).2.1 (Array.hostSetUp K rt a s m w).2.2 hd hh Y1
  obtain ⟨_, y2, y3, _, _⟩ := syncHostIfPending_keeps K rt a m
    (Array.hostSetUp K rt a s m w).2.1 (Array.hostSetUp K rt a s m w).2.2
  have eA : (Array.hostAllocated K rt a s m w).2.2.copyCalls = w.copyCalls := a4
  have eS : (Array.hostSetUp K rt a s m w).2.2.copyCalls =
      w.copyCalls ++
        (if a.needsSetup s then [a.setupHostCall (Array.hostAllocated K rt a s m w).2.1]
          else []) := by
    rw [← eA]; exact s4
  have pS : (Array.hostSetUp K rt a s m w).2.1._hostPtr =
      (Array.hostAllocated K rt a s m w).2.1._hostPtr := s1
  have dS : (Array.hostSetUp K rt a s m w).2.1._devArray = s._devArray := by
    have h1 : (Array.hostSetUp K rt a s m w).2.1._devArray =
        (Array.hostAllocated K rt a s m w).2.1._devArray := s2
    have h2 : (Array.hostAllocated K rt a s m w).2.1._devArray =
        (Array.unmapIfMapped K s)._devArray := a1
    rw [h1, h2, u2]
  have fS : (Array.hostSetUp K rt a s m w).2.1._syncHost =
      ((Array.unmapIfMapped K s)._syncHost || (s._hostPtr == 0 && s._devArray != 0)) := by
    have h1 : (Array.hostSetUp K rt a s m w).2.1._syncHost =
        (Array.hostAllocated K rt a s m w).2.1._syncHost := s3
    have h2 : (Array.hostAllocated K rt a s m w).2.1._syncHost =
        ((Array.unmapIfMapped K s)._syncHost ||
          ((Array.unmapIfMapped K s)._hostPtr == 0 && (Array.unmapIfMapped K s)._devArray != 0))
        := a2
    rw [h1, h2, u1, u2]
  have pY : (Array.hostSynced K rt a s m w).2.1._hostPtr =
      (Array.hostSetUp K rt a s m w).2.1._hostPtr := y2
  have dY : (Array.hostSynced K rt a s m w).2.1._devArray =
      (Array.hostSetUp K rt a s m w).2.1._devArray := y3
  have eY : (Array.hostSynced K rt a s m w).2.2.copyCalls =
      (Array.hostSetUp K rt a s m w).2.2.copyCalls ++
        (if (Array.hostSetUp K rt a s m w).2.1._syncHost &&
            (Array.hostSetUp K rt a s m w).2.1._devArray != 0 then
          [a.syncHostCall (Array.hostSetUp K rt a s m w).2.1] else []) := y4
  have hdue : ((Array.hostSetUp K rt a s m w).2.1._syncHost &&
      (Array.hostSetUp K rt a s m w).2.1._devArray != 0) = Array.hostSyncDue K s := by
    rw [fS, dS]
    unfold Array.hostSyncDue
    exact bool_due _ _ _
  rw [hw, eY, eS, hdue, hr,
    setupHostCall_congr a (Array.hostAllocated K rt a s m w).2.1
      (Array.hostSynced K rt a s m w).2.1 (by rw [pY, pS]),
    syncHostCall_congr a (Array.hostSetUp K rt a s m w).2.1
      (Array.hostSynced K rt a s m w).2.1 pY.symm dY.symm]

/-- The copies of a successful device-side map on the slow path, in order: the copy from
the external source when setup is needed, then the copy from the host when the sync is
due. -/
theorem mapArrayStream_copyCalls (K : Constants) (rt : Runtime) (a : Array) (s : ArrayStream)
    (m : Nat) (w : World) (hfast : Array.deviceFast K a s m = false)
    (hd : bitTest m K.MAP_DEVICE = true) (hh : bitTest m K.MAP_HOST = false)
    (hok : (a.mapArrayStream K rt s m w).1 ≠ 0) :
    (a.mapArrayStream K rt s m w).2.2.copyCalls =
      w.copyCalls ++
        (if a.needsSetup s then [a.setupDeviceCall (a.mapArrayStream K rt s m w).2.1]
          else []) ++
        (if Array.deviceSyncDue K s then [a.syncDeviceCall (a.mapArrayStream K rt s m w).2.1]
          else []) := by
  obtain ⟨A1, S1, Y1, hr, _, _⟩ := mapArrayStream_ok K rt a s m w hfast hd hok
  have hw : (a.mapArrayStream K rt s m w).2.2.copyCalls =
      (Array.deviceSynced K rt a s m w).2.2.copyCalls := by
    rw [mapArrayStream_slow K rt a s m w hfast hd]
    simp only [A1, S1, Y1, Bool.not_true, Bool.false_eq_true, if_false]
    rw [invokeCallback_copyCalls]
  obtain ⟨u1, u2, _, _, _⟩ := unmapIfMapped_keeps K s
  obtain ⟨a1, a2, _, a4⟩ := allocDeviceIfNull_succ K rt a m
    { Array.unmapIfMapped K s with _mapping := m } w hh hd A1
  obtain ⟨s1, s2, s3, s4⟩ := setupIfNeeded_device_succ K rt a m (a.needsSetup s)
    (Array.deviceAllocated K rt a s m w).2.1 (Array.deviceAllocated K rt a s m w).2.2 hd S1
  have y4 := syncDeviceIfPending_succ K rt a m
    (Array.deviceSetUp K rt a s m w).2.1 (Array.deviceSetUp K rt a s m w).2.2 hd Y1
  obtain ⟨_, y2, y3, _, _⟩ := syncDeviceIfPending_keeps K rt a m
    (Array.deviceSetUp K rt a s m w).2.1 (Array.deviceSetUp K rt a s m w).2.2
  have eA : (Array.deviceAllocated K rt a s m w).2.2.copyCalls = w.copyCalls := a4
  have eS : (Array.deviceSetUp K rt a s m w).2.2.copyCalls =
      w.copyCalls ++
        (if a.needsSetup s then [a.setupDeviceCall (Array.deviceAllocated K rt a s m w).2.1]
          else []) := by
    rw [← eA]; exact s4
  have dS : (Array.deviceSetUp K rt a s m w).2.1._devArray =
      (Array.deviceAllocated K rt a s m w).2.1._devArray := s2
  have pS : (Array.deviceSetUp K rt a s m w).2.1._hostPtr = s._hostPtr := by
    have h1 : (Array.deviceSetUp K rt a s m w).2.1._hostPtr =
        (Array.deviceAllocated K rt a s m w).2.1._hostPtr := s1
    have h2 : (Array.deviceAllocated K rt a s m w).2.1._hostPtr =
        (Array.unmapIfMapped K s)._hostPtr := a1
    rw [h1, h2, u1]
  have fS : (Array.deviceSetUp K rt a s m w).2.1._syncDevice =
      ((Array.unmapIfMapped K s)._syncDevice || (s._devArray == 0 && s._hostPtr != 0)) := by
    have h1 : (Array.deviceSetUp K rt a s m w).2.1._syncDevice =
        (Array.deviceAllocated K rt a s m w).2.1._syncDevice := s3
    have h2 : (Array.deviceAllocated K rt a s m w).2.1._syncDevice =
        ((Array.unmapIfMapped K s)._syncDevice ||
          ((Array.unmapIfMapped K s)._devArray == 0 && (Array.unmapIfMapped K s)._hostPtr != 0))
        := a2
    rw [h1, h2, u1, u2]
  have pY : (Array.deviceSynced K rt a s m w).2.1._hostPtr =
      (Array.deviceSetUp K rt a s m w).2.1._hostPtr := y2
  have dY : (Array.deviceSynced K rt a s m w).2.1._devArray =
      (Array.deviceSetUp K rt a s m w).2.1._devArray := y3
  have eY : (Array.deviceSynced K rt a s m w).2.2.copyCalls =
      (Array.deviceSetUp K rt a s m w).2.2.copyCalls ++
        (if (Array.deviceSetUp K rt a s m w).2.1._syncDevice &&
            (Array.deviceSetUp K rt a s m w).2.1._hostPtr != 0 then
          [a.syncDeviceCall (Array.deviceSetUp K rt a s m w).2.1] else []) := y4
  have hdue : ((Array.deviceSetUp K rt a s m w).2.1._syncDevice &&
      (Array.deviceSetUp K rt a s m w).2.1._hostPtr != 0) = Array.deviceSyncDue K s := by
    rw [fS, pS]
    unfold Array.deviceSyncDue
    exact bool_due _ _ _
  rw [hw, eY, eS, hdue, hr,
    setupDeviceCall_congr a (Array.deviceAllocated K rt a s m w).2.1
      (Array.deviceSynced K rt a s m w).2.1 (by rw [dY, dS]),
    syncDeviceCall_congr a (Array.deviceSetUp K rt a s m w).2.1
      (Array.deviceSynced K rt a s m w).2.1 pY.symm dY.symm]

end osgCuda

namespace osgCuda

open osgCompute

theorem hostFast_of_needsSetup (K : Constants) (a : Array) (s : ArrayStream) (m : Nat)
    (h : a.needsSetup s = true) : Array.hostFast K a s m = false := by
  simp [Array.hostFast, h]

theorem deviceFast_of_needsSetup (K : Constants) (a : Array) (s : ArrayStream) (m : Nat)
    (h : a.needsSetup s = true) : Array.deviceFast K a s m = false := by
  simp [Array.deviceFast, h]

theorem needsSetup_of_no_source (a : Array) (s : ArrayStream) (hi : a._image = none)
    (ha : a._array = none) : a.needsSetup s = false := by
  simp [Array.needsSetup, hi, ha]

theorem mapStream_fast_copyCalls (K : Constants) (rt : Runtime) (a : Array) (s : ArrayStream)
    (m : Nat) (w : World) (hfast : Array.hostFast K a s m = true) :
    (a.mapStream K rt s m w).2.2.copyCalls = w.copyCalls ∧
    (a.mapStream K rt s m w).2.1 = { s with _mapping := m } := by
  unfold Array.hostFast at hfast
  unfold Array.mapStream
  simp only []
  rw [if_pos hfast]
  exact ⟨invokeCallback_copyCalls _ _ _ _ _ _ _, rfl⟩

theorem mapArrayStream_fast_copyCalls (K : Constants) (rt : Runtime) (a : Array)
    (s : ArrayStream) (m : Nat) (w : World) (hfast : Array.deviceFast K a s m = true) :
    (a.mapArrayStream K rt s m w).2.2.copyCalls = w.copyCalls ∧
    (a.mapArrayStream K rt s m w).2.1 = { s with _mapping := m } := by
  unfold Array.deviceFast at hfast
  unfold Array.mapArrayStream
  simp only []
  rw [if_pos hfast]
  exact ⟨invokeCallback_copyCalls _ _ _ _ _ _ _, rfl⟩

/-- C23: a map that needs a setup while a sync is due makes both copies and the second
overwrites the first. On the rank-1 buffer with a source, a device map loads the source
(zeros) to the device; after `unmap` the source is replaced by an image whose data is the
pattern. The following `map(ctx, HOST_SOURCE)` has needsSetup true and succeeds; it copies
the source to the host and then the device array to the host, so the host region holds the
zeros of the device and not the pattern of the source. The stream has recorded the counter
of the new source, so no later map loads it again, and the device flag that the setup set
makes the next device map copy the zeros of the host to the device: after `unmap`,
`map(ctx, DEVICE_SOURCE)`, `unmap`, `map(ctx, HOST_SOURCE)` neither side holds the pattern.
In general, a successful host map with needsSetup true and the host sync due makes the copy
from the source and then the copy from the device into the same host memory; a successful
device map likewise. -/
theorem C23_setup_and_sync_in_one_map :
    Scenario.sourceThenSync.1 = 100 ∧
    Scenario.sourceThenSync.2.2.copyCalls =
      [Call.cudaMemcpyToArray 200 300 64, Call.cudaMemcpy 100 301 64,
        Call.cudaMemcpyFromArray 100 200 64] ∧
    Scenario.sourceThenSync.2.2.mem.host 301 = Scenario.pattern ∧
    Scenario.sourceThenSync.2.2.mem.host 100 = List.replicate 64 0 ∧
    Scenario.pattern ≠ List.replicate 64 0 ∧
    (Scenario.sourceThenSync.2.1.slot Scenario.context).map
        (fun t => (t._syncHost, t._syncDevice, t._modifyCount,
          Scenario.sourceThenSync.2.1.needsSetup t)) =
      some (false, true, 2, false) ∧
    Scenario.sourceLost.2.copyCalls =
      [Call.cudaMemcpyToArray 200 300 64, Call.cudaMemcpy 100 301 64,
        Call.cudaMemcpyFromArray 100 200 64, Call.cudaMemcpyToArray 200 100 64] ∧
    Scenario.sourceLost.2.mem.host 301 = Scenario.pattern ∧
    Scenario.sourceLost.2.mem.host 100 = List.replicate 64 0 ∧
    (Scenario.sourceLost.2.mem.dev 200).bytes = List.replicate 64 0 ∧
    (Scenario.sourceLost.1.slot Scenario.context).map
        (fun t => (t._syncHost, t._syncDevice, Scenario.sourceLost.1.needsSetup t)) =
      some (false, false, false) ∧
    (∀ (K : Constants) (rt : Runtime) (a : Array) (s : ArrayStream) (m : Nat) (w : World),
      a.needsSetup s = true → Array.hostSyncDue K s = true →
      bitTest m K.MAP_HOST = true → bitTest m K.MAP_DEVICE = false →
      (a.mapStream K rt s m w).1 ≠ 0 →
      (a.mapStream K rt s m w).2.2.copyCalls =
        w.copyCalls ++ [a.setupHostCall (a.mapStream K rt s m w).2.1,
          a.syncHostCall (a.mapStream K rt s m w).2.1]) ∧
    (∀ (K : Constants) (rt : Runtime) (a : Array) (s : ArrayStream) (m : Nat) (w : World),
      a.needsSetup s = true → Array.deviceSyncDue K s = true →
      bitTest m K.MAP_DEVICE = true → bitTest m K.MAP_HOST = false →
      (a.mapArrayStream K rt s m w).1 ≠ 0 →
      (a.mapArrayStream K rt s m w).2.2.copyCalls =
        w.copyCalls ++ [a.setupDeviceCall (a.mapArrayStream K rt s m w).2.1,
          a.syncDeviceCall (a.mapArrayStream K rt s m w).2.1]) := by
  refine ⟨by decide, by decide, by decide, by decide, by decide, by decide, by decide,
    by decide, by decide, by decide, by decide, ?_, ?_⟩
  · intro K rt a s m w hn hdue hh hd hok
    rw [mapStream_copyCalls K rt a s m w (hostFast_of_needsSetup K a s m hn) hh hd hok]
    simp [hn, hdue]
  · intro K rt a s m w hn hdue hd hh hok
    rw [mapArrayStream_copyCalls K rt a s m w (deviceFast_of_needsSetup K a s m hn) hd hh hok]
    simp [hn, hdue]

/-- C26 counterexample: on the scenario buffer (no external source) and a fresh stream,
`map(ctx, DEVICE_SOURCE)`, `unmap(ctx)`, `map(ctx, HOST_SOURCE)`: no TARGET mapping was ever
unmapped, and the host map performs a device-to-host copy. -/
theorem C26_allocation_marks_new_side :
    Scenario.array44._image = none ∧ Scenario.array44._array = none ∧
    Scenario.deviceThenHost.1 = 100 ∧
    Scenario.deviceThenHost.2.2.log =
      [Call.newStream 0, Call.mallocDevice2DArray 4 4 Scenario.desc32,
        Call.mallocHostMemory 64, Call.cudaMemcpy2DFromArray 100 16 200 4 4] := by
  decide

/-- C26 (amended): for a buffer without an external source, a map on the re-entrant path
makes no copy, and a successful map on the slow path makes the cross-side copy exactly when
the sync is due: the requested side's pending-sync flag is set (after the `unmapStream` of
a re-map, if any), or the memory of the requested side is allocated by this very map, and
the opposite side has an allocation. So besides `unmapStream`, the allocation of a side
next to an existing allocation of the opposite side makes the new side need a sync. -/
theorem C26_cross_side_copy_when_due (K : Constants) (rt : Runtime) (a : Array)
    (s : ArrayStream) (m : Nat) (w : World) (hi : a._image = none) (ha : a._array = none) :
    (Array.hostFast K a s m = true → (a.mapStream K rt s m w).2.2.copyCalls = w.copyCalls) ∧
    (Array.deviceFast K a s m = true →
      (a.mapArrayStream K rt s m w).2.2.copyCalls = w.copyCalls) ∧
    (Array.hostFast K a s m = false → bitTest m K.MAP_HOST = true →
      bitTest m K.MAP_DEVICE = false → (a.mapStream K rt s m w).1 ≠ 0 →
      (a.mapStream K rt s m w).2.2.copyCalls =
        w.copyCalls ++
          (if Array.hostSyncDue K s then [a.syncHostCall (a.mapStream K rt s m w).2.1]
            else [])) ∧
    (Array.deviceFast K a s m = false → bitTest m K.MAP_DEVICE = true →
      bitTest m K.MAP_HOST = false → (a.mapArrayStream K rt s m w).1 ≠ 0 →
      (a.mapArrayStream K rt s m w).2.2.copyCalls =
        w.copyCalls ++
          (if Array.deviceSyncDue K s then
            [a.syncDeviceCall (a.mapArrayStream K rt s m w).2.1] else [])) ∧
    (s._mapping = K.UNMAPPED →
      Array.hostSyncDue K s = ((s._syncHost || s._hostPtr == 0) && s._devArray != 0) ∧
      Array.deviceSyncDue K s = ((s._syncDevice || s._devArray == 0) && s._hostPtr != 0)) := by
  have hn := needsSetup_of_no_source a s hi ha
  refine ⟨fun hf => (mapStream_fast_copyCalls K rt a s m w hf).1,
    fun hf => (mapArrayStream_fast_copyCalls K rt a s m w hf).1, ?_, ?_, ?_⟩
  · intro hf hh hd hok
    have h := mapStream_copyCalls K rt a s m w hf hh hd hok
    rw [hn] at h
    simpa using h
  · intro hf hd hh hok
    have h := mapArrayStream_copyCalls K rt a s m w hf hd hh hok
    rw [hn] at h
    simpa using h
  · intro hu
    have e : Array.unmapIfMapped K s = s := by simp [Array.unmapIfMapped, hu]
    unfold Array.hostSyncDue Array.deviceSyncDue
    rw [e]
    exact ⟨rfl, rfl⟩

/-- Witness for C26: an unmapped stream of the scenario buffer with a device array, no host
memory and no flag set, mapped HOST_SOURCE: one copy from the device. -/
theorem C26_cross_side_copy_when_due_witness :
    (Scenario.array44.mapStream Scenario.K Scenario.runtime
      { ArrayStream.new Scenario.K with _devArray := 200 } 0x01 Scenario.world).2.2.copyCalls =
      [Call.cudaMemcpy2DFromArray 100 16 200 4 4] :=
  (C26_cross_side_copy_when_due Scenario.K Scenario.runtime Scenario.array44
    { ArrayStream.new Scenario.K with _devArray := 200 } 0x01 Scenario.world
    (by decide) (by decide)).2.2.1 (by decide) (by decide) (by decide) (by decide)

end osgCuda

namespace osgCuda

open osgCompute

/-- C24: on the rank-1 buffer with both sides allocated, the pattern is written under
`map(ctx, HOST_TARGET)`. With `unmap(ctx)` next, the following `map(ctx, DEVICE_SOURCE)`
copies the host to the device, which then holds the pattern. With `map(ctx, HOST_SOURCE)`
made before the `unmap(ctx)`, the device flag is false after the unmap, the following
`map(ctx, DEVICE_SOURCE)` makes no copy and the device still holds zeros. For every
stream mapped to the host that needs no setup, the re-entrant map replaces the recorded
mapping, so `unmapStream` after a re-map with HOST_SOURCE leaves the device flag as it
was, while the slow path of the same function goes through `unmapStream` first. -/
theorem C24_same_side_remap_drops_write_intent :
    ((Scenario.written16.2.1.slot Scenario.context).map fun s => s._mapping)
      = some Scenario.K.MAP_HOST_TARGET ∧
    Scenario.written16.2.2.copyCalls = [Call.cudaMemcpyFromArray 100 200 64] ∧
    Scenario.writeThenUnmap.2.2.copyCalls =
      [Call.cudaMemcpyFromArray 100 200 64, Call.cudaMemcpyToArray 200 100 64] ∧
    (Scenario.writeThenUnmap.2.2.mem.dev 200).bytes = Scenario.pattern ∧
    ((Scenario.remapThenUnmap.1.slot Scenario.context).map fun s => s._syncDevice)
      = some false ∧
    Scenario.remapLosesWrite.1 = 200 ∧
    Scenario.remapLosesWrite.2.2.copyCalls = [Call.cudaMemcpyFromArray 100 200 64] ∧
    Scenario.remapLosesWrite.2.2.mem.host 100 = Scenario.pattern ∧
    (Scenario.remapLosesWrite.2.2.mem.dev 200).bytes = List.replicate 64 0 ∧
    (∀ (K : Constants) (rt : Runtime) (a : Array) (s : ArrayStream) (w : World), K.Layout →
      bitTest s._mapping K.MAP_HOST = true → a.needsSetup s = false →
      (Array.unmapStream K (a.mapStream K rt s K.MAP_HOST_SOURCE w).2.1)._syncDevice
        = s._syncDevice) ∧
    (∀ (K : Constants) (s : ArrayStream), K.Layout → s._mapping = K.MAP_HOST_TARGET →
      (Array.unmapStream K s)._syncDevice = true ∧
      (Array.unmapIfMapped K s)._syncDevice = true) := by
  refine ⟨by decide, by decide, by decide, by decide, by decide, by decide, by decide,
    by decide, by decide, ?_, ?_⟩
  · intro K rt a s w hK hm hn
    obtain ⟨_, h2, _, _, _⟩ := hK
    simp only [Constants.tests, Prod.mk.injEq] at h2
    obtain ⟨b1, _, b3, b4⟩ := h2
    have hfast : Array.hostFast K a s K.MAP_HOST_SOURCE = true := by
      simp [Array.hostFast, hm, b1, hn]
    rw [(mapStream_fast_copyCalls K rt a s K.MAP_HOST_SOURCE w hfast).2]
    simp [Array.unmapStream, b3, b4]
  · intro K s hK hm
    obtain ⟨h1, _, h3, _, _⟩ := hK
    simp only [Constants.tests, Prod.mk.injEq] at h1 h3
    obtain ⟨b1, _, b3, _⟩ := h3
    have hne : s._mapping ≠ K.UNMAPPED := by
      intro h
      rw [hm] at h
      rw [h, h1.1] at b1
      exact Bool.false_ne_true b1
    have h1' : (Array.unmapStream K s)._syncDevice = true := by
      simp [Array.unmapStream, hm, b3]
    have e : Array.unmapIfMapped K s = Array.unmapStream K s := by
      have hb : (s._mapping != K.UNMAPPED) = true := by simpa using hne
      unfold Array.unmapIfMapped
      rw [if_pos hb]
    exact ⟨h1', by rw [e]; exact h1'⟩

/-- C25: `Buffer::init(context)` stores the hint of the buffer in the member of
`BufferStream`, while `allocStream` reads the member of the same name that `ArrayStream`
declares and its constructor sets to 0. The scenario buffer configured with ALLOC_DYNAMIC
allocates its host memory with `mallocHostMemory`; for every buffer and every value of the
hint the host allocation of a new stream is the plain one whenever ALLOC_DYNAMIC is not
0. -/
theorem C25_stream_hint_not_read :
    Scenario.dynamic44.isClear = false ∧
    Scenario.dynamic44.getAllocHint = Scenario.K.ALLOC_DYNAMIC ∧
    (Scenario.dynamic44.map Scenario.K Scenario.runtime Scenario.context
      Scenario.K.MAP_HOST_TARGET Scenario.world).2.2.log =
      [Call.newStream 0, Call.mallocHostMemory 64] ∧
    (((Scenario.dynamic44.map Scenario.K Scenario.runtime Scenario.context
      Scenario.K.MAP_HOST_TARGET Scenario.world).2.1.slot Scenario.context).map
        fun s => (s.BufferStream_allocHint, s._allocHint)) = some (1, 0) ∧
    (∀ (K : Constants) (b : Buffer) (context : Context),
      (freshStream K b context).BufferStream_allocHint = b.getAllocHint ∧
      (freshStream K b context)._allocHint = 0) ∧
    (∀ (K : Constants) (a : Array) (s : ArrayStream), s._allocHint = 0 →
      K.ALLOC_DYNAMIC ≠ 0 → Array.hostAllocCall K a s = Call.mallocHostMemory a.getByteSize) := by
  refine ⟨by decide, by decide, by decide, by decide, fun K b c => ⟨rfl, rfl⟩, ?_⟩
  intro K a s h0 hD
  unfold Array.hostAllocCall
  rw [h0]
  have : ((0 &&& K.ALLOC_DYNAMIC) == K.ALLOC_DYNAMIC) = false := by
    simp only [Nat.zero_and]
    simpa using Ne.symm hD
  rw [this]
  rfl

/-- C27 counterexample: for the rank-2 buffer with a source the setup copy to the device is
the flat `cudaMemcpyToArray` of all 64 bytes while the sync copy is `cudaMemcpy2DToArray`;
for the rank-3 buffer the setup copy to the host is the flat `cudaMemcpy` while the sync
copy is the 3D one. -/
theorem C27_setup_copy_is_flat :
    Scenario.sourced44.getNumDimensions = 2 ∧
    Scenario.sourced44.setupDeviceCall
      { ArrayStream.new Scenario.K with _hostPtr := 100, _devArray := 200 }
      = Call.cudaMemcpyToArray 200 300 64 ∧
    Scenario.sourced44.syncDeviceCall
      { ArrayStream.new Scenario.K with _hostPtr := 100, _devArray := 200 }
      = Call.cudaMemcpy2DToArray 200 100 16 4 4 ∧
    Scenario.sourced44.setupHostCall
      { ArrayStream.new Scenario.K with _hostPtr := 100, _devArray := 200 }
      = Call.cudaMemcpy 100 300 64 ∧
    Scenario.sourced224.getNumDimensions = 3 ∧
    Scenario.sourced224.setupHostCall
      { ArrayStream.new Scenario.K with _hostPtr := 100, _devArray := 200 }
      = Call.cudaMemcpy 100 300 64 ∧
    Scenario.sourced224.syncHostCall
      { ArrayStream.new Scenario.K with _hostPtr := 100, _devArray := 200 }
      = Call.cudaMemcpy3DFromArray 100 8 2 2 200 2 2 4 := by
  decide

/-- C27 (amended): the sync transfer has the three-way choice by rank (flat for rank 1,
row-pitched for rank 2, 3D otherwise); the setup transfer has not. Setup for a host-side
mapping is the flat `cudaMemcpy` of getByteSize() bytes for every rank; setup for a
device-side mapping is the flat `cudaMemcpyToArray` of getByteSize() bytes for rank 1 and
rank 2 and the 3D copy for rank 3. These are the copies a successful `setupStream` makes. -/
theorem C27_setup_and_sync_copies (K : Constants) (rt : Runtime) (a : Array) (s : ArrayStream)
    (m : Nat) (w : World) (hok : (Array.setupStream K rt a m s w).1 = true) :
    a.setupHostCall s = Call.cudaMemcpy s._hostPtr a.sourceData a.getByteSize ∧
    (a.getNumDimensions < 3 →
      a.setupDeviceCall s = Call.cudaMemcpyToArray s._devArray a.sourceData a.getByteSize) ∧
    (¬ a.getNumDimensions < 3 →
      a.setupDeviceCall s =
        Call.cudaMemcpy3DToArray s._devArray a.sourceData a.rowPitch (a.getDimension 0)
          (a.getDimension 1) (a.getDimension 0) (a.getDimension 1) (a.getDimension 2)) ∧
    (bitTest m K.MAP_DEVICE = true →
      (Array.setupStream K rt a m s w).2.2.copyCalls = w.copyCalls ++ [a.setupDeviceCall s]) ∧
    (bitTest m K.MAP_DEVICE = false →
      (Array.setupStream K rt a m s w).2.2.copyCalls = w.copyCalls ++ [a.setupHostCall s]) ∧
    (a.getNumDimensions = 1 →
      a.syncDeviceCall s = Call.cudaMemcpyToArray s._devArray s._hostPtr a.getByteSize ∧
      a.syncHostCall s = Call.cudaMemcpyFromArray s._hostPtr s._devArray a.getByteSize) ∧
    (a.getNumDimensions = 2 →
      a.syncDeviceCall s =
        Call.cudaMemcpy2DToArray s._devArray s._hostPtr a.rowPitch (a.getDimension 0)
          (a.getDimension 1) ∧
      a.syncHostCall s =
        Call.cudaMemcpy2DFromArray s._hostPtr a.rowPitch s._devArray (a.getDimension 0)
          (a.getDimension 1)) ∧
    (a.getNumDimensions ≠ 1 → a.getNumDimensions ≠ 2 →
      a.syncDeviceCall s =
        Call.cudaMemcpy3DToArray s._devArray s._hostPtr a.rowPitch (a.getDimension 0)
          (a.getDimension 1) (a.getDimension 0) (a.getDimension 1) (a.getDimension 2) ∧
      a.syncHostCall s =
        Call.cudaMemcpy3DFromArray s._hostPtr a.rowPitch (a.getDimension 0) (a.getDimension 1)
          s._devArray (a.getDimension 0) (a.getDimension 1) (a.getDimension 2)) := by
  refine ⟨rfl, ?_, ?_, ?_, ?_, ?_, ?_, ?_⟩
  · intro h
    simp [Array.setupDeviceCall, h]
  · intro h
    simp [Array.setupDeviceCall, h]
  · intro hd
    have h := (setupIfNeeded_device_succ K rt a m true s w hd hok).2.2.2
    simpa [Array.setupIfNeeded] using h
  · intro hd
    have h := (setupIfNeeded_host_succ K rt a m true s w hd hok).2.2.2
    simpa [Array.setupIfNeeded] using h
  · intro h
    simp [Array.syncDeviceCall, Array.syncHostCall, h]
  · intro h
    simp [Array.syncDeviceCall, Array.syncHostCall, h]
  · intro h1 h2
    simp [Array.syncDeviceCall, Array.syncHostCall, h1, h2]

/-- Witness for C27: setup of the rank-2 scenario buffer for `DEVICE_SOURCE`. -/
theorem C27_setup_and_sync_copies_witness :
    (Array.setupStream Scenario.K Scenario.runtime Scenario.sourced44 0x0100
      { ArrayStream.new Scenario.K with _devArray := 200 } Scenario.world).2.2.copyCalls
      = [Call.cudaMemcpyToArray 200 300 64] :=
  (C27_setup_and_sync_copies Scenario.K Scenario.runtime Scenario.sourced44
    { ArrayStream.new Scenario.K with _devArray := 200 } 0x0100 Scenario.world
    (by decide)).2.2.2.1 (by decide)

end osgCuda

namespace osgCuda

open osgCompute

/-- C28: `clearLocal` fills the format descriptor with `memset(.., INT_MAX, ..)`, which
stores the byte 0xFF everywhere, so every field is -1, while `allocStream` tests the fields
for INT_MAX. On an initialised array whose descriptor was never set the test does not hold:
a device-side `map` or `mapArray` calls `mallocDevice2DArray` with the descriptor of -1s and
returns what that primitive returns (200 here, null when the primitive fails). -/
theorem C28_sentinel_not_recognised :
    INT_MAX = 2147483647 ∧ memsetInt INT_MAX = -1 ∧
    (Array.new Scenario.K)._channelFormatDesc = { x := -1, y := -1, z := -1, w := -1, f := -1 } ∧
    Scenario.plain44.isClear = false ∧
    Scenario.plain44._channelFormatDesc = (Array.new Scenario.K)._channelFormatDesc ∧
    Scenario.plain44.noFormat = false ∧
    (Scenario.plain44.map Scenario.K Scenario.runtime Scenario.context
      Scenario.K.MAP_DEVICE_SOURCE Scenario.world).1 = 200 ∧
    (Scenario.plain44.map Scenario.K Scenario.runtime Scenario.context
      Scenario.K.MAP_DEVICE_SOURCE Scenario.world).2.2.log =
      [Call.newStream 0,
        Call.mallocDevice2DArray 4 4 { x := -1, y := -1, z := -1, w := -1, f := -1 }] ∧
    (Scenario.plain44.mapArray Scenario.K Scenario.runtime Scenario.context
      Scenario.K.MAP_DEVICE_SOURCE Scenario.world).1 = 200 ∧
    (Scenario.plain44.map Scenario.K Scenario.noMemory Scenario.context
      Scenario.K.MAP_DEVICE_SOURCE Scenario.world).1 = 0 ∧
    (Scenario.plain44.map Scenario.K Scenario.noMemory Scenario.context
      Scenario.K.MAP_DEVICE_SOURCE Scenario.world).2.2.log =
      [Call.newStream 0,
        Call.mallocDevice2DArray 4 4 { x := -1, y := -1, z := -1, w := -1, f := -1 }] ∧
    (∀ (K : Constants) (a : Array), (Array.new K).noFormat = false ∧
      (a.clear K).noFormat = false) := by
  refine ⟨by decide, by decide, by decide, by decide, by decide, by decide, by decide,
    by decide, by decide, by decide, by decide, fun K a => ⟨rfl, rfl⟩⟩

/-- C29: `setMemory` passes `getByteSize()` as the length whenever the count is the default
UINT_MAX, whatever the offset, and the given count otherwise, without comparing either with
the size of the region. On the 64-byte scenario buffer `setMemory(ctx, 0x7F, HOST_TARGET,
8)` calls `memset` for the 64 bytes at offsets 8 to 71, 8 bytes past the end of the host
region; an explicit count of 100 at offset 0 leaves the region as well. -/
theorem C29_setMemory_overruns :
    Scenario.array44.getByteSize = 64 ∧
    Scenario.setMemoryAt8.1 = true ∧
    Scenario.setMemoryAt8.2.1 = some { data := 100, offset := 8, value := 0x7F, length := 64 } ∧
    (Scenario.setMemoryAt8.2.1.map fun c => c.within 64) = some false ∧
    Scenario.setMemoryAt8.2.2.2.log = [Call.newStream 0, Call.mallocHostMemory 64] ∧
    Scenario.setMemoryAt8.2.2.2.mem.host 100 =
      List.replicate 8 0 ++ List.replicate 56 0x7F ∧
    ((Scenario.array44.setMemory Scenario.K Scenario.runtime Scenario.context 0x7F
      Scenario.K.MAP_HOST_TARGET 0 100 Scenario.world).2.1.map fun c => c.within 64)
      = some false ∧
    ((Scenario.array44.setMemory Scenario.K Scenario.runtime Scenario.context 0x7F
      Scenario.K.MAP_HOST_TARGET 0 UINT_MAX Scenario.world).2.1.map fun c => c.within 64)
      = some true ∧
    (∀ (K : Constants) (rt : Runtime) (a : Array) (context : Context) (value : Int)
      (mapping offset : Nat) (w : World) (c : Memset),
      (a.setMemory K rt context value mapping offset UINT_MAX w).2.1 = some c →
      c.offset = offset ∧
      c.length = (a.map K rt context mapping w).2.1.getByteSize ∧
      (0 < offset → c.within c.length = false)) := by
  refine ⟨by decide, by decide, by decide, by decide, by decide, by decide, by decide,
    by decide, ?_⟩
  intro K rt a context value mapping offset w c h
  unfold Array.setMemory at h
  simp only [beq_self_eq_true, if_true] at h
  split_ifs at h with h1 h2 h3
  · simp only [Option.some.injEq] at h
    subst h
    refine ⟨rfl, rfl, ?_⟩
    intro hpos
    simp only [Memset.within, decide_eq_false_iff_not, not_le]
    omega

end osgCuda

namespace osgCompute

/-- C32: `Memory::getAllElementsSize` returns 0 for every initialised Memory and the
product only while the Memory is clear: its test of the clear flag is the one of the
setters. For the initialised Memory with dimensions (4,4) and element size 4 it returns 0
while getElementSize() × getNumElements() is 64; `Buffer::getByteSize` returns the product
without a test. -/
theorem C32_getAllElementsSize_is_zero :
    Scenario.memory44.isClear = false ∧
    Scenario.memory44.getElementSize = 4 ∧ Scenario.memory44.getNumElements = 16 ∧
    Scenario.memory44.getAllElementsSize = 0 ∧
    ((Memory.new.setDimension 0 4).setElementSize 4).getAllElementsSize = 16 ∧
    (∀ m : Memory, m.isClear = false → m.getAllElementsSize = 0) ∧
    (∀ m : Memory, m.isClear = true →
      m.getAllElementsSize = (m.getElementSize * m.getNumElements) % UINT_SIZE) ∧
    (∀ b : Buffer, b.getByteSize = (b.getElementSize * b.getNumElements) % UINT_SIZE) := by
  refine ⟨by decide, by decide, by decide, by decide, by decide, ?_, ?_, fun _ => rfl⟩
  · intro m h
    simp [Memory.getAllElementsSize, h]
  · intro m h
    simp [Memory.getAllElementsSize, h]

end osgCompute

namespace osgCuda

open osgCompute

theorem new_rank (K : Constants) : (Array.new K).RankInvariant :=
  ⟨new_length_lt K, fun h => absurd (show true = false from h) (by decide)⟩

theorem buffer_init_success (b : Buffer) (hc : b.isClear = true)
    (hi : b.init.2.isClear = false) :
    b._dimensions ≠ [] ∧ b.init.2._dimensions = b._dimensions := by
  unfold Buffer.init at hi ⊢
  simp only [hc, Bool.not_true, Bool.false_eq_true, if_false] at hi ⊢
  split_ifs at hi ⊢ with h1 h2
  · rw [hc] at hi; exact absurd hi (by decide)
  · rw [hc] at hi; exact absurd hi (by decide)
  · exact ⟨by simpa using h1, rfl⟩

theorem buffer_init_streams_dims (b : Buffer) : b.init.2._dimensions = b._dimensions := by
  unfold Buffer.init
  split_ifs <;> rfl

theorem buffer_init_nonclear (b : Buffer) (hc : b.isClear = false) : b.init.2 = b := by
  simp [Buffer.init, hc]

theorem init_rank (K : Constants) (a : Array) (h : a.RankInvariant) :
    (a.init K).2.RankInvariant := by
  obtain ⟨hl, hr⟩ := h
  have hnd : a.getNumDimensions = a._dimensions.length := Nat.mod_eq_of_lt hl
  unfold Array.init
  simp only []
  split_ifs with h1 h2 h3 h4
  · exact new_rank K
  · exact new_rank K
  · exact new_rank K
  · exact new_rank K
  · by_cases hc : a.isClear = true
    · have hc' : a.toBuffer.isClear = true := hc
      refine ⟨?_, fun hn => ?_⟩
      · show a.toBuffer.init.2._dimensions.length < UINT_SIZE
        rw [buffer_init_streams_dims a.toBuffer]
        exact hl
      · have hn' : a.toBuffer.init.2.isClear = false := hn
        obtain ⟨hd, he⟩ := buffer_init_success a.toBuffer hc' hn'
        show 1 ≤ a.toBuffer.init.2._dimensions.length ∧ a.toBuffer.init.2._dimensions.length ≤ 3
        rw [he]
        have hpos : 0 < a._dimensions.length := List.length_pos.mpr hd
        rw [hnd] at h1
        omega
    · have hc' : a.toBuffer.isClear = false := by simpa using hc
      rw [buffer_init_nonclear a.toBuffer hc']
      exact ⟨hl, hr⟩

end osgCuda

namespace osgCuda

open osgCompute

theorem same_rank (a a' : Array) (hd : a'._dimensions = a._dimensions)
    (hc : a'.isClear = a.isClear) (h : a.RankInvariant) : a'.RankInvariant := by
  unfold Array.RankInvariant
  rw [hd, hc]
  exact h

theorem configure_rank (K : Constants) (a : Array) (op : ConfigOp) (h : a.RankInvariant) :
    (a.configure K op).RankInvariant := by
  cases op with
  | setDimension i n =>
    by_cases hc : a.isClear = true
    · have hc' : a.toBuffer.isClear = true := hc
      refine ⟨setDimension_length_lt _ i n h.1, fun hn => ?_⟩
      have h1 : (a.toBuffer.setDimension i n).isClear = true := setDimension_clear _ _ _ hc'
      have hn' : (a.toBuffer.setDimension i n).isClear = false := hn
      rw [h1] at hn'
      exact absurd hn' (by decide)
    · have hc' : a.toBuffer.isClear = false := by simpa using hc
      have e : a.toBuffer.setDimension i n = a.toBuffer := by
        simp [Buffer.setDimension, hc']
      show ({ a with toBuffer := a.toBuffer.setDimension i n } : Array).RankInvariant
      rw [e]
      exact h
  | setElementSize e =>
    refine same_rank a _ ?_ ?_ h
    · show (a.toBuffer.setElementSize e)._dimensions = a._dimensions
      unfold Buffer.setElementSize
      split_ifs <;> rfl
    · show (a.toBuffer.setElementSize e).isClear = a.toBuffer.isClear
      unfold Buffer.setElementSize
      split_ifs <;> rfl
  | setAllocHint e =>
    refine same_rank a _ ?_ ?_ h
    · show (a.toBuffer.setAllocHint e)._dimensions = a._dimensions
      unfold Buffer.setAllocHint
      split_ifs <;> rfl
    · show (a.toBuffer.setAllocHint e).isClear = a.toBuffer.isClear
      unfold Buffer.setAllocHint
      split_ifs <;> rfl
  | setImage i =>
    show (a.setImage i).RankInvariant
    rcases setImage_cases a i with e | ⟨e, _⟩ <;> rw [e] <;> exact h
  | setArray i =>
    show (a.setArray i).RankInvariant
    rcases setArray_cases a i with e | ⟨e, _⟩ <;> rw [e] <;> exact h
  | init => exact init_rank K a h
  | clear =>
    show (a.clear K).RankInvariant
    rw [clear_eq_new]; exact new_rank K

theorem configureAll_rank (K : Constants) (ops : List ConfigOp) (a : Array)
    (h : a.RankInvariant) : (a.configureAll K ops).RankInvariant := by
  induction ops generalizing a with
  | nil => exact h
  | cons op ops ih => exact ih _ (configure_rank K a op h)

theorem buffer_getDimension_of_lt (b : Buffer) (i : Nat) (hi : i < b._dimensions.length)
    (hl : b._dimensions.length < UINT_SIZE) :
    b.getDimension i = some (b._dimensions.getD i 0) := by
  have hS : SIZE_T_SIZE = 2 ^ 64 := rfl
  have hU : UINT_SIZE = 2 ^ 32 := rfl
  have hbound : (b._dimensions.length + SIZE_T_SIZE - 1) % SIZE_T_SIZE =
      b._dimensions.length - 1 := by
    rw [hS]
    rw [hU] at hl
    omega
  unfold Buffer.getDimension
  rw [hbound]
  have : ¬ i > b._dimensions.length - 1 := by omega
  rw [if_neg this]
  simp [List.getD_eq_getElem?_getD, hi]

/-- C33: every Array reached from a new one by setDimension, setElementSize, setAllocHint,
setImage, setArray, init and clear calls that is initialised has between 1 and 3
dimensions. Every index that `allocStream`, `setupStream` and `syncStream` pass to
`getDimension` is then below the number of dimensions, so the read is inside the
dimension list; the final else branch of `syncStream` (rank neither 1 nor 2) and the 3D
branch of `setupStream` (rank not below 3) are entered with rank 3 only. -/
theorem C33_rank_between_1_and_3 (K : Constants) (ops : List ConfigOp)
    (hinit : ((Array.new K).configureAll K ops).isClear = false) :
    1 ≤ ((Array.new K).configureAll K ops)._dimensions.length ∧
    ((Array.new K).configureAll K ops)._dimensions.length ≤ 3 ∧
    ((Array.new K).configureAll K ops).getNumDimensions =
      ((Array.new K).configureAll K ops)._dimensions.length ∧
    (∀ i, i ∈ ((Array.new K).configureAll K ops).allocReads ++
          ((Array.new K).configureAll K ops).setupReads ++
          ((Array.new K).configureAll K ops).syncReads →
      i < ((Array.new K).configureAll K ops)._dimensions.length ∧
      ((Array.new K).configureAll K ops).toBuffer.getDimension i =
        some (((Array.new K).configureAll K ops)._dimensions.getD i 0)) ∧
    (((Array.new K).configureAll K ops).getNumDimensions ≠ 1 →
      ((Array.new K).configureAll K ops).getNumDimensions ≠ 2 →
      ((Array.new K).configureAll K ops).getNumDimensions = 3) ∧
    (¬ ((Array.new K).configureAll K ops).getNumDimensions < 3 →
      ((Array.new K).configureAll K ops).getNumDimensions = 3) := by
  obtain ⟨hl, hr⟩ := configureAll_rank K ops (Array.new K) (new_rank K)
  obtain ⟨h1, h3⟩ := hr hinit
  have hnd : ((Array.new K).configureAll K ops).getNumDimensions =
      ((Array.new K).configureAll K ops)._dimensions.length := Nat.mod_eq_of_lt hl
  refine ⟨h1, h3, hnd, ?_, ?_, ?_⟩
  · intro i hi
    have hlt : i < ((Array.new K).configureAll K ops)._dimensions.length := by
      simp only [Array.allocReads, Array.setupReads, Array.syncReads, hnd,
        List.mem_append] at hi
      have hcases : ((Array.new K).configureAll K ops)._dimensions.length = 1 ∨
          ((Array.new K).configureAll K ops)._dimensions.length = 2 ∨
          ((Array.new K).configureAll K ops)._dimensions.length = 3 := by omega
      rcases hcases with e | e | e <;> rw [e] at hi ⊢ <;> simp at hi <;> omega
    exact ⟨hlt, buffer_getDimension_of_lt _ i hlt hl⟩
  · intro n1 n2
    rw [hnd] at n1 n2 ⊢
    omega
  · intro n3
    rw [hnd] at n3 ⊢
    omega

/-- Witness for C33: the rank-3 configuration (2,2,4) with element size 4, initialised. -/
theorem C33_rank_between_1_and_3_witness :
    ((Array.new Scenario.K).configureAll Scenario.K
      [ConfigOp.setDimension 2 4, ConfigOp.setDimension 0 2, ConfigOp.setDimension 1 2,
        ConfigOp.setElementSize 4, ConfigOp.init])._dimensions.length ≤ 3 ∧
    ((Array.new Scenario.K).configureAll Scenario.K
      [ConfigOp.setDimension 2 4, ConfigOp.setDimension 0 2, ConfigOp.setDimension 1 2,
        ConfigOp.setElementSize 4, ConfigOp.init]).syncReads = [0, 0, 1, 0, 1, 2] ∧
    ((Array.new Scenario.K).configureAll Scenario.K
      [ConfigOp.setDimension 2 4, ConfigOp.setDimension 0 2, ConfigOp.setDimension 1 2,
        ConfigOp.setElementSize 4, ConfigOp.init]).toBuffer.getDimension 2 = some 4 ∧
    ((Array.new Scenario.K).configureAll Scenario.K
      [ConfigOp.setDimension 3 4, ConfigOp.setElementSize 4, ConfigOp.init]).isClear = true :=
  ⟨(C33_rank_between_1_and_3 Scenario.K
      [ConfigOp.setDimension 2 4, ConfigOp.setDimension 0 2, ConfigOp.setDimension 1 2,
        ConfigOp.setElementSize 4, ConfigOp.init] (by decide)).2.1,
   by decide, by decide, by decide⟩

end osgCuda

namespace osgCuda

open osgCompute

theorem flagsKept_refl (s : ArrayStream) : s.flagsKept s := ⟨fun h => h, fun h => h⟩

theorem flagsKept_trans (s t u : ArrayStream) (h1 : s.flagsKept t) (h2 : t.flagsKept u) :
    s.flagsKept u := ⟨fun h => h2.1 (h1.1 h), fun h => h2.2 (h1.2 h)⟩

theorem unmapStream_flags (K : Constants) (s : ArrayStream) :
    s.flagsKept (Array.unmapStream K s) := by
  unfold ArrayStream.flagsKept Array.unmapStream
  split_ifs <;> simp

theorem unmapIfMapped_flags (K : Constants) (s : ArrayStream) :
    s.flagsKept (Array.unmapIfMapped K s) :=
  ⟨(unmapIfMapped_keeps K s).2.2.2.2, (unmapIfMapped_keeps K s).2.2.2.1⟩

theorem allocStream_flags (K : Constants) (rt : Runtime) (a : Array) (m : Nat)
    (s : ArrayStream) (w : World) : s.flagsKept (Array.allocStream K rt a m s w).2.1 := by
  unfold ArrayStream.flagsKept Array.allocStream
  simp only []
  split_ifs <;> simp

theorem setupStream_flags (K : Constants) (rt : Runtime) (a : Array) (m : Nat)
    (s : ArrayStream) (w : World) : s.flagsKept (Array.setupStream K rt a m s w).2.1 := by
  unfold ArrayStream.flagsKept Array.setupStream
  split_ifs
  · exact ⟨fun h => h, fun h => h⟩
  · simp only []
    split <;> simp
  · exact ⟨fun h => h, fun h => h⟩
  · simp only []
    split <;> simp
  · exact ⟨fun h => h, fun h => h⟩

theorem syncStream_failed (K : Constants) (rt : Runtime) (a : Array) (m : Nat)
    (s : ArrayStream) (w : World) (h : (Array.syncStream K rt a m s w).1 = false) :
    (Array.syncStream K rt a m s w).2.1 = s := by
  unfold Array.syncStream at h ⊢
  split_ifs at h ⊢ with h1 h2
  · simp only [] at h ⊢
    cases hm : rt.memcpy (a.syncDeviceCall s) w.mem with
    | none => rfl
    | some m' => simp [hm] at h
  · simp only [] at h ⊢
    cases hm : rt.memcpy (a.syncHostCall s) w.mem with
    | none => rfl
    | some m' => simp [hm] at h
  · rfl

/-- What a successful `syncStream` did: in its device branch the copy from the host to the
device succeeded and only the device flag is cleared; in its host branch the copy from the
device to the host succeeded and only the host flag is cleared. -/
theorem syncStream_succeeded (K : Constants) (rt : Runtime) (a : Array) (m : Nat)
    (s : ArrayStream) (w : World) (h : (Array.syncStream K rt a m s w).1 = true) :
    (bitTest m K.MAP_DEVICE = true ∧
      (∃ mem, rt.memcpy (a.syncDeviceCall s) w.mem = some mem) ∧
      (Array.syncStream K rt a m s w).2.1 = { s with _syncDevice := false } ∧
      (Array.syncStream K rt a m s w).2.2.copyCalls = w.copyCalls ++ [a.syncDeviceCall s]) ∨
    (bitTest m K.MAP_DEVICE = false ∧ bitTest m K.MAP_HOST = true ∧
      (∃ mem, rt.memcpy (a.syncHostCall s) w.mem = some mem) ∧
      (Array.syncStream K rt a m s w).2.1 = { s with _syncHost := false } ∧
      (Array.syncStream K rt a m s w).2.2.copyCalls = w.copyCalls ++ [a.syncHostCall s]) := by
  unfold Array.syncStream at h ⊢
  by_cases hd : bitTest m K.MAP_DEVICE = true
  · left
    simp only [hd, if_true] at h ⊢
    cases hm : rt.memcpy (a.syncDeviceCall s) w.mem with
    | none => simp [hm] at h
    | some m' =>
      simp only []
      refine ⟨?_, ?_, ?_, ?_⟩
      · trivial
      · first | trivial | exact ⟨m', rfl⟩
      · trivial
      · exact copyCalls_append_copy _ _ _ (syncDeviceCall_isCopy a s)
  · right
    have hd' : bitTest m K.MAP_DEVICE = false := by simpa using hd
    simp only [hd', Bool.false_eq_true, if_false] at h ⊢
    by_cases hh : bitTest m K.MAP_HOST = true
    · simp only [hh, if_true] at h ⊢
      cases hm : rt.memcpy (a.syncHostCall s) w.mem with
      | none => simp [hm] at h
      | some m' =>
        simp only []
        refine ⟨?_, ?_, ?_, ?_, ?_⟩
        · trivial
        · trivial
        · first | trivial | exact ⟨m', rfl⟩
        · trivial
        · exact copyCalls_append_copy _ _ _ (syncHostCall_isCopy a s)
    · simp [hh] at h

theorem allocHostIfNull_flags (K : Constants) (rt : Runtime) (a : Array) (m : Nat)
    (s : ArrayStream) (w : World) : s.flagsKept (Array.allocHostIfNull K rt a m s w).2.1 := by
  unfold Array.allocHostIfNull
  split_ifs
  · exact allocStream_flags K rt a m s w
  · exact flagsKept_refl s

theorem allocDeviceIfNull_flags (K : Constants) (rt : Runtime) (a : Array) (m : Nat)
    (s : ArrayStream) (w : World) :
    s.flagsKept (Array.allocDeviceIfNull K rt a m s w).2.1 := by
  unfold Array.allocDeviceIfNull
  split_ifs
  · exact allocStream_flags K rt a m s w
  · exact flagsKept_refl s

theorem setupIfNeeded_flags (K : Constants) (rt : Runtime) (a : Array) (m : Nat) (n : Bool)
    (s : ArrayStream) (w : World) :
    s.flagsKept (Array.setupIfNeeded K rt a m n s w).2.1 := by
  unfold Array.setupIfNeeded
  split_ifs
  · exact setupStream_flags K rt a m s w
  · exact flagsKept_refl s

end osgCuda

namespace osgCuda

open osgCompute

/-- The sync block of `mapStream`: it leaves the stream as it was, or it is a successful
`syncStream`. -/
theorem syncHostIfPending_cases (K : Constants) (rt : Runtime) (a : Array) (m : Nat)
    (t : ArrayStream) (w : World) :
    (Array.syncHostIfPending K rt a m t w).2.1 = t ∨
    ((Array.syncStream K rt a m t w).1 = true ∧
      Array.syncHostIfPending K rt a m t w = Array.syncStream K rt a m t w) := by
  unfold Array.syncHostIfPending
  split_ifs
  · cases h : (Array.syncStream K rt a m t w).1 with
    | false => exact Or.inl (syncStream_failed K rt a m t w h)
    | true => exact Or.inr ⟨rfl, rfl⟩
  · exact Or.inl rfl

/-- The sync block of `mapArrayStream`: it leaves the stream as it was, or it is a
successful `syncStream`. -/
theorem syncDeviceIfPending_cases (K : Constants) (rt : Runtime) (a : Array) (m : Nat)
    (t : ArrayStream) (w : World) :
    (Array.syncDeviceIfPending K rt a m t w).2.1 = t ∨
    ((Array.syncStream K rt a m t w).1 = true ∧
      Array.syncDeviceIfPending K rt a m t w = Array.syncStream K rt a m t w) := by
  unfold Array.syncDeviceIfPending
  split_ifs
  · cases h : (Array.syncStream K rt a m t w).1 with
    | false => exact Or.inl (syncStream_failed K rt a m t w h)
    | true => exact Or.inr ⟨rfl, rfl⟩
  · exact Or.inl rfl

theorem mapStream_wrong_side (K : Constants) (rt : Runtime) (a : Array) (s : ArrayStream)
    (m : Nat) (w : World) (hfast : Array.hostFast K a s m = false)
    (hm : bitTest m K.MAP_HOST = false) :
    a.mapStream K rt s m w = (0, { Array.unmapIfMapped K s with _mapping := m }, w) := by
  unfold Array.hostFast at hfast
  unfold Array.mapStream
  simp only []
  rw [hfast]
  simp [hm]

theorem mapArrayStream_wrong_side (K : Constants) (rt : Runtime) (a : Array)
    (s : ArrayStream) (m : Nat) (w : World) (hfast : Array.deviceFast K a s m = false)
    (hm : bitTest m K.MAP_DEVICE = false) :
    a.mapArrayStream K rt s m w = (0, { Array.unmapIfMapped K s with _mapping := m }, w) := by
  unfold Array.deviceFast at hfast
  unfold Array.mapArrayStream
  simp only []
  rw [hfast]
  simp [hm]

/-- `mapStream` with any mapping value: the stream it leaves has every flag that was set,
or it is the stream a successful `syncStream` left, run on a stream that had every flag
that was set, and the copy of that `syncStream` is the last copy of the call. -/
theorem mapStream_flags (K : Constants) (rt : Runtime) (a : Array) (s : ArrayStream)
    (m : Nat) (w : World) :
    s.flagsKept (a.mapStream K rt s m w).2.1 ∨
    ∃ (t : ArrayStream) (w1 : World), s.flagsKept t ∧
      (Array.syncStream K rt a m t w1).1 = true ∧
      (a.mapStream K rt s m w).2.1 = (Array.syncStream K rt a m t w1).2.1 ∧
      (a.mapStream K rt s m w).2.2.copyCalls = (Array.syncStream K rt a m t w1).2.2.copyCalls := by
  have hu : s.flagsKept ({ Array.unmapIfMapped K s with _mapping := m } : ArrayStream) :=
    unmapIfMapped_flags K s
  by_cases hfast : Array.hostFast K a s m = true
  · left
    rw [(mapStream_fast_copyCalls K rt a s m w hfast).2]
    exact flagsKept_refl s
  · have hfast' : Array.hostFast K a s m = false := by simpa using hfast
    by_cases hh : bitTest m K.MAP_HOST = true
    · have hA : s.flagsKept (Array.hostAllocated K rt a s m w).2.1 :=
        flagsKept_trans _ _ _ hu (allocHostIfNull_flags K rt a m _ w)
      have hS : s.flagsKept (Array.hostSetUp K rt a s m w).2.1 :=
        flagsKept_trans _ _ _ hA (setupIfNeeded_flags K rt a m _ _ _)
      rw [mapStream_slow K rt a s m w hfast' hh]
      by_cases A1 : (Array.hostAllocated K rt a s m w).1 = true
      · by_cases S1 : (Array.hostSetUp K rt a s m w).1 = true
        · by_cases Y1 : (Array.hostSynced K rt a s m w).1 = true
          · simp only [A1, S1, Y1, Bool.not_true, Bool.false_eq_true, if_false]
            rcases syncHostIfPending_cases K rt a m (Array.hostSetUp K rt a s m w).2.1
              (Array.hostSetUp K rt a s m w).2.2 with e | ⟨e1, e2⟩
            · left
              have e' : (Array.hostSynced K rt a s m w).2.1 =
                  (Array.hostSetUp K rt a s m w).2.1 := e
              rw [e']; exact hS
            · right
              have e' : Array.hostSynced K rt a s m w =
                  Array.syncStream K rt a m (Array.hostSetUp K rt a s m w).2.1
                    (Array.hostSetUp K rt a s m w).2.2 := e2
              refine ⟨_, _, hS, e1, ?_, ?_⟩
              · rw [e']
              · rw [invokeCallback_copyCalls, e']
          · left
            have Y1' : (Array.hostSynced K rt a s m w).1 = false := by simpa using Y1
            simp only [A1, S1, Y1', Bool.not_true, Bool.not_false, Bool.false_eq_true,
              if_false, if_true]
            rcases syncHostIfPending_cases K rt a m (Array.hostSetUp K rt a s m w).2.1
              (Array.hostSetUp K rt a s m w).2.2 with e | ⟨e1, e2⟩
            · have e' : (Array.hostSynced K rt a s m w).2.1 =
                  (Array.hostSetUp K rt a s m w).2.1 := e
              rw [e']; exact hS
            · have e' : Array.hostSynced K rt a s m w =
                  Array.syncStream K rt a m (Array.hostSetUp K rt a s m w).2.1
                    (Array.hostSetUp K rt a s m w).2.2 := e2
              rw [e', e1] at Y1'
              exact absurd Y1' (by decide)
        · left
          have S1' : (Array.hostSetUp K rt a s m w).1 = false := by simpa using S1
          simp only [A1, S1', Bool.not_true, Bool.not_false, Bool.false_eq_true, if_false,
            if_true]
          exact hS
      · left
        have A1' : (Array.hostAllocated K rt a s m w).1 = false := by simpa using A1
        simp only [A1', Bool.not_false, if_true]
        exact hA
    · left
      have hh' : bitTest m K.MAP_HOST = false := by simpa using hh
      rw [mapStream_wrong_side K rt a s m w hfast' hh']
      exact hu

/-- `mapArrayStream` with any mapping value: the stream it leaves has every flag that was
set, or it is the stream a successful `syncStream` left. -/
theorem mapArrayStream_flags (K : Constants) (rt : Runtime) (a : Array) (s : ArrayStream)
    (m : Nat) (w : World) :
    s.flagsKept (a.mapArrayStream K rt s m w).2.1 ∨
    ∃ (t : ArrayStream) (w1 : World), s.flagsKept t ∧
      (Array.syncStream K rt a m t w1).1 = true ∧
      (a.mapArrayStream K rt s m w).2.1 = (Array.syncStream K rt a m t w1).2.1 ∧
      (a.mapArrayStream K rt s m w).2.2.copyCalls =
        (Array.syncStream K rt a m t w1).2.2.copyCalls := by
  have hu : s.flagsKept ({ Array.unmapIfMapped K s with _mapping := m } : ArrayStream) :=
    unmapIfMapped_flags K s
  by_cases hfast : Array.deviceFast K a s m = true
  · left
    rw [(mapArrayStream_fast_copyCalls K rt a s m w hfast).2]
    exact flagsKept_refl s
  · have hfast' : Array.deviceFast K a s m = false := by simpa using hfast
    by_cases hh : bitTest m K.MAP_DEVICE = true
    · have hA : s.flagsKept (Array.deviceAllocated K rt a s m w).2.1 :=
        flagsKept_trans _ _ _ hu (allocDeviceIfNull_flags K rt a m _ w)
      have hS : s.flagsKept (Array.deviceSetUp K rt a s m w).2.1 :=
        flagsKept_trans _ _ _ hA (setupIfNeeded_flags K rt a m _ _ _)
      rw [mapArrayStream_slow K rt a s m w hfast' hh]
      by_cases A1 : (Array.deviceAllocated K rt a s m w).1 = true
      · by_cases S1 : (Array.deviceSetUp K rt a s m w).1 = true
        · by_cases Y1 : (Array.deviceSynced K rt a s m w).1 = true
          · simp only [A1, S1, Y1, Bool.not_true, Bool.false_eq_true, if_false]
            rcases syncDeviceIfPending_cases K rt a m (Array.deviceSetUp K rt a s m w).2.1
              (Array.deviceSetUp K rt a s m w).2.2 with e | ⟨e1, e2⟩
            · left
              have e' : (Array.deviceSynced K rt a s m w).2.1 =
                  (Array.deviceSetUp K rt a s m w).2.1 := e
              rw [e']; exact hS
            · right
              have e' : Array.deviceSynced K rt a s m w =
                  Array.syncStream K rt a m (Array.deviceSetUp K rt a s m w).2.1
                    (Array.deviceSetUp K rt a s m w).2.2 := e2
              refine ⟨_, _, hS, e1, ?_, ?_⟩
              · rw [e']
              · rw [invokeCallback_copyCalls, e']
          · left
            have Y1' : (Array.deviceSynced K rt a s m w).1 = false := by simpa using Y1
            simp only [A1, S1, Y1', Bool.not_true, Bool.not_false, Bool.false_eq_true,
              if_false, if_true]
            rcases syncDeviceIfPending_cases K rt a m (Array.deviceSetUp K rt a s m w).2.1
              (Array.deviceSetUp K rt a s m w).2.2 with e | ⟨e1, e2⟩
            · have e' : (Array.deviceSynced K rt a s m w).2.1 =
                  (Array.deviceSetUp K rt a s m w).2.1 := e
              rw [e']; exact hS
            · have e' : Array.deviceSynced K rt a s m w =
                  Array.syncStream K rt a m (Array.deviceSetUp K rt a s m w).2.1
                    (Array.deviceSetUp K rt a s m w).2.2 := e2
              rw [e', e1] at Y1'
              exact absurd Y1' (by decide)
        · left
          have S1' : (Array.deviceSetUp K rt a s m w).1 = false := by simpa using S1
          simp only [A1, S1', Bool.not_true, Bool.not_false, Bool.false_eq_true, if_false,
            if_true]
          exact hS
      · left
        have A1' : (Array.deviceAllocated K rt a s m w).1 = false := by simpa using A1
        simp only [A1', Bool.not_false, if_true]
        exact hA
    · left
      have hh' : bitTest m K.MAP_DEVICE = false := by simpa using hh
      rw [mapArrayStream_wrong_side K rt a s m w hfast' hh']
      exact hu

end osgCuda

namespace osgCuda

open osgCompute

theorem cleared_host (K : Constants) (rt : Runtime) (a : Array) (m : Nat) (s : ArrayStream)
    (r : ArrayStream × World)
    (h : s.flagsKept r.1 ∨
      ∃ (t : ArrayStream) (w1 : World), s.flagsKept t ∧
        (Array.syncStream K rt a m t w1).1 = true ∧
        r.1 = (Array.syncStream K rt a m t w1).2.1 ∧
        r.2.copyCalls = (Array.syncStream K rt a m t w1).2.2.copyCalls)
    (hs : s._syncHost = true) (hr : r.1._syncHost = false) : Array.HostTransfer K rt a m r := by
  rcases h with hk | ⟨t, w1, hk, hok, e1, e2⟩
  · rw [hk.1 hs] at hr
    exact absurd hr (by decide)
  · rcases syncStream_succeeded K rt a m t w1 hok with
      ⟨_, _, e3, _⟩ | ⟨hd, hh, ⟨mem, hm⟩, e3, e4⟩
    · rw [e1, e3] at hr
      have : t._syncHost = false := hr
      rw [hk.1 hs] at this
      exact absurd this (by decide)
    · exact ⟨t, w1, mem, hd, hh, hok, hm, e1.trans e3, e2.trans e4⟩

theorem cleared_device (K : Constants) (rt : Runtime) (a : Array) (m : Nat) (s : ArrayStream)
    (r : ArrayStream × World)
    (h : s.flagsKept r.1 ∨
      ∃ (t : ArrayStream) (w1 : World), s.flagsKept t ∧
        (Array.syncStream K rt a m t w1).1 = true ∧
        r.1 = (Array.syncStream K rt a m t w1).2.1 ∧
        r.2.copyCalls = (Array.syncStream K rt a m t w1).2.2.copyCalls)
    (hs : s._syncDevice = true) (hr : r.1._syncDevice = false) :
    Array.DeviceTransfer K rt a m r := by
  rcases h with hk | ⟨t, w1, hk, hok, e1, e2⟩
  · rw [hk.2 hs] at hr
    exact absurd hr (by decide)
  · rcases syncStream_succeeded K rt a m t w1 hok with
      ⟨hd, ⟨mem, hm⟩, e3, e4⟩ | ⟨_, _, _, e3, _⟩
    · exact ⟨t, w1, mem, hd, hok, hm, e1.trans e3, e2.trans e4⟩
    · rw [e1, e3] at hr
      have : t._syncDevice = false := hr
      rw [hk.2 hs] at this
      exact absurd this (by decide)

theorem mapArray_of_slot (K : Constants) (rt : Runtime) (a : Array) (context : Context)
    (mapping : Nat) (w : World) (s : ArrayStream) (hclear : a.isClear = false)
    (hthread : context.getAssignedThread = rt.currentThread)
    (hside : bitTest mapping K.MAP_HOST = false) (hs : a.slot context = some s) :
    a.mapArray K rt context mapping w =
      if mapping != K.UNMAPPED then
        ((a.mapArrayStream K rt s mapping w).1,
          a.setStream context (a.mapArrayStream K rt s mapping w).2.1,
          (a.mapArrayStream K rt s mapping w).2.2)
      else (0, a.setStream context (Array.unmapStream K s), w) := by
  have hl := lookupStream_of_some (Array.newStream K) a.toBuffer context w s hs
  unfold Array.mapArray
  simp only [hclear, hthread, hside, hl, Bool.false_eq_true, if_false, bne_self_eq_false]

theorem getMapping_of_slot (K : Constants) (a : Array) (context : Context) (w : World)
    (s : ArrayStream) (hclear : a.isClear = false) (hs : a.slot context = some s) :
    a.getMapping K context w = (s._mapping, a, w) := by
  have h1 : a.toBuffer.isClear = false := hclear
  have hl := lookupStream_of_some (Array.newStream K) a.toBuffer context w s hs
  simp [Array.getMapping, Buffer.getMapping, h1, hl]

/-- One call of `map`, `mapArray`, `unmap` or `getMapping` on an initialised array whose
context has a stream: the stream of the context afterwards has every flag that was set, or
it is the stream a successful `syncStream` of this call left. The array stays initialised. -/
theorem step_flags (K : Constants) (context : Context) (a : Array) (w : World)
    (c : Runtime × Op) (s : ArrayStream) (hclear : a.isClear = false)
    (hslot : a.slot context = some s) :
    (Array.step K context (a, w) c).1.isClear = false ∧
    ∃ s', (Array.step K context (a, w) c).1.slot context = some s' ∧
      (s.flagsKept s' ∨
        ∃ (m : Nat) (t : ArrayStream) (w1 : World), s.flagsKept t ∧
          (Array.syncStream K c.1 a m t w1).1 = true ∧
          s' = (Array.syncStream K c.1 a m t w1).2.1 ∧
          (Array.step K context (a, w) c).2.copyCalls =
            (Array.syncStream K c.1 a m t w1).2.2.copyCalls) := by
  obtain ⟨rt, op⟩ := c
  by_cases hthread : context.getAssignedThread = rt.currentThread
  · cases op with
    | map m =>
      have hstep : Array.step K context (a, w) (rt, Op.map m) = (a.map K rt context m w).2 := rfl
      rw [hstep]
      dsimp only
      rw [map_of_some K rt a context m w s hclear hthread hslot]
      split_ifs
      · refine ⟨hclear, _, slot_setStream a context s _ hslot, ?_⟩
        rcases mapArrayStream_flags K rt a s m w with h | ⟨t, w1, h1, h2, h3, h4⟩
        · exact Or.inl h
        · exact Or.inr ⟨m, t, w1, h1, h2, h3, h4⟩
      · refine ⟨hclear, _, slot_setStream a context s _ hslot, ?_⟩
        rcases mapStream_flags K rt a s m w with h | ⟨t, w1, h1, h2, h3, h4⟩
        · exact Or.inl h
        · exact Or.inr ⟨m, t, w1, h1, h2, h3, h4⟩
      · exact ⟨hclear, _, slot_setStream a context s _ hslot, Or.inl (unmapStream_flags K s)⟩
    | mapArray m =>
      have hstep : Array.step K context (a, w) (rt, Op.mapArray m) = (a.mapArray K rt context m w).2 := rfl
      rw [hstep]
      dsimp only
      by_cases hside : bitTest m K.MAP_HOST = true
      · have e : a.mapArray K rt context m w = (0, a, w) := by
          simp [Array.mapArray, hside]
        rw [e]
        exact ⟨hclear, s, hslot, Or.inl (flagsKept_refl s)⟩
      · have hside' : bitTest m K.MAP_HOST = false := by simpa using hside
        rw [mapArray_of_slot K rt a context m w s hclear hthread hside' hslot]
        split_ifs
        · refine ⟨hclear, _, slot_setStream a context s _ hslot, ?_⟩
          rcases mapArrayStream_flags K rt a s m w with h | ⟨t, w1, h1, h2, h3, h4⟩
          · exact Or.inl h
          · exact Or.inr ⟨m, t, w1, h1, h2, h3, h4⟩
        · exact ⟨hclear, _, slot_setStream a context s _ hslot, Or.inl (unmapStream_flags K s)⟩
    | unmap =>
      have hstep : Array.step K context (a, w) (rt, Op.unmap) = a.unmap K rt context w := rfl
      rw [hstep]
      dsimp only
      rw [unmap_of_some K rt a context w s hclear hthread hslot]
      exact ⟨hclear, _, slot_setStream a context s _ hslot, Or.inl (unmapStream_flags K s)⟩
    | getMapping =>
      have hstep : Array.step K context (a, w) (rt, Op.getMapping) = (a.getMapping K context w).2 := rfl
      rw [hstep]
      dsimp only
      rw [getMapping_of_slot K a context w s hclear hslot]
      exact ⟨hclear, s, hslot, Or.inl (flagsKept_refl s)⟩
  · cases op with
    | map m =>
      have e : a.map K rt context m w = (0, a, w) := by
        simp [Array.map, hclear, hthread]
      have hstep : Array.step K context (a, w) (rt, Op.map m) = (a.map K rt context m w).2 := rfl
      rw [hstep]
      dsimp only
      rw [e]
      exact ⟨hclear, s, hslot, Or.inl (flagsKept_refl s)⟩
    | mapArray m =>
      have e : a.mapArray K rt context m w = (0, a, w) := by
        simp [Array.mapArray, hclear, hthread]
      have hstep : Array.step K context (a, w) (rt, Op.mapArray m) = (a.mapArray K rt context m w).2 := rfl
      rw [hstep]
      dsimp only
      rw [e]
      exact ⟨hclear, s, hslot, Or.inl (flagsKept_refl s)⟩
    | unmap =>
      have e : a.unmap K rt context w = (a, w) := by
        simp [Array.unmap, hclear, hthread]
      have hstep : Array.step K context (a, w) (rt, Op.unmap) = a.unmap K rt context w := rfl
      rw [hstep]
      dsimp only
      rw [e]
      exact ⟨hclear, s, hslot, Or.inl (flagsKept_refl s)⟩
    | getMapping =>
      have hstep : Array.step K context (a, w) (rt, Op.getMapping) = (a.getMapping K context w).2 := rfl
      rw [hstep]
      dsimp only
      rw [getMapping_of_slot K a context w s hclear hslot]
      exact ⟨hclear, s, hslot, Or.inl (flagsKept_refl s)⟩

/-- The state after a sequence of calls on an initialised array whose context has a stream:
the array is initialised and the context has a stream. -/
theorem run_slot (K : Constants) (context : Context) (calls : List (Runtime × Op)) :
    ∀ (a : Array) (w : World) (s : ArrayStream), a.isClear = false →
      a.slot context = some s →
      (Array.run K context (a, w) calls).1.isClear = false ∧
      ∃ s', (Array.run K context (a, w) calls).1.slot context = some s' := by
  induction calls with
  | nil => intro a w s hclear hslot; exact ⟨hclear, s, hslot⟩
  | cons c rest ih =>
    intro a w s hclear hslot
    obtain ⟨hc1, s1, hs1, _⟩ := step_flags K context a w c s hclear hslot
    exact ih (Array.step K context (a, w) c).1 (Array.step K context (a, w) c).2 s1 hc1 hs1

theorem run_append (K : Constants) (context : Context) (aw : Array × World)
    (pre post : List (Runtime × Op)) :
    Array.run K context aw (pre ++ post) =
      Array.run K context (Array.run K context aw pre) post := by
  simp [Array.run, List.foldl_append]

theorem run_cons (K : Constants) (context : Context) (aw : Array × World)
    (c : Runtime × Op) (rest : List (Runtime × Op)) :
    Array.run K context aw (c :: rest) =
      Array.run K context (Array.step K context aw c) rest := rfl

/-- A host flag that is set before a sequence of calls and clear after it was cleared by
one call of the sequence, and that call made a successful copy into the host side. -/
theorem run_host_flag (K : Constants) (context : Context) (calls : List (Runtime × Op)) :
    ∀ (a : Array) (w : World) (s s' : ArrayStream), a.isClear = false →
      a.slot context = some s →
      (Array.run K context (a, w) calls).1.slot context = some s' →
      s._syncHost = true → s'._syncHost = false →
      ∃ (pre post : List (Runtime × Op)) (c : Runtime × Op) (s1 s2 : ArrayStream) (m : Nat),
        calls = pre ++ c :: post ∧
        (Array.run K context (a, w) pre).1.slot context = some s1 ∧ s1._syncHost = true ∧
        (Array.step K context (Array.run K context (a, w) pre) c).1.slot context = some s2 ∧
        s2._syncHost = false ∧
        Array.HostTransfer K c.1 (Array.run K context (a, w) pre).1 m
          (s2, (Array.step K context (Array.run K context (a, w) pre) c).2) := by
  induction calls with
  | nil =>
    intro a w s s' _ hslot hend hs hs'
    have e : some s = some s' := hslot.symm.trans hend
    injection e with e
    rw [← e, hs] at hs'
    exact absurd hs' (by decide)
  | cons c rest ih =>
    intro a w s s' hclear hslot hend hs hs'
    obtain ⟨hc1, s1, hs1, hfl⟩ := step_flags K context a w c s hclear hslot
    by_cases h1 : s1._syncHost = true
    · rw [run_cons] at hend
      obtain ⟨pre, post, c', t1, t2, m, e, ht1, hf1, ht2, hf2, htr⟩ :=
        ih (Array.step K context (a, w) c).1 (Array.step K context (a, w) c).2 s1 s' hc1 hs1
          hend h1 hs'
      exact ⟨c :: pre, post, c', t1, t2, m, by rw [e]; rfl, ht1, hf1, ht2, hf2, htr⟩
    · have h1' : s1._syncHost = false := by simpa using h1
      refine ⟨[], rest, c, s, s1, ?_⟩
      rcases hfl with hk | ⟨m, t, w1, hk, hok, e1, e2⟩
      · rw [hk.1 hs] at h1'
        exact absurd h1' (by decide)
      · exact ⟨m, rfl, hslot, hs, hs1, h1',
          cleared_host K c.1 a m s (s1, (Array.step K context (a, w) c).2)
            (Or.inr ⟨t, w1, hk, hok, e1, e2⟩) hs h1'⟩

/-- The device twin of `run_host_flag`. -/
theorem run_device_flag (K : Constants) (context : Context) (calls : List (Runtime × Op)) :
    ∀ (a : Array) (w : World) (s s' : ArrayStream), a.isClear = false →
      a.slot context = some s →
      (Array.run K context (a, w) calls).1.slot context = some s' →
      s._syncDevice = true → s'._syncDevice = false →
      ∃ (pre post : List (Runtime × Op)) (c : Runtime × Op) (s1 s2 : ArrayStream) (m : Nat),
        calls = pre ++ c :: post ∧
        (Array.run K context (a, w) pre).1.slot context = some s1 ∧ s1._syncDevice = true ∧
        (Array.step K context (Array.run K context (a, w) pre) c).1.slot context = some s2 ∧
        s2._syncDevice = false ∧
        Array.DeviceTransfer K c.1 (Array.run K context (a, w) pre).1 m
          (s2, (Array.step K context (Array.run K context (a, w) pre) c).2) := by
  induction calls with
  | nil =>
    intro a w s s' _ hslot hend hs hs'
    have e : some s = some s' := hslot.symm.trans hend
    injection e with e
    rw [← e, hs] at hs'
    exact absurd hs' (by decide)
  | cons c rest ih =>
    intro a w s s' hclear hslot hend hs hs'
    obtain ⟨hc1, s1, hs1, hfl⟩ := step_flags K context a w c s hclear hslot
    by_cases h1 : s1._syncDevice = true
    · rw [run_cons] at hend
      obtain ⟨pre, post, c', t1, t2, m, e, ht1, hf1, ht2, hf2, htr⟩ :=
        ih (Array.step K context (a, w) c).1 (Array.step K context (a, w) c).2 s1 s' hc1 hs1
          hend h1 hs'
      exact ⟨c :: pre, post, c', t1, t2, m, by rw [e]; rfl, ht1, hf1, ht2, hf2, htr⟩
    · have h1' : s1._syncDevice = false := by simpa using h1
      refine ⟨[], rest, c, s, s1, ?_⟩
      rcases hfl with hk | ⟨m, t, w1, hk, hok, e1, e2⟩
      · rw [hk.2 hs] at h1'
        exact absurd h1' (by decide)
      · exact ⟨m, rfl, hslot, hs, hs1, h1',
          cleared_device K c.1 a m s (s1, (Array.step K context (a, w) c).2)
            (Or.inr ⟨t, w1, hk, hok, e1, e2⟩) hs h1'⟩

end osgCuda

namespace osgCuda

open osgCompute

/-- C31: no pending sync is dropped. For an initialised array whose context has a stream:
`unmapStream`, `allocStream` and `setupStream` leave every set pending-sync flag set, and a
`syncStream` that fails returns the stream unchanged. When `mapStream` or `mapArrayStream`
turns a set host flag (device flag) into a clear one, the call made the copy of the host
branch (device branch) of `syncStream` and that copy returned `cudaSuccess`. Over any
sequence of `map`, `mapArray`, `unmap` and `getMapping` calls, each under its own runtime,
the context keeps its stream, and a flag that is set before the sequence and clear after it
was cleared by one call of the sequence that made such a successful copy. On the rank-1
scenario buffer, after a device write, `map(ctx, MAP_HOST_SOURCE)` clears the host flag with
the copy `cudaMemcpyFromArray(100, 200, 64)`; when that copy fails the flag stays set. -/
theorem C31_pending_sync_not_dropped (K : Constants) (context : Context) (a : Array)
    (w : World) (s : ArrayStream) (calls : List (Runtime × Op))
    (hclear : a.isClear = false) (hslot : a.slot context = some s) :
    (∀ (rt : Runtime) (m : Nat) (t : ArrayStream) (w1 : World),
      t.flagsKept (Array.unmapStream K t) ∧
      t.flagsKept (Array.allocStream K rt a m t w1).2.1 ∧
      t.flagsKept (Array.setupStream K rt a m t w1).2.1 ∧
      ((Array.syncStream K rt a m t w1).1 = false →
        (Array.syncStream K rt a m t w1).2.1 = t) ∧
      (t._syncHost = true → (a.mapStream K rt t m w1).2.1._syncHost = false →
        Array.HostTransfer K rt a m
          ((a.mapStream K rt t m w1).2.1, (a.mapStream K rt t m w1).2.2)) ∧
      (t._syncDevice = true → (a.mapStream K rt t m w1).2.1._syncDevice = false →
        Array.DeviceTransfer K rt a m
          ((a.mapStream K rt t m w1).2.1, (a.mapStream K rt t m w1).2.2)) ∧
      (t._syncHost = true → (a.mapArrayStream K rt t m w1).2.1._syncHost = false →
        Array.HostTransfer K rt a m
          ((a.mapArrayStream K rt t m w1).2.1, (a.mapArrayStream K rt t m w1).2.2)) ∧
      (t._syncDevice = true → (a.mapArrayStream K rt t m w1).2.1._syncDevice = false →
        Array.DeviceTransfer K rt a m
          ((a.mapArrayStream K rt t m w1).2.1, (a.mapArrayStream K rt t m w1).2.2))) ∧
    (∀ s', (Array.run K context (a, w) calls).1.slot context = some s' →
      (s._syncHost = true → s'._syncHost = false →
        ∃ (pre post : List (Runtime × Op)) (c : Runtime × Op) (s1 s2 : ArrayStream) (m : Nat),
          calls = pre ++ c :: post ∧
          (Array.run K context (a, w) pre).1.slot context = some s1 ∧
          s1._syncHost = true ∧
          (Array.step K context (Array.run K context (a, w) pre) c).1.slot context =
            some s2 ∧
          s2._syncHost = false ∧
          Array.HostTransfer K c.1 (Array.run K context (a, w) pre).1 m
            (s2, (Array.step K context (Array.run K context (a, w) pre) c).2)) ∧
      (s._syncDevice = true → s'._syncDevice = false →
        ∃ (pre post : List (Runtime × Op)) (c : Runtime × Op) (s1 s2 : ArrayStream) (m : Nat),
          calls = pre ++ c :: post ∧
          (Array.run K context (a, w) pre).1.slot context = some s1 ∧
          s1._syncDevice = true ∧
          (Array.step K context (Array.run K context (a, w) pre) c).1.slot context =
            some s2 ∧
          s2._syncDevice = false ∧
          Array.DeviceTransfer K c.1 (Array.run K context (a, w) pre).1 m
            (s2, (Array.step K context (Array.run K context (a, w) pre) c).2))) ∧
    (∃ s', (Array.run K context (a, w) calls).1.slot context = some s') ∧
    (Scenario.devicePending._syncHost = true ∧
      (Scenario.afterHostRead Scenario.runtime)._syncHost = false ∧
      (Array.run Scenario.K Scenario.context Scenario.afterDeviceWrite
        (Scenario.hostRead Scenario.runtime)).2.copyCalls =
        [Call.cudaMemcpyFromArray 100 200 64] ∧
      (Scenario.afterHostRead Scenario.noCopy)._syncHost = true ∧
      (Scenario.array16.mapStream Scenario.K Scenario.runtime Scenario.hostPending
        Scenario.K.MAP_HOST_SOURCE Scenario.world).2.1._syncHost = false ∧
      (Scenario.array16.mapStream Scenario.K Scenario.noCopy Scenario.hostPending
        Scenario.K.MAP_HOST_SOURCE Scenario.world).2.1._syncHost = true) := by
  refine ⟨?_, ?_, ?_, ?_⟩
  · intro rt m t w1
    refine ⟨unmapStream_flags K t, allocStream_flags K rt a m t w1,
      setupStream_flags K rt a m t w1, syncStream_failed K rt a m t w1, ?_, ?_, ?_, ?_⟩
    · exact cleared_host K rt a m t _ (mapStream_flags K rt a t m w1)
    · exact cleared_device K rt a m t _ (mapStream_flags K rt a t m w1)
    · exact cleared_host K rt a m t _ (mapArrayStream_flags K rt a t m w1)
    · exact cleared_device K rt a m t _ (mapArrayStream_flags K rt a t m w1)
  · intro s' hend
    exact ⟨run_host_flag K context calls a w s s' hclear hslot hend,
      run_device_flag K context calls a w s s' hclear hslot hend⟩
  · exact (run_slot K context calls a w s hclear hslot).2
  · decide

/-- The property at the scenario: after the device write, `map(ctx, MAP_HOST_SOURCE)` under
the scenario runtime clears the host flag, and the clearing call made the successful
copy. -/
theorem C31_pending_sync_not_dropped_witness :
    Scenario.afterDeviceWrite.1.isClear = false ∧
    Scenario.afterDeviceWrite.1.slot Scenario.context = some Scenario.devicePending ∧
    Scenario.devicePending._syncHost = true ∧
    (Scenario.afterHostRead Scenario.runtime)._syncHost = false ∧
    ∃ (pre post : List (Runtime × Op)) (c : Runtime × Op) (s1 s2 : ArrayStream) (m : Nat),
      Scenario.hostRead Scenario.runtime = pre ++ c :: post ∧
      (Array.run Scenario.K Scenario.context
        (Scenario.afterDeviceWrite.1, Scenario.afterDeviceWrite.2) pre).1.slot
          Scenario.context = some s1 ∧
      s1._syncHost = true ∧
      (Array.step Scenario.K Scenario.context
        (Array.run Scenario.K Scenario.context
          (Scenario.afterDeviceWrite.1, Scenario.afterDeviceWrite.2) pre) c).1.slot
          Scenario.context = some s2 ∧
      s2._syncHost = false ∧
      Array.HostTransfer Scenario.K c.1
        (Array.run Scenario.K Scenario.context
          (Scenario.afterDeviceWrite.1, Scenario.afterDeviceWrite.2) pre).1 m
        (s2, (Array.step Scenario.K Scenario.context
          (Array.run Scenario.K Scenario.context
            (Scenario.afterDeviceWrite.1, Scenario.afterDeviceWrite.2) pre) c).2) :=
  ⟨by decide, by decide, by decide, by decide,
    ((C31_pending_sync_not_dropped Scenario.K Scenario.context Scenario.afterDeviceWrite.1
      Scenario.afterDeviceWrite.2 Scenario.devicePending (Scenario.hostRead Scenario.runtime)
      (by decide) (by decide)).2.1 (Scenario.afterHostRead Scenario.runtime)
      (by decide)).1 (by decide) (by decide)⟩

end osgCuda
